import Mathlib

/-!
# yocto_city: classification, levels, ribbons, extraction, normalization, meshes

A shallow embedding of `libs/yocto_city/yocto_city.cpp`.

Modelling conventions.

* `nlohmann::json` values are the inductive type `Json`; a tag map (`properties`) is an
  association list, and `properties[key]` is `Props.get`, which yields `null` for a
  missing key, as `operator[]` does.
* C++ exceptions and undefined behaviour are the errors of `Except Err`.
* `int` is `Int` with the 32-bit range checked where a value is produced (`std::stoi`,
  conversions from floating point, `+`).
* A `float` or `double` variable holds a rational number.  Where the program takes a
  decision on a floating-point value (the range check and the result of `std::stof`, a
  conversion to `int`, a comparison of computed areas), that value is computed as IEEE 754
  prescribes: each operation is rounded to the nearest number of its format, ties to even,
  with no fused operation and no excess precision (`round_float`, `round_double`, and the
  type `Fp` with its infinities and NaN).  The coordinates and heights that are only stored
  and passed on are the exact values of the expressions of the source, from which the
  stored `double` differs by rounding; `new_coordinate_double` is the rounded evaluation of
  the normalization.  A division by zero has no rational value and is modelled by `none`.
* A feature of the GeoJSON collection is a record of its geometry, with the positions as
  pairs of numbers, and of its tag map; `analyse_feature` is the body of the loop of
  `data_analysis` over the features.
* The scene is the list of the objects added for an element, each with the fields of its
  shape and of its material that `create_city_from_json` assigns; `polygonal_element` is
  the body of its loop for an element that is not a tree.  The triangulation
  `mapbox::earcut` of the library is a parameter.
-/

namespace YoctoCity

/-! ## Errors and JSON values -/

/-- The ways a call can fail to return: the three exceptions thrown by the library calls the
program makes, undefined behaviour of the language, and inputs of `std::stof` this model does
not cover. -/
inductive Err where
  | type_error
  | invalid_argument
  | out_of_range
  | undefined_behaviour
  | unmodelled
  deriving DecidableEq, Repr

deriving instance DecidableEq for Except

/-- A value of `nlohmann::json`. -/
inductive Json where
  | null
  | bool (b : Bool)
  | num (q : ℚ)
  | str (s : String)
  | arr (items : List Json)
  | obj (members : List (String × Json))

/-- The member `json::empty()`: true for `null` and for an array or object without elements,
false for every string (also the empty one), number and boolean. -/
def Json.empty : Json → Bool
  | .null => true
  | .arr [] => true
  | .obj [] => true
  | _ => false

/-- The implicit conversion `std::string s = j`: it throws `type_error` unless `j` is a
string. -/
def Json.get_string : Json → Except Err String
  | .str s => .ok s
  | _ => .error .type_error

/-- The comparison `j == "literal"` of a json value with a string literal. -/
def Json.eq_str : Json → String → Bool
  | .str s, t => s == t
  | _, _ => false

/-- A tag map: the json object `feature["properties"]`. -/
abbrev Props := List (String × Json)

/-- The access `properties[key]`: the value stored under `key`, `null` when there is none. -/
def Props.get (properties : Props) (key : String) : Json :=
  (properties.lookup key).getD Json.null

/-! ## Numbers -/

/-- The constant `INT_MAX` of a 32-bit `int`. -/
def INT_MAX : Int := 2147483647

/-- The constant `INT_MIN` of a 32-bit `int`. -/
def INT_MIN : Int := -2147483648

/-- An `int` result: a value outside the 32-bit range is signed overflow, which is
undefined behaviour. -/
def int_result (v : Int) : Except Err Int :=
  if INT_MIN ≤ v ∧ v ≤ INT_MAX then .ok v else .error .undefined_behaviour

/-- The conversion `(int) d` of a floating-point value: truncation toward zero, undefined
when the truncated value is not representable. -/
def to_int (d : ℚ) : Except Err Int :=
  int_result (if 0 ≤ d then ⌊d⌋ else ⌈d⌉)

/-- The function `round` of `<cmath>`: the nearest integer, halfway cases away from zero. -/
def cround (d : ℚ) : ℚ :=
  if 0 ≤ d then (⌊d + 1 / 2⌋ : Int) else (⌈d - 1 / 2⌉ : Int)

/-! ## Floating-point numbers -/

/-- The position of the leading binary digit of `n`, found by halving `n` at most `fuel`
times. -/
def log2_fuel : ℕ → ℕ → ℕ
  | 0, _ => 0
  | fuel + 1, n => if n < 2 then 0 else log2_fuel fuel (n / 2) + 1

/-- The position of the leading binary digit of a positive natural number `n`: the largest
`k` with `2 ^ k ≤ n`. -/
def nat_log2 (n : ℕ) : ℕ := log2_fuel n n

/-- The power `2 ^ e` of two with an integer exponent. -/
def pow2 (e : ℤ) : ℚ :=
  if 0 ≤ e then ((2 ^ e.toNat : ℕ) : ℚ) else 1 / ((2 ^ (-e).toNat : ℕ) : ℚ)

/-- The binary exponent of a rational `q` other than zero: the integer `k` with
`2 ^ k ≤ |q| < 2 ^ (k + 1)`. -/
def binade (q : ℚ) : ℤ :=
  let k : ℤ := (nat_log2 q.num.natAbs : ℤ) - (nat_log2 q.den : ℤ)
  if pow2 k ≤ |q| then k else k - 1

/-- The integer nearest to `x`, the even one of the two when `x` lies halfway between two
integers. -/
def round_half_even (x : ℚ) : ℤ :=
  if x - ⌊x⌋ < 1 / 2 then ⌊x⌋
  else if 1 / 2 < x - ⌊x⌋ then ⌊x⌋ + 1
  else if ⌊x⌋ % 2 = 0 then ⌊x⌋ else ⌊x⌋ + 1

/-- Rounding to nearest, ties to even, in a binary format with `prec` significant digits
whose last digit has weight `2 ^ emin` at least (the weight of the last digit of the
subnormal numbers); the exponent is not bounded above. -/
def round_to (prec : ℕ) (emin : ℤ) (q : ℚ) : ℚ :=
  let e := max (binade q - ((prec : ℤ) - 1)) emin
  (round_half_even (q / pow2 e) : ℚ) * pow2 e

/-- The number of the format `float` (IEEE 754 binary32) nearest to `q`, before the range
check. -/
def round_float (q : ℚ) : ℚ := round_to 24 (-149) q

/-- The number of the format `double` (IEEE 754 binary64) nearest to `q`, before the range
check. -/
def round_double (q : ℚ) : ℚ := round_to 53 (-1074) q

/-- The constant `FLT_MAX`, the largest finite `float`. -/
def FLT_MAX : ℚ := (2 ^ 24 - 1) * 2 ^ 104

/-- The constant `FLT_MIN`, the smallest positive normalised `float`. -/
def FLT_MIN : ℚ := 1 / 2 ^ 126

/-- The constant `__DBL_MAX__`, the largest finite `double`. -/
def DBL_MAX : ℚ := (2 ^ 53 - 1) * 2 ^ 971

/-- The constant `__DBL_MIN__`, the smallest positive normalised `double`. -/
def DBL_MIN : ℚ := 1 / 2 ^ 1022

/-- A value of a floating-point type: a finite number, an infinity with its sign, or a NaN.
The sign of a zero is not represented; it is taken to be positive where it decides the sign
of an infinity. -/
inductive Fp where
  | num (q : ℚ)
  | inf (negative : Bool)
  | nan
  deriving DecidableEq

/-- The result in `double` of an operation whose exact value is `q`: the nearest `double`,
and an infinity when that exceeds `DBL_MAX`.  It is also the `double` that stands for a
number `q` of the input. -/
def Fp.double (q : ℚ) : Fp :=
  if DBL_MAX < |round_double q| then Fp.inf (decide (q < 0)) else Fp.num (round_double q)

/-- The conversion `(float) d` of a `double`: the nearest `float`, and an infinity when that
exceeds `FLT_MAX`. -/
def Fp.to_float : Fp → Fp
  | Fp.num q => if FLT_MAX < |round_float q| then Fp.inf (decide (q < 0)) else Fp.num (round_float q)
  | Fp.inf s => Fp.inf s
  | Fp.nan => Fp.nan

/-- The negation of a floating-point value. -/
def Fp.neg : Fp → Fp
  | Fp.num q => Fp.num (-q)
  | Fp.inf s => Fp.inf (!s)
  | Fp.nan => Fp.nan

/-- The function `fabs`. -/
def Fp.abs : Fp → Fp
  | Fp.num q => Fp.num |q|
  | Fp.inf _ => Fp.inf false
  | Fp.nan => Fp.nan

/-- The addition of two `double` values. -/
def Fp.add : Fp → Fp → Fp
  | Fp.num a, Fp.num b => Fp.double (a + b)
  | Fp.num _, Fp.inf s => Fp.inf s
  | Fp.inf s, Fp.num _ => Fp.inf s
  | Fp.inf s, Fp.inf t => if s = t then Fp.inf s else Fp.nan
  | Fp.nan, _ => Fp.nan
  | _, Fp.nan => Fp.nan

/-- The subtraction of two `double` values. -/
def Fp.sub (a b : Fp) : Fp := Fp.add a (Fp.neg b)

/-- The multiplication of two `double` values. -/
def Fp.mul : Fp → Fp → Fp
  | Fp.num a, Fp.num b => Fp.double (a * b)
  | Fp.num a, Fp.inf s => if a = 0 then Fp.nan else Fp.inf (xor s (decide (a < 0)))
  | Fp.inf s, Fp.num b => if b = 0 then Fp.nan else Fp.inf (xor s (decide (b < 0)))
  | Fp.inf s, Fp.inf t => Fp.inf (xor s t)
  | Fp.nan, _ => Fp.nan
  | _, Fp.nan => Fp.nan

/-- The division of two `double` values. -/
def Fp.div : Fp → Fp → Fp
  | Fp.num a, Fp.num b =>
      if b = 0 then (if a = 0 then Fp.nan else Fp.inf (decide (a < 0))) else Fp.double (a / b)
  | Fp.num _, Fp.inf _ => Fp.num 0
  | Fp.inf s, Fp.num b => Fp.inf (xor s (decide (b < 0)))
  | Fp.inf _, Fp.inf _ => Fp.nan
  | Fp.nan, _ => Fp.nan
  | _, Fp.nan => Fp.nan

/-- The comparison `a <= b` of two floating-point values: false when either is a NaN. -/
def Fp.le : Fp → Fp → Bool
  | Fp.num a, Fp.num b => decide (a ≤ b)
  | Fp.num _, Fp.inf t => !t
  | Fp.inf s, Fp.num _ => s
  | Fp.inf s, Fp.inf t => s || !t
  | Fp.nan, _ => false
  | _, Fp.nan => false

/-- The comparison `a > b` of two floating-point values: false when either is a NaN. -/
def Fp.gt : Fp → Fp → Bool
  | Fp.num a, Fp.num b => decide (b < a)
  | Fp.num _, Fp.inf t => t
  | Fp.inf s, Fp.num _ => !s
  | Fp.inf s, Fp.inf t => !s && t
  | Fp.nan, _ => false
  | _, Fp.nan => false

/-! ## Reading numbers -/

/-- The predicate `isspace` in the C locale. -/
def isspace (c : Char) : Bool :=
  c == ' ' || c == '\t' || c == '\n' || c == '\x0b' || c == '\x0c' || c == '\r'

/-- The value of a decimal digit character. -/
def digit_value (c : Char) : Nat := c.toNat - 48

/-- The number written by a sequence of decimal digits, most significant first. -/
def digits_value (ds : List Char) : Nat :=
  ds.foldl (fun acc c => 10 * acc + digit_value c) 0

/-- An optional sign in front of a number: whether it is a minus, and what follows it. -/
def read_sign : List Char → Bool × List Char
  | '-' :: rest => (true, rest)
  | '+' :: rest => (false, rest)
  | cs => (false, cs)

/-- The function `std::stoi(s)` (base 10): leading white space is skipped, an optional sign
and the longest run of digits are read, the rest of the string is ignored.  It throws
`invalid_argument` when there is no digit and `out_of_range` when the value is not an
`int`. -/
def stoi (s : String) : Except Err Int :=
  let cs := s.toList.dropWhile isspace
  let (neg, cs) := read_sign cs
  let ds := cs.takeWhile Char.isDigit
  if ds.isEmpty then .error .invalid_argument
  else
    let v : Int := if neg then -(digits_value ds : Int) else (digits_value ds : Int)
    if v < INT_MIN ∨ INT_MAX < v then .error .out_of_range else .ok v

/-- Whether the text after the sign starts one of the spellings of `std::stof` that this
model leaves out: a hexadecimal number (`0x`), an infinity (`inf`) or a NaN (`nan`), in
either case of letters. -/
def special_float : List Char → Bool
  | '0' :: x :: _ => x == 'x' || x == 'X'
  | a :: b :: c :: _ =>
      (a.toLower == 'i' && b.toLower == 'n' && c.toLower == 'f') ||
      (a.toLower == 'n' && b.toLower == 'a' && c.toLower == 'n')
  | _ => false

/-- The exponent part of a decimal floating-point number: `e` or `E`, an optional sign and
at least one digit; zero when the text does not start with such a part. -/
def read_exponent : List Char → Int
  | e :: rest =>
      if e == 'e' || e == 'E' then
        let (neg, rest) := read_sign rest
        let ds := rest.takeWhile Char.isDigit
        if ds.isEmpty then 0
        else if neg then -(digits_value ds : Int) else (digits_value ds : Int)
      else 0
  | [] => 0

/-- The decimal number that `std::stof(s)` reads from its argument: leading white space is
skipped, then an optional sign, digits with an optional fraction after a point, and an
optional exponent are read; the rest of the string is ignored.  It throws `invalid_argument`
when no digit can be read.  Hexadecimal, infinity and NaN spellings are reported as
`unmodelled`. -/
def read_decimal (s : String) : Except Err ℚ :=
  let cs := s.toList.dropWhile isspace
  let (neg, cs) := read_sign cs
  if special_float cs then .error .unmodelled
  else
    let ip := cs.takeWhile Char.isDigit
    let rest := cs.dropWhile Char.isDigit
    let (fp, rest) :=
      match rest with
      | '.' :: r => (r.takeWhile Char.isDigit, r.dropWhile Char.isDigit)
      | _ => ([], rest)
    if ip.isEmpty && fp.isEmpty then .error .invalid_argument
    else
      let mant : ℚ := (digits_value ip : ℚ) + (digits_value fp : ℚ) / (10 : ℚ) ^ fp.length
      let v : ℚ := mant * (10 : ℚ) ^ (read_exponent rest)
      .ok (if neg then -v else v)

/-- The `float` that `std::stof` returns for the decimal number `v` it has read: the `float`
nearest to `v`.  It throws `out_of_range` when `strtof` reports a range error: on overflow,
when the nearest `float` exceeds `FLT_MAX`, and on underflow, when `v` rounded to 24 digits
with an unbounded exponent is below `FLT_MIN` and the result differs from `v` (the conduct
of the GNU C library). -/
def float_of_decimal (v : ℚ) : Except Err ℚ :=
  if FLT_MAX < |round_float v| then .error .out_of_range
  else if |round_to 24 (binade v - 23) v| < FLT_MIN ∧ round_float v ≠ v then
    .error .out_of_range
  else .ok (round_float v)

/-- The function `std::stof(s)` on decimal input. -/
def stof (s : String) : Except Err ℚ := do
  let v ← read_decimal s
  float_of_decimal v

/-! ## The city object -/

/-- The global `scale`. -/
def scale : Int := 50

/-- A point `std::array<double,2>`. -/
abbrev Point := ℚ × ℚ

/-- A point `std::array<double,2>` computed by the normalization: each coordinate is a
rational, or `none` for the infinity or NaN that a division by zero gives. -/
abbrev NewPoint := Option ℚ × Option ℚ

/-- The class `CityObject`. -/
structure CityObject where
  name : String
  type : String
  roof_shape : String
  colour : String
  level : Int
  height : ℚ
  roof_height : ℚ
  historic : String
  thickness : ℚ
  coords : List Point
  new_coords : List NewPoint
  holes : List (List Point)
  new_holes : List (List NewPoint)
  deriving DecidableEq

/-- The value-initialised object `CityObject()`: empty strings and vectors, zero numbers. -/
def CityObject.new : CityObject :=
  { name := "", type := "", roof_shape := "", colour := "", level := 0, height := 0,
    roof_height := 0, historic := "", thickness := 0, coords := [], new_coords := [],
    holes := [], new_holes := [] }

/-! ## Level inference -/

/-- The function `check_high`. -/
def check_high (properties : Props) : Bool :=
  let building_category := properties.get "building"
  building_category.eq_str "apartments" || building_category.eq_str "residential" ||
    building_category.eq_str "tower" || building_category.eq_str "hotel"

/-- The function `check_digit`: the loop clears the flag at every character in `a`..`z`, in
`A`..`B`, or equal to `;` or `,`. -/
def check_digit (lev : String) : Bool :=
  lev.toList.foldl (fun digit c =>
    if ('a' ≤ c && c ≤ 'z') || ('A' ≤ c && c ≤ 'B') || c == ';' || c == ',' then false
    else digit) true

/-- The function `check_int`: the loop clears the flag at every point character. -/
def check_int (lev : String) : Bool :=
  lev.toList.foldl (fun integer c => if c == '.' then false else integer) true

/-- The quotient `float(height) / 3.2` of `generate_building_level`: the literal is the
`double` nearest to 3.2 and the quotient is rounded to `double`.  The quotient of a `float`
by it is in the range of `double`. -/
def height_quotient (height : ℚ) : ℚ :=
  round_double (height / round_double (32 / 10))

/-- The function `generate_building_level`.  The locals `level` and `height` are threaded
through the blocks of the function in the order of the source. -/
def generate_building_level (footprint_type : String) (properties : Props) :
    Except Err Int := do
  let level : Int := 1
  let height : ℚ := -1
  let level ←
    (if !(properties.get "building:levels").empty then do
      let lev ← (properties.get "building:levels").get_string
      let digit := check_digit lev
      (if digit then
        let integer := check_int lev
        (if integer then do
          let n_levels_i ← stoi lev
          let r ← to_int (cround n_levels_i)
          int_result (r + 1)
        else do
          let n_levels_f ← stof lev
          let r ← to_int (cround n_levels_f)
          int_result (r + 1))
      else pure 1)
    else pure level)
  let height ←
    (if footprint_type == "building" && !(properties.get "height").empty then do
      let h ← (properties.get "height").get_string
      let digit := check_digit h
      (if digit then stof h else pure height)
    else pure height)
  let height ←
    (if footprint_type == "building" && !(properties.get "building:height").empty then do
      let h ← (properties.get "building:height").get_string
      let digit := check_digit h
      (if digit then stof h else pure height)
    else pure height)
  let level ← (if height > -1 then to_int (height_quotient height) else pure level)
  let high_building := check_high properties
  let level :=
    if footprint_type == "building" && !(properties.get "building").empty && high_building
    then 3 else level
  return level

/-! ## Classification -/

/-- The function `generate_roof_height`. -/
def generate_roof_height (roof_h : String) (scale : Int) : Except Err ℚ := do
  let roof_height : ℚ := 109 / 1000
  let roof_height ←
    (if roof_h != "null" then do
      let roof_hei ← stof roof_h
      pure (roof_hei / (scale : ℚ))
    else pure roof_height)
  return roof_height

/-- The function `check_pedestrian`. -/
def check_pedestrian (properties : Props) : Bool :=
  let highway_category := properties.get "highway"
  highway_category.eq_str "footway" || highway_category.eq_str "pedestrian" ||
    highway_category.eq_str "track" || highway_category.eq_str "steps" ||
    highway_category.eq_str "path" || highway_category.eq_str "living_street" ||
    highway_category.eq_str "pedestrian_area" || highway_category.eq_str "pedestrian_line"

/-- The function `assign_type`.  The object `building` is threaded through the blocks of
the function in the order of the source. -/
def assign_type (building : CityObject) (properties : Props) : Except Err CityObject :=
  if !(properties.get "building").empty then do
    let building := { building with type := "building" }
    let building ←
      (if !(properties.get "roof:shape").empty then do
        let roof_shape ← (properties.get "roof:shape").get_string
        pure
          (if roof_shape == "gabled" || roof_shape == "onion" || roof_shape == "pyramid" then
            { building with roof_shape := "gabled" }
          else if roof_shape == "flat" then
            { building with roof_shape := "flat" }
          else building)
      else pure building)
    let building ←
      (if !(properties.get "roof:height").empty then do
        let roof_h ← (properties.get "roof:height").get_string
        let roof_height ← generate_roof_height roof_h scale
        pure { building with roof_height := roof_height }
      else pure building)
    let building ←
      (if !(properties.get "historic").empty then
        let building := { building with historic := "yes" }
        (if !(properties.get "building:colour").empty then do
          let build_colour ← (properties.get "building:colour").get_string
          pure { building with colour := build_colour }
        else pure building)
      else pure building)
    let building ←
      (if !(properties.get "tourism").empty then do
        let tourism ← (properties.get "tourism").get_string
        (if tourism == "attraction" then
          let building := { building with historic := "yes" }
          (if !(properties.get "building:colour").empty then do
            let build_colour ← (properties.get "building:colour").get_string
            pure { building with colour := build_colour }
          else pure building)
        else pure building)
      else pure building)
    pure building
  else if !(properties.get "water").empty then
    pure { building with type := "water" }
  else if !(properties.get "landuse").empty then do
    let landuse ← (properties.get "landuse").get_string
    pure { building with type := landuse }
  else if !(properties.get "natural").empty then do
    let natural ← (properties.get "natural").get_string
    (if natural == "wood" then
      pure { building with type := "forest" }
    else
      pure { building with type := natural })
  else if !(properties.get "leisure").empty then do
    let leisure ← (properties.get "leisure").get_string
    pure { building with type := leisure }
  else if !(properties.get "highway").empty then
    let pedestrian := check_pedestrian properties
    (if pedestrian then
      pure { building with type := "pedestrian" }
    else
      pure { building with type := "highway" })
  else
    pure { building with type := "null" }

/-! ## Ribbon construction -/

/-- The area computation that `compute_area` carries out for each candidate, in exact
arithmetic: the coordinates are split into `vec_x` and `vec_y`, both are rotated left by
three positions, the two sums of products are accumulated, and the area is half the absolute
value of their difference.  The value that the program computes, with its roundings, is
`float_area`. -/
def polygon_area (line : List Point) : ℚ :=
  let vec_x := line.map Prod.fst
  let vec_y := line.map Prod.snd
  let shifted_vec_x := vec_x.rotate 3
  let shifted_vec_y := vec_y.rotate 3
  let sum_first := (vec_x.zip shifted_vec_y).foldl (fun sum c => sum + c.1 * c.2) 0
  let sum_second := (vec_y.zip shifted_vec_x).foldl (fun sum c => sum + c.1 * c.2) 0
  1 / 2 * |sum_first - sum_second|

/-- The candidate `line_1` of `compute_area`: the offset is applied to both coordinates. -/
def line_1 (x next_x y next_y road_thickness : ℚ) : List Point :=
  [(next_x + road_thickness, next_y + road_thickness),
   (next_x - road_thickness, next_y - road_thickness),
   (x - road_thickness, y - road_thickness), (x + road_thickness, y + road_thickness)]

/-- The candidate `line_2` of `compute_area`: the offset is applied to the x coordinate. -/
def line_2 (x next_x y next_y road_thickness : ℚ) : List Point :=
  [(next_x + road_thickness, next_y), (next_x - road_thickness, next_y),
   (x - road_thickness, y), (x + road_thickness, y)]

/-- The candidate `line_3` of `compute_area`: the offset is applied to the y coordinate. -/
def line_3 (x next_x y next_y road_thickness : ℚ) : List Point :=
  [(next_x, next_y + road_thickness), (next_x, next_y - road_thickness),
   (x, y - road_thickness), (x, y + road_thickness)]

/-- The candidate `line_1` with the `double` values that the program holds: each sum is
rounded to `double`. -/
def double_line_1 (x next_x y next_y road_thickness : Fp) : List (Fp × Fp) :=
  [(Fp.add next_x road_thickness, Fp.add next_y road_thickness),
   (Fp.sub next_x road_thickness, Fp.sub next_y road_thickness),
   (Fp.sub x road_thickness, Fp.sub y road_thickness),
   (Fp.add x road_thickness, Fp.add y road_thickness)]

/-- The candidate `line_2` with the `double` values that the program holds. -/
def double_line_2 (x next_x y next_y road_thickness : Fp) : List (Fp × Fp) :=
  [(Fp.add next_x road_thickness, next_y), (Fp.sub next_x road_thickness, next_y),
   (Fp.sub x road_thickness, y), (Fp.add x road_thickness, y)]

/-- The candidate `line_3` with the `double` values that the program holds. -/
def double_line_3 (x next_x y next_y road_thickness : Fp) : List (Fp × Fp) :=
  [(next_x, Fp.add next_y road_thickness), (next_x, Fp.sub next_y road_thickness),
   (x, Fp.sub y road_thickness), (x, Fp.add y road_thickness)]

/-- The area computation of `compute_area` as the program carries it out: each product and
each sum is rounded to `double`, the sums start from `0.0f`, and the value of
`0.5f * fabs(sum_first - sum_second)` is converted to `float`. -/
def float_area (line : List (Fp × Fp)) : Fp :=
  let vec_x := line.map Prod.fst
  let vec_y := line.map Prod.snd
  let shifted_vec_x := vec_x.rotate 3
  let shifted_vec_y := vec_y.rotate 3
  let sum_first :=
    (vec_x.zip shifted_vec_y).foldl (fun sum c => Fp.add sum (Fp.mul c.1 c.2)) (Fp.num 0)
  let sum_second :=
    (vec_y.zip shifted_vec_x).foldl (fun sum c => Fp.add sum (Fp.mul c.1 c.2)) (Fp.num 0)
  Fp.to_float (Fp.mul (Fp.num (1 / 2)) (Fp.abs (Fp.sub sum_first sum_second)))

/-- The variable `area_1` of `compute_area`: the `float` computed for the candidate
`line_1`.  A parameter that is no `double` stands for the `double` nearest to it. -/
def area_1 (x next_x y next_y road_thickness : ℚ) : Fp :=
  float_area (double_line_1 (Fp.double x) (Fp.double next_x) (Fp.double y)
    (Fp.double next_y) (Fp.double road_thickness))

/-- The variable `area_2` of `compute_area`: the `float` computed for the candidate
`line_2`. -/
def area_2 (x next_x y next_y road_thickness : ℚ) : Fp :=
  float_area (double_line_2 (Fp.double x) (Fp.double next_x) (Fp.double y)
    (Fp.double next_y) (Fp.double road_thickness))

/-- The variable `area_3` of `compute_area`: the `float` computed for the candidate
`line_3`. -/
def area_3 (x next_x y next_y road_thickness : ℚ) : Fp :=
  float_area (double_line_3 (Fp.double x) (Fp.double next_x) (Fp.double y)
    (Fp.double next_y) (Fp.double road_thickness))

/-- The function `compute_area`.  The candidate is selected as the program selects it, by
the comparisons of the three areas computed in floating point; the points returned are the
exact sums of the candidate, from which the `double` values of the program differ by
rounding. -/
def compute_area (x next_x y next_y road_thickness : ℚ) : List Point :=
  if Fp.gt (area_2 x next_x y next_y road_thickness) (area_1 x next_x y next_y road_thickness)
  then
    if Fp.gt (area_3 x next_x y next_y road_thickness)
      (area_2 x next_x y next_y road_thickness)
    then line_3 x next_x y next_y road_thickness
    else line_2 x next_x y next_y road_thickness
  else
    if Fp.gt (area_3 x next_x y next_y road_thickness)
      (area_1 x next_x y next_y road_thickness)
    then line_3 x next_x y next_y road_thickness
    else line_1 x next_x y next_y road_thickness

/-! ## Coordinate normalization -/

/-- The class `Coordinate`, the bounding box accumulator. -/
structure Coordinate where
  x_minimum : ℚ
  y_minimum : ℚ
  x_maximum : ℚ
  y_maximum : ℚ

/-- The object `Coordinate()` with its default member initialisers. -/
def Coordinate.new : Coordinate :=
  { x_minimum := DBL_MAX, y_minimum := DBL_MAX, x_maximum := DBL_MIN, y_maximum := DBL_MIN }

/-- The method `Coordinate::set_x_min`. -/
def Coordinate.set_x_min (c : Coordinate) (x_min : ℚ) : Coordinate :=
  if c.x_minimum > x_min then { c with x_minimum := x_min } else c

/-- The method `Coordinate::set_y_min`. -/
def Coordinate.set_y_min (c : Coordinate) (y_min : ℚ) : Coordinate :=
  if c.y_minimum > y_min then { c with y_minimum := y_min } else c

/-- The method `Coordinate::set_y_max`. -/
def Coordinate.set_y_max (c : Coordinate) (y_max : ℚ) : Coordinate :=
  if c.y_maximum < y_max then { c with y_maximum := y_max } else c

/-- The method `Coordinate::set_x_max`. -/
def Coordinate.set_x_max (c : Coordinate) (x_max : ℚ) : Coordinate :=
  if c.x_maximum < x_max then { c with x_maximum := x_max } else c

/-- The method `Coordinate::update`. -/
def Coordinate.update (c : Coordinate) (x y : ℚ) : Coordinate :=
  (((c.set_x_max x).set_x_min x).set_y_max y).set_y_min y

/-- A floating-point division: a zero divisor gives an infinity or a NaN, which is no
rational number and is modelled by `none`. -/
def fdiv (a b : ℚ) : Option ℚ :=
  if b = 0 then none else some (a / b)

/-- The expression of `generate_new_coordinates` that rescales one raw coordinate `v` along
an axis of the bounding box:
`(v - minimum) / (maximum - minimum) * scale - (scale / 2)`, where `scale / 2` is an
integer division.  This is the exact value of the expression; the `double` that the program
computes, with a rounding at each operation, is `new_coordinate_double`. -/
def new_coordinate (minimum maximum v : ℚ) : Option ℚ :=
  (fdiv (v - minimum) (maximum - minimum)).map (fun r => r * (scale : ℚ) - ((scale / 2 : Int) : ℚ))

/-- The body of the loops of `generate_new_coordinates` over the points of a ring: the
pair `new_x`, `new_y` computed for the point `couple`. -/
def new_point (class_coord : Coordinate) (couple : Point) : NewPoint :=
  (new_coordinate class_coord.x_minimum class_coord.x_maximum couple.1,
   new_coordinate class_coord.y_minimum class_coord.y_maximum couple.2)

/-- The expression `(v - minimum) / (maximum - minimum) * scale - (scale / 2)` of
`generate_new_coordinates` as the program evaluates it: each operation is rounded to
`double`, and `scale` and `scale / 2` are converted from `int`.  A parameter that is no
`double` stands for the `double` nearest to it. -/
def new_coordinate_double (minimum maximum v : ℚ) : Fp :=
  Fp.sub
    (Fp.mul
      (Fp.div (Fp.sub (Fp.double v) (Fp.double minimum))
        (Fp.sub (Fp.double maximum) (Fp.double minimum)))
      (Fp.num (scale : ℚ)))
    (Fp.num ((scale / 2 : Int) : ℚ))

/-- The pair `new_x`, `new_y` that the program computes for the point `couple`, with the
roundings of the `double` arithmetic. -/
def new_point_double (class_coord : Coordinate) (couple : Point) : Fp × Fp :=
  (new_coordinate_double class_coord.x_minimum class_coord.x_maximum couple.1,
   new_coordinate_double class_coord.y_minimum class_coord.y_maximum couple.2)

/-! ## Notions used to state the properties -/

/-- A non-empty sequence of decimal digits. -/
def is_digits (ds : List Char) : Bool :=
  !ds.isEmpty && ds.all Char.isDigit

/-- The value written by the digits `ds`, a point and the digits `fs`. -/
def decimal_value (ds fs : List Char) : ℚ :=
  (digits_value ds : ℚ) + (digits_value fs : ℚ) / (10 : ℚ) ^ fs.length

/-- A numeric string and the value it denotes: an unsigned integer such as `5`, or an
unsigned decimal such as `2.5` with digits on both sides of the point. -/
inductive Numeric : String → ℚ → Prop
  | integer (ds : List Char) : is_digits ds = true → Numeric (String.mk ds) (digits_value ds)
  | decimal (ds fs : List Char) : is_digits ds = true → is_digits fs = true →
      Numeric (String.mk (ds ++ '.' :: fs)) (decimal_value ds fs)

/-- The tag `key` of the tag map is a numeric string denoting `v`. -/
def numeric_tag (properties : Props) (key : String) (v : ℚ) : Prop :=
  ∃ s, properties.get key = Json.str s ∧ Numeric s v

/-- The tag `key` is missing from the tag map (or has an empty value). -/
def no_tag (properties : Props) (key : String) : Prop :=
  (properties.get key).empty = true

/-- The tag `key` is missing or holds a string. -/
def string_or_no_tag (properties : Props) (key : String) : Prop :=
  no_tag properties key ∨ ∃ s, properties.get key = Json.str s

/-- A string with at least one letter `a`..`z` or `A`..`Z`, or a list separator `;` or
`,`. -/
def has_letter_or_separator (s : String) : Bool :=
  s.toList.any (fun c => ('a' ≤ c && c ≤ 'z') || ('A' ≤ c && c ≤ 'Z') || c == ';' || c == ',')

/-- The number that `generate_building_level` reads from a numeric string `s` denoting `v`:
`v` itself when `s` has no point, since `std::stoi` reads it, and the `float` nearest to `v`
when `s` has a point, since `std::stof` reads it. -/
def levels_number (s : String) (v : ℚ) : Except Err ℚ :=
  if check_int s then .ok v else float_of_decimal v

/-- The tag `building:levels` is a numeric string denoting `v`, and `w` is the number read
from it. -/
def levels_tag (properties : Props) (v w : ℚ) : Prop :=
  ∃ s, properties.get "building:levels" = Json.str s ∧ Numeric s v ∧
    levels_number s v = Except.ok w

/-- A `building:levels` tag that is missing or well formed: a numeric string that is read as
a number whose level, the rounded value plus one, is an `int`. -/
def well_formed_levels (properties : Props) : Prop :=
  no_tag properties "building:levels" ∨
    ∃ v w, levels_tag properties v w ∧ round w + 1 ≤ INT_MAX

/-- The tag `key` is a numeric string denoting `h`, and `f` is the `float` that `std::stof`
reads from it. -/
def height_tag (properties : Props) (key : String) (h f : ℚ) : Prop :=
  numeric_tag properties key h ∧ float_of_decimal h = Except.ok f

/-- A height tag that is missing or well formed: a numeric string that is read as a `float`
whose number of floors of 3.2 units is an `int`. -/
def well_formed_height (properties : Props) (key : String) : Prop :=
  no_tag properties key ∨ ∃ h f, height_tag properties key h f ∧ ⌊height_quotient f⌋ ≤ INT_MAX

/-! ## The blocks of `generate_building_level` -/

/-- The block of `generate_building_level` that reads the `building:levels` tag: the value
of `level` after the block, given its value before. -/
def levels_block (properties : Props) (level : Int) : Except Err Int :=
  if !(properties.get "building:levels").empty then do
    let lev ← (properties.get "building:levels").get_string
    let digit := check_digit lev
    (if digit then
      let integer := check_int lev
      (if integer then do
        let n_levels_i ← stoi lev
        let r ← to_int (cround n_levels_i)
        int_result (r + 1)
      else do
        let n_levels_f ← stof lev
        let r ← to_int (cround n_levels_f)
        int_result (r + 1))
    else pure 1)
  else pure level

/-- Either of the two blocks of `generate_building_level` that read a height tag (`height`,
then `building:height`): the value of `height` after the block, given its value before. -/
def height_block (footprint_type : String) (properties : Props) (key : String) (height : ℚ) :
    Except Err ℚ :=
  if footprint_type == "building" && !(properties.get key).empty then do
    let h ← (properties.get key).get_string
    let digit := check_digit h
    (if digit then stof h else pure height)
  else pure height

/-- The block of `generate_building_level` that derives the level from the height. -/
def override_block (level : Int) (height : ℚ) : Except Err Int :=
  if height > -1 then to_int (height_quotient height) else pure level

/-! ## The blocks of `assign_type` for a feature with a `building` tag -/

/-- The block of `assign_type` that reads the `roof:shape` tag. -/
def roof_shape_block (building : CityObject) (properties : Props) : Except Err CityObject :=
  if !(properties.get "roof:shape").empty then do
    let roof_shape ← (properties.get "roof:shape").get_string
    pure
      (if roof_shape == "gabled" || roof_shape == "onion" || roof_shape == "pyramid" then
        { building with roof_shape := "gabled" }
      else if roof_shape == "flat" then
        { building with roof_shape := "flat" }
      else building)
  else pure building

/-- The block of `assign_type` that reads the `roof:height` tag. -/
def roof_height_block (building : CityObject) (properties : Props) : Except Err CityObject :=
  if !(properties.get "roof:height").empty then do
    let roof_h ← (properties.get "roof:height").get_string
    let roof_height ← generate_roof_height roof_h scale
    pure { building with roof_height := roof_height }
  else pure building

/-- The block of `assign_type` that reads the `historic` tag. -/
def historic_block (building : CityObject) (properties : Props) : Except Err CityObject :=
  if !(properties.get "historic").empty then
    let building := { building with historic := "yes" }
    (if !(properties.get "building:colour").empty then do
      let build_colour ← (properties.get "building:colour").get_string
      pure { building with colour := build_colour }
    else pure building)
  else pure building

/-- The block of `assign_type` that reads the `tourism` tag. -/
def tourism_block (building : CityObject) (properties : Props) : Except Err CityObject :=
  if !(properties.get "tourism").empty then do
    let tourism ← (properties.get "tourism").get_string
    (if tourism == "attraction" then
      let building := { building with historic := "yes" }
      (if !(properties.get "building:colour").empty then do
        let build_colour ← (properties.get "building:colour").get_string
        pure { building with colour := build_colour }
      else pure building)
    else pure building)
  else pure building

/-! ## The classification priority, as the specification words it -/

/-- The tags that decide the type, in the order in which they are tried. -/
def tag_priority : List String :=
  ["building", "water", "landuse", "natural", "leisure", "highway"]

/-- The highway categories that count as pedestrian ways. -/
def pedestrian_categories : List String :=
  ["footway", "pedestrian", "track", "steps", "path", "living_street", "pedestrian_area",
   "pedestrian_line"]

/-- The string held by a tag, empty when the tag holds no string. -/
def tag_value (properties : Props) (key : String) : String :=
  match properties.get key with
  | Json.str s => s
  | _ => ""

/-- The type that a matching tag gives, from the tag and its value. -/
def type_of_tag (tag value : String) : String :=
  if tag = "building" then "building"
  else if tag = "water" then "water"
  else if tag = "natural" then (if value = "wood" then "forest" else value)
  else if tag = "highway" then
    (if value ∈ pedestrian_categories then "pedestrian" else "highway")
  else value

/-- The type of the first tag of `tag_priority` that the tag map has, `null` when it has
none of them. -/
def first_matching_type (properties : Props) : String :=
  match tag_priority.find? (fun key => !(properties.get key).empty) with
  | some tag => type_of_tag tag (tag_value properties tag)
  | none => "null"

/-- The tags, other than `roof:height`, whose value `assign_type` converts to a string. -/
def converted_tags : List String :=
  ["roof:shape", "building:colour", "tourism", "landuse", "natural", "leisure"]

/-- Each of the tags that `assign_type` converts to a string is missing or holds a string. -/
def string_tags (properties : Props) : Prop :=
  ∀ key ∈ converted_tags, string_or_no_tag properties key

/-- The `roof:height` tag is missing or a numeric string in the range of `float`, which
`std::stof` reads. -/
def numeric_roof_height (properties : Props) : Prop :=
  no_tag properties "roof:height" ∨
    ∃ v f, numeric_tag properties "roof:height" v ∧ float_of_decimal v = Except.ok f

/-- The number that a block of `generate_building_level` reads from the tag `key`: the
`float` that `std::stof` returns, when the tag holds a string that `check_digit` accepts. -/
def read_number (properties : Props) (key : String) : Option ℚ :=
  match properties.get key with
  | Json.str s => if check_digit s then (stof s).toOption else none
  | _ => none

/-- The height read from the tags of a building: that of `building:height` when a number is
read from it, that of `height` otherwise. -/
def read_height (properties : Props) : Option ℚ :=
  match read_number properties "building:height" with
  | some h => some h
  | none => read_number properties "height"

/-- The number read from the tag `building:levels`, when the tag holds a string that
`check_digit` accepts: the integer that `std::stoi` returns when the string has no point,
the `float` that `std::stof` returns when it has one. -/
def read_levels (properties : Props) : Option ℚ :=
  match properties.get "building:levels" with
  | Json.str s =>
      if check_digit s then
        (if check_int s then (stoi s).toOption.map (fun n => (n : ℚ))
        else (stof s).toOption)
      else none
  | _ => none

/-- The building has a `building` tag whose value is a high subtype, so that its level is
set to 3. -/
def high_subtype (properties : Props) : Bool :=
  !(properties.get "building").empty && check_high properties

/-- The three areas of `compute_area` are computed without rounding error: each computed
`float` is the exact area of its candidate. -/
def exact_areas (x next_x y next_y road_thickness : ℚ) : Prop :=
  area_1 x next_x y next_y road_thickness =
    Fp.num (polygon_area (line_1 x next_x y next_y road_thickness)) ∧
  area_2 x next_x y next_y road_thickness =
    Fp.num (polygon_area (line_2 x next_x y next_y road_thickness)) ∧
  area_3 x next_x y next_y road_thickness =
    Fp.num (polygon_area (line_3 x next_x y next_y road_thickness))

/-! ## Quadrilaterals -/

/-- The point `q` lies on the closed segment from `a` to `b`. -/
def on_segment (a b q : Point) : Prop :=
  ∃ s : ℚ, 0 ≤ s ∧ s ≤ 1 ∧ q.1 = a.1 + s * (b.1 - a.1) ∧ q.2 = a.2 + s * (b.2 - a.2)

/-- The quadrilateral with the vertices `v0`, `v1`, `v2`, `v3`, in this order, is a
parallelogram: the side from `v1` to `v0` and the side from `v2` to `v3` are the same
vector. -/
def parallelogram (v0 v1 v2 v3 : Point) : Prop :=
  v0.1 - v1.1 = v3.1 - v2.1 ∧ v0.2 - v1.2 = v3.2 - v2.2

/-- The quadrilateral with the vertices `v0`, `v1`, `v2`, `v3`, in this order, is simple:
opposite sides have no point in common, and adjacent sides only their common vertex.  (Two
segments with rational end points that meet have a common point with rational coordinates,
so it is enough to consider such points.) -/
def simple_quadrilateral (v0 v1 v2 v3 : Point) : Prop :=
  (∀ q, on_segment v0 v1 q → on_segment v2 v3 q → False) ∧
  (∀ q, on_segment v1 v2 q → on_segment v3 v0 q → False) ∧
  (∀ q, on_segment v0 v1 q → on_segment v1 v2 q → q = v1) ∧
  (∀ q, on_segment v1 v2 q → on_segment v2 v3 q → q = v2) ∧
  (∀ q, on_segment v2 v3 q → on_segment v3 v0 q → q = v3) ∧
  (∀ q, on_segment v3 v0 q → on_segment v0 v1 q → q = v0)

/-! ## Features -/

/-- The geometry of a feature, `feature["geometry"]`, for a well-formed record: its `type`
and its `coordinates`, the positions being pairs of numbers.  The constructor `other`
stands for every type that `data_analysis` does not handle. -/
inductive Geometry where
  | Polygon (coordinates : List (List Point))
  | MultiPolygon (coordinates : List (List (List Point)))
  | LineString (coordinates : List Point)
  | MultiLineString (coordinates : List (List Point))
  | Point (coordinates : Point)
  | other

/-- A feature of the collection `geojson_file["features"]`: its geometry and its tag map
`feature["properties"]`, which also holds the identifier `@id`. -/
structure Feature where
  geometry : Geometry
  properties : Props

/-- The statement `std::replace(id.begin(), id.end(), '/', '_')`. -/
def replace_slash (id : String) : String :=
  String.mk (id.toList.map (fun c => if c == '/' then '_' else c))

/-- The function `std::to_string` on an `int` that is not negative: its decimal digits. -/
def to_string (cont : Nat) : String := Nat.repr cont

/-! ## Geometry extraction -/

/-- The function `get_thickness`. -/
def get_thickness (type : String) : ℚ :=
  if type == "pedestrian" then 5 / 100000
  else if type == "water" then 1
  else 1 / 10000

/-- The function `check_grass_type`. -/
def check_grass_type (building_type : String) : Bool :=
  building_type == "park" || building_type == "pitch" || building_type == "garden" ||
    building_type == "playground" || building_type == "greenfield" ||
    building_type == "scrub" || building_type == "heath" || building_type == "farmyard" ||
    building_type == "grass" || building_type == "farmland" ||
    building_type == "village_green" || building_type == "meadow" ||
    building_type == "orchard" || building_type == "vineyard" ||
    building_type == "recreation_ground" || building_type == "grassland"

/-- The function `check_valid_type` (its parameter `properties` is not used). -/
def check_valid_type (building : CityObject) : Bool :=
  let grass_area := check_grass_type building.type
  building.type == "building" || building.type == "water" || building.type == "sand" ||
    grass_area || building.type == "highway" || building.type == "pedestrian" ||
    building.type == "forest"

/-- The function `assign_tree_type`.  The assignments to the parameter `point` that are not
followed by a `push_back` (the type `null`) are not visible to the caller. -/
def assign_tree_type (point : CityObject) (properties : Props)
    (all_buildings : List CityObject) : Except Err (List CityObject) :=
  if !(properties.get "natural").empty then do
    let point_type_nat ← (properties.get "natural").get_string
    (if point_type_nat == "tree" then
      (if !(properties.get "type").empty then do
        let type_tree ← (properties.get "type").get_string
        (if type_tree == "palm" then
          pure (all_buildings ++ [{ point with type := "palm" }])
        else if type_tree == "pine" then
          pure (all_buildings ++ [{ point with type := "pine" }])
        else if type_tree == "cypress" then
          pure (all_buildings ++ [{ point with type := "cypress" }])
        else
          pure (all_buildings ++ [{ point with type := "standard" }]))
      else if !(properties.get "tree").empty then
        pure (all_buildings ++ [{ point with type := "standard" }])
      else if !(properties.get "genus").empty then do
        let genus_tree ← (properties.get "genus").get_string
        (if genus_tree == "Quercus" then
          pure (all_buildings ++ [{ point with type := "oak" }])
        else if genus_tree == "Cupressus" then
          pure (all_buildings ++ [{ point with type := "cypress" }])
        else if genus_tree == "Pinus" then
          pure (all_buildings ++ [{ point with type := "pine" }])
        else
          pure (all_buildings ++ [{ point with type := "standard" }]))
      else
        pure (all_buildings ++ [{ point with type := "standard" }]))
    else pure all_buildings)
  else pure all_buildings

/-- The locals of `data_analysis` that the loop over the rings of a polygon reads and
writes.  The local `couple` is empty at the start of every iteration and is left out. -/
structure RingState where
  count_list : Nat
  building : CityObject
  list_coordinates : List Point
  list_holes : List (List Point)
  all_buildings : List CityObject
  class_coord : Coordinate

/-- The end of the body of the loop over the rings, in the `Polygon` and the `MultiPolygon`
branch alike: after the last ring the holes are stored and an object of valid type is
appended. -/
def ring_end (num_lists : Nat) (st : RingState) : RingState :=
  if st.count_list == num_lists then
    let building := { st.building with holes := st.list_holes }
    let valid_type := check_valid_type building
    if valid_type then
      { st with building := building, all_buildings := st.all_buildings ++ [building] }
    else { st with building := building }
  else st

/-- The body of the loop over the rings `list_coords` of a `Polygon`. -/
def polygon_ring (id : String) (level : Int) (num_lists : Nat) (st : RingState)
    (list_coords : List Point) : RingState :=
  let st :=
    if st.count_list == 0 then
      let building := { st.building with level := level }
      let class_coord :=
        list_coords.foldl (fun c coord => c.update coord.1 coord.2) st.class_coord
      let list_coordinates :=
        list_coords.foldl (fun l coord => l ++ [coord]) st.list_coordinates
      let building :=
        { building with coords := list_coordinates, name := "building_" ++ id }
      { st with building := building, class_coord := class_coord,
                list_coordinates := list_coordinates, count_list := st.count_list + 1 }
    else
      let couple := list_coords.foldl (fun l coord => l ++ [coord]) []
      { st with list_holes := st.list_holes ++ [couple], count_list := st.count_list + 1 }
  ring_end num_lists st

/-- The body of the loop over the rings `list_coords` of one element of a `MultiPolygon`;
it differs from `polygon_ring` in that the bounding box is updated twice per point. -/
def multi_polygon_ring (id : String) (level : Int) (num_lists : Nat) (st : RingState)
    (list_coords : List Point) : RingState :=
  let st :=
    if st.count_list == 0 then
      let building := { st.building with level := level }
      let class_coord :=
        list_coords.foldl (fun c coord => (c.update coord.1 coord.2).update coord.1 coord.2)
          st.class_coord
      let list_coordinates :=
        list_coords.foldl (fun l coord => l ++ [coord]) st.list_coordinates
      let building :=
        { building with coords := list_coordinates, name := "building_" ++ id }
      { st with building := building, class_coord := class_coord,
                list_coordinates := list_coordinates, count_list := st.count_list + 1 }
    else
      let couple := list_coords.foldl (fun l coord => l ++ [coord]) []
      { st with list_holes := st.list_holes ++ [couple], count_list := st.count_list + 1 }
  ring_end num_lists st

/-- The body of the loop over the elements `multi_pol` of a `MultiPolygon`: the loop over
its rings, after which only `count_list` is reset. -/
def multi_polygon_element (id : String) (level : Int) (st : RingState)
    (multi_pol : List (List Point)) : RingState :=
  let num_lists := multi_pol.length
  let st := multi_pol.foldl (multi_polygon_ring id level num_lists) st
  { st with count_list := 0 }

/-- The locals of `data_analysis` that the loop over the segments of a line reads and
writes.  The counter `cont` is an `int` that is never negative. -/
structure LineState where
  cont : Nat
  all_buildings : List CityObject
  class_coord : Coordinate

/-- The statement `cont++` on the `int` counter `cont`: the increment of `INT_MAX` overflows,
which is undefined behaviour.  The loop index `i` of the same loop is never larger than
`cont` and is incremented after it, so that its overflow is covered as well. -/
def increment (cont : Nat) : Except Err Nat :=
  if (cont : Int) < INT_MAX then pure (cont + 1) else Except.error Err.undefined_behaviour

/-- The body of the loop over the segments of a `LineString`, for the segment from
`coord_i` to `coord_i_next`. -/
def line_string_segment (id : String) (properties : Props) (st : LineState)
    (segment : Point × Point) : Except Err LineState :=
  let x := segment.1.1
  let y := segment.1.2
  let next_x := segment.2.1
  let next_y := segment.2.2
  let line_thickness : ℚ := 5 / 100000
  let area := compute_area x next_x y next_y line_thickness
  let line := { CityObject.new with name := "line_" ++ id ++ to_string st.cont }
  do
  let cont ← increment st.cont
  (if !(properties.get "highway").empty then
    let pedestrian := check_pedestrian properties
    let line := { line with type := if pedestrian then "pedestrian" else "highway" }
    let line := { line with thickness := get_thickness line.type, coords := area }
    pure { cont := cont, all_buildings := st.all_buildings ++ [line],
           class_coord := area.foldl (fun c coord => c.update coord.1 coord.2) st.class_coord }
  else if !(properties.get "natural").empty then do
    let natural ← (properties.get "natural").get_string
    let line := { line with type := natural }
    let line := { line with thickness := get_thickness line.type, coords := area }
    pure { cont := cont, all_buildings := st.all_buildings ++ [line],
           class_coord := area.foldl (fun c coord => c.update coord.1 coord.2) st.class_coord }
  else
    pure { st with cont := cont })

/-- The body of the loop over the segments of a line of a `MultiLineString`. -/
def multi_line_string_segment (id : String) (properties : Props) (st : LineState)
    (segment : Point × Point) : Except Err LineState :=
  let x := segment.1.1
  let y := segment.1.2
  let next_x := segment.2.1
  let next_y := segment.2.2
  let line_thickness : ℚ := 4 / 10000
  let area := compute_area x next_x y next_y line_thickness
  let line := { CityObject.new with name := "multiline_" ++ id ++ to_string st.cont }
  do
  let cont ← increment st.cont
  (if !(properties.get "waterway").empty then
    let line := { line with type := "water" }
    let line := { line with thickness := line_thickness, coords := area }
    pure { cont := cont, all_buildings := st.all_buildings ++ [line],
           class_coord := area.foldl (fun c coord => c.update coord.1 coord.2) st.class_coord }
  else
    pure { st with cont := cont })

/-- The loop `for (int i = 0; i < line.size() - 1; i++)` over the segments of a line, with
the given body.  The bound is computed without sign: for an empty line it wraps around, the
first iteration reads two positions that do not exist, and their conversion to numbers
throws `type_error`. -/
def segment_loop (body : LineState → Point × Point → Except Err LineState)
    (st : LineState) (line : List Point) : Except Err LineState :=
  match line with
  | [] => Except.error Err.type_error
  | _ => (line.zip line.tail).foldlM body st

/-- The body of the loop of `data_analysis` over the features: the objects and the bounding
box after the feature, from those before it. -/
def analyse_feature (feature : Feature) (all_buildings : List CityObject)
    (class_coord : Coordinate) : Except Err (List CityObject × Coordinate) := do
  let properties := feature.properties
  let id ← (properties.get "@id").get_string
  let id := replace_slash id
  match feature.geometry with
  | Geometry.Polygon coordinates =>
    let building ← assign_type CityObject.new properties
    let footprint_type := building.type
    (if footprint_type == "null" then pure (all_buildings, class_coord)
    else do
      let level ← generate_building_level footprint_type properties
      let num_lists := coordinates.length
      let st := coordinates.foldl (polygon_ring id level num_lists)
        { count_list := 0, building := building, list_coordinates := [], list_holes := [],
          all_buildings := all_buildings, class_coord := class_coord }
      pure (st.all_buildings, st.class_coord))
  | Geometry.MultiPolygon coordinates =>
    let building ← assign_type CityObject.new properties
    let footprint_type := building.type
    (if footprint_type == "null" then pure (all_buildings, class_coord)
    else do
      let level ← generate_building_level footprint_type properties
      let st := coordinates.foldl (multi_polygon_element id level)
        { count_list := 0, building := building, list_coordinates := [], list_holes := [],
          all_buildings := all_buildings, class_coord := class_coord }
      pure (st.all_buildings, st.class_coord))
  | Geometry.LineString coordinates =>
    let st ← segment_loop (line_string_segment id properties)
      { cont := 0, all_buildings := all_buildings, class_coord := class_coord } coordinates
    pure (st.all_buildings, st.class_coord)
  | Geometry.MultiLineString coordinates =>
    let st ← coordinates.foldlM (segment_loop (multi_line_string_segment id properties))
      { cont := 0, all_buildings := all_buildings, class_coord := class_coord }
    pure (st.all_buildings, st.class_coord)
  | Geometry.Point coordinates =>
    let points := [coordinates]
    let point := { CityObject.new with name := "point_" ++ id, coords := points }
    let all_buildings ← assign_tree_type point properties all_buildings
    (if point.type == "null" then pure (all_buildings, class_coord)
    else
      pure (all_buildings,
        points.foldl (fun c coord => c.update coord.1 coord.2) class_coord))
  | Geometry.other => pure (all_buildings, class_coord)

/-- The function `data_analysis`, on the features of `geojson_file`. -/
def data_analysis (geojson_file : List Feature) (all_buildings : List CityObject)
    (class_coord : Coordinate) : Except Err (List CityObject × Coordinate) :=
  geojson_file.foldlM (fun out feature => analyse_feature feature out.1 out.2)
    (all_buildings, class_coord)

/-- The function `generate_height`. -/
def generate_height (building : CityObject) (scale : Int) : ℚ :=
  let height : ℚ := 1 / 10000
  if building.type == "building" && building.level > 0 then
    ((building.level : ℚ) + (scale : ℚ) / 20) / 20
  else if building.type == "water" then 1 / 10000
  else if building.type == "highway" then 5 / 10000
  else if building.type == "pedestrian" then 4 / 10000
  else height

/-- The function `generate_new_coordinates`. -/
def generate_new_coordinates (geojson_file : List Feature) (all_buildings : List CityObject)
    (class_coord : Coordinate) : Except Err (List CityObject) := do
  let gen_out ← data_analysis geojson_file all_buildings class_coord
  let all_buildings := gen_out.1
  let class_coord := gen_out.2
  pure (all_buildings.map (fun building_geometry =>
    { building_geometry with
      height := generate_height building_geometry scale,
      new_coords := building_geometry.coords.map (new_point class_coord),
      new_holes := building_geometry.holes.map (fun list_hole =>
        list_hole.map (new_point class_coord)) }))

/-! ## Inputs used as examples -/

/-- A building whose outer ring has three points with the same x coordinate. -/
def column_building : Feature :=
  { geometry := Geometry.Polygon [[(1, 1), (1, 2), (1, 3)]],
    properties := [("@id", Json.str "way/7"), ("building", Json.str "yes")] }

/-- A building with an outer ring and two holes. -/
def courtyard_building : Feature :=
  { geometry := Geometry.Polygon
      [[(0, 0), (9, 0), (9, 9), (0, 9)], [(1, 1), (2, 1), (2, 2)], [(5, 5), (6, 5), (6, 6)]],
    properties := [("@id", Json.str "way/8"), ("building", Json.str "yes")] }

/-- A building made of two separate polygons of one ring each. -/
def twin_building : Feature :=
  { geometry := Geometry.MultiPolygon
      [[[(0, 0), (1, 0), (1, 1)]], [[(5, 5), (6, 5), (6, 6)]]],
    properties := [("@id", Json.str "relation/7"), ("building", Json.str "yes")] }

/-- A footway of eleven segments with the identifier `way/1`. -/
def long_path : Feature :=
  { geometry := Geometry.LineString
      [(0, 0), (1, 0), (2, 0), (3, 0), (4, 0), (5, 0), (6, 0), (7, 0), (8, 0), (9, 0), (10, 0),
       (11, 0)],
    properties := [("@id", Json.str "way/1"), ("highway", Json.str "footway")] }

/-- A road of one segment with the identifier `way/11`. -/
def short_road : Feature :=
  { geometry := Geometry.LineString [(3, 3), (4, 3)],
    properties := [("@id", Json.str "way/11"), ("highway", Json.str "primary")] }

/-- A line of trees of two segments with the identifier `way/2`. -/
def tree_row : Feature :=
  { geometry := Geometry.LineString [(0, 5), (1, 5), (1, 6)],
    properties := [("@id", Json.str "way/2"), ("natural", Json.str "tree_row")] }

/-- A pine, tagged by its genus. -/
def pine_tree : Feature :=
  { geometry := Geometry.Point (1, 2),
    properties := [("@id", Json.str "node/1"), ("natural", Json.str "tree"),
      ("genus", Json.str "Pinus")] }

/-- The sequence of points folded into a fresh bounding box. -/
def bounding_box (points : List Point) : Coordinate :=
  points.foldl (fun c coord => c.update coord.1 coord.2) Coordinate.new


/-! ## Notions used to state the properties of the extraction -/

/-- The geometry is a `Polygon` or a `MultiPolygon`. -/
def Geometry.polygonal : Geometry → Bool
  | Geometry.Polygon _ => true
  | Geometry.MultiPolygon _ => true
  | _ => false

/-- The renderable set of the specification: the six named types and the grass-like
land-use types, which are those of `check_grass_type`. -/
def renderable (type : String) : Prop :=
  type ∈ ["building", "water", "sand", "highway", "pedestrian", "forest"] ∨
    check_grass_type type = true

/-- A polygon of one ring tagged as an industrial area, a land use that is not
renderable. -/
def industrial_area : Feature :=
  { geometry := Geometry.Polygon [[(0, 0), (4, 0), (4, 4)]],
    properties := [("@id", Json.str "way/9"), ("landuse", Json.str "industrial")] }

/-- The list `b` is the list `a` followed by decimal digits, possibly none. -/
def digit_extension (a b : List Char) : Bool :=
  a.isPrefixOf b && (b.drop a.length).all Char.isDigit

/-- Two identifiers are independent when neither is the other followed by decimal digits;
in particular they are different. -/
def independent_ids (a b : String) : Bool :=
  !digit_extension a.toList b.toList && !digit_extension b.toList a.toList

/-- The species of a tree according to the specification: by the `type` tag when there is
one, else `standard` when there is a `tree` tag, else by the `genus` tag when there is one,
else `standard`. -/
def tree_species (properties : Props) : String :=
  if !(properties.get "type").empty then
    (if (properties.get "type").eq_str "palm" then "palm"
    else if (properties.get "type").eq_str "pine" then "pine"
    else if (properties.get "type").eq_str "cypress" then "cypress"
    else "standard")
  else if !(properties.get "tree").empty then "standard"
  else if !(properties.get "genus").empty then
    (if (properties.get "genus").eq_str "Quercus" then "oak"
    else if (properties.get "genus").eq_str "Cupressus" then "cypress"
    else if (properties.get "genus").eq_str "Pinus" then "pine"
    else "standard")
  else "standard"

/-- The object that the loop over the segments of a `LineString` appends for a segment, from
the identifier, the type of the line and the value of the counter. -/
def line_object (id type : String) (cont : Nat) (segment : Point × Point) : CityObject :=
  { CityObject.new with
    name := "line_" ++ id ++ to_string cont, type := type, thickness := get_thickness type,
    coords := compute_area segment.1.1 segment.2.1 segment.1.2 segment.2.2 (5 / 100000) }

/-- The bounding box after the four points of the ribbon of a segment have been folded
in. -/
def ribbon_box (road_thickness : ℚ) (class_coord : Coordinate) (segment : Point × Point) :
    Coordinate :=
  (compute_area segment.1.1 segment.2.1 segment.1.2 segment.2.2 road_thickness).foldl
    (fun c coord => c.update coord.1 coord.2) class_coord

/-! ## Colours -/

/-- A `vec3f` that holds a colour: its red, green and blue components. -/
abbrev Color := ℚ × ℚ × ℚ

/-- The function `get_color`. -/
def get_color (type : String) (grass_type : Bool) : Color :=
  let color : Color := (725 / 1000, 71 / 100, 68 / 100)
  if type == "building" then (79 / 100, 74 / 100, 62 / 100)
  else if type == "highway" then (26 / 100, 26 / 100, 28 / 100)
  else if type == "pedestrian" then (45 / 100, 4 / 10, 27 / 100)
  else if type == "water" then (72 / 100, 95 / 100, 1)
  else if type == "sand" then (69 / 100, 58 / 100, 43 / 100)
  else if type == "forest" then (4 / 1000, 25 / 100, 16 / 100)
  else if grass_type then (337 / 1000, 49 / 100, 274 / 1000)
  else color

/-- The function `get_building_color`. -/
def get_building_color (building_color : String) : Color :=
  if building_color == "yellow" then (882 / 1000, 741 / 1000, 294 / 1000)
  else if building_color == " light yellow" then (922 / 1000, 925 / 1000, 498 / 1000)
  else if building_color == "brown" then (808 / 1000, 431 / 1000, 271 / 1000)
  else if building_color == "light brown" then (8 / 10, 749 / 1000, 596 / 1000)
  else if building_color == "light orange" then (933 / 1000, 753 / 1000, 416 / 1000)
  else (1, 1, 1)

/-! ## The scene -/

/-- A `vec3f` that holds a position.  A component is a rational, or `none` for a value that
is not finite. -/
structure Position where
  x : Option ℚ
  y : Option ℚ
  z : Option ℚ
  deriving DecidableEq

/-- The textures that `create_city_from_json` adds to the scene, by the name of the local
that holds each. -/
inductive Texture where
  | texture_1
  | texture_2
  | texture_3
  | texture_4
  | texture_5
  | texture_6
  | texture_7
  | texture_8
  | texture_8_11
  | texture_10_41
  | texture_40_71
  | texture_70_101
  | texture_more_101
  | texture_colosseo
  deriving DecidableEq

/-- The fields of a material that `create_city_from_json` assigns; `none` stands for a field
that has not been assigned since the material was created. -/
structure Material where
  color : Option Color
  color_tex : Option Texture
  specular : Option ℚ
  transmission : Option ℚ
  metallic : Option ℚ
  roughness : Option ℚ
  deriving DecidableEq

/-- The fields of a shape that `create_city_from_json` assigns. -/
structure Shape where
  positions : List Position
  triangles : List (Int × Int × Int)
  quads : List (Int × Int × Int × Int)
  deriving DecidableEq

/-- An object of the scene with its shape and its material. -/
structure SceneObject where
  name : String
  shape : Shape
  material : Material
  deriving DecidableEq

/-- The object that the library call `add_complete_object(scene, name)` adds to the scene:
a shape without elements and a material none of whose fields has been assigned. -/
def add_complete_object (name : String) : SceneObject :=
  { name := name, shape := { positions := [], triangles := [], quads := [] },
    material := { color := none, color_tex := none, specular := none, transmission := none,
                  metallic := none, roughness := none } }

/-- The assignment `object->material->color = color`. -/
def SceneObject.set_color (object : SceneObject) (color : Color) : SceneObject :=
  { object with material := { object.material with color := some color } }

/-- The assignment `object->material->color_tex = texture`. -/
def SceneObject.set_color_tex (object : SceneObject) (texture : Texture) : SceneObject :=
  { object with material := { object.material with color_tex := some texture } }

/-- The sum of two `float` values, which is finite only when both are. -/
def fadd (a b : Option ℚ) : Option ℚ :=
  match a, b with
  | some x, some y => some (x + y)
  | _, _ => none

/-! ## Mesh building -/

/-- The loop `for (int k = 0; k < indices.size() - 2; k += 3)` that groups the indices of a
triangulation in triangles, from the value `k` of the index on.  The bound is computed in
the unsigned 64-bit type of `size()`: for fewer than two indices the subtraction wraps
around.  A read past the end of `indices` is undefined behaviour.  Every iteration that returns has
read three positions past `k`, so that `indices.length + 1` iterations, the `fuel` given by
`triangle_loop`, are never used up. -/
def triangle_loop_from (indices : List Int) :
    Nat → Nat → List (Int × Int × Int) → Except Err (List (Int × Int × Int))
  | 0, _, _ => Except.error Err.unmodelled
  | fuel + 1, k, triangles =>
    if k < (if indices.length < 2 then indices.length + 2 ^ 64 - 2 else indices.length - 2) then
      match indices[k]?, indices[k + 1]?, indices[k + 2]? with
      | some a, some b, some c =>
        triangle_loop_from indices fuel (k + 3) (triangles ++ [(a, b, c)])
      | _, _, _ => Except.error Err.undefined_behaviour
    else pure triangles

/-- The loop over the indices of a triangulation, from `k = 0` and without triangles. -/
def triangle_loop (indices : List Int) : Except Err (List (Int × Int × Int)) :=
  triangle_loop_from indices (indices.length + 1) 0 []

/-- The statements `auto prev_index = i - 1; if (prev_index == -1) prev_index = size - 1;`
of the loops over the vertices of a ring of `size` positions. -/
def prev_index (size : Nat) (i : Nat) : Int :=
  let prev_index : Int := (i : Int) - 1
  if prev_index == -1 then (size : Int) - 1 else prev_index

/-- The position `{p.x, 0, p.z}` on the ground below `p`. -/
def ground (p : Position) : Position :=
  { x := p.x, y := some 0, z := p.z }

/-- The read `positions[i]` of the loops over the vertices, whose index is in range: `i` is
below the size, and so is `prev_index`. -/
def position_at (positions : List Position) (i : Int) : Position :=
  positions.getD i.toNat { x := none, y := none, z := none }

/-- The body of the loop that builds the quads on the sides of a building, for the vertex
`i`: the positions `_polygon2` and the `quads` after it. -/
def wall_step (positions : List Position)
    (st : List Position × List (Int × Int × Int × Int)) (i : Nat) :
    List Position × List (Int × Int × Int × Int) :=
  let prev_index := prev_index positions.length i
  let index : Int := st.1.length
  let _polygon2 := st.1 ++ [ground (position_at positions i)]
  let index_2 : Int := _polygon2.length
  let _polygon2 := _polygon2 ++ [ground (position_at positions prev_index)]
  (_polygon2, st.2 ++ [(prev_index, (i : Int), index, index_2)])

/-- The chain of tests that picks the texture of the walls of a building that is not
historic from its `level`. -/
def wall_texture (level : Int) (build2 : SceneObject) : SceneObject :=
  if level == 1 then build2.set_color_tex Texture.texture_1
  else if level == 2 then build2.set_color_tex Texture.texture_2
  else if level == 3 then build2.set_color_tex Texture.texture_3
  else if level == 4 then build2.set_color_tex Texture.texture_4
  else if level == 5 then build2.set_color_tex Texture.texture_5
  else if level == 6 then build2.set_color_tex Texture.texture_6
  else if level == 7 then build2.set_color_tex Texture.texture_7
  else if level == 8 then build2.set_color_tex Texture.texture_8
  else if level > 8 && level < 11 then build2.set_color_tex Texture.texture_8_11
  else if level > 10 && level < 41 then build2.set_color_tex Texture.texture_10_41
  else if level > 40 && level < 71 then build2.set_color_tex Texture.texture_40_71
  else if level > 70 && level < 101 then build2.set_color_tex Texture.texture_70_101
  else if level > 101 then build2.set_color_tex Texture.texture_more_101
  else build2

/-- The block `if (type == "building")` of `create_city_from_json`: the object `build2` that
holds the walls of the building, from the locals `historic`, `level`, `color` and
`positions`. -/
def wall_object (element : CityObject) (historic : String) (level : Int) (color : Color)
    (positions : List Position) : SceneObject :=
  let name := element.name
  let build2 := add_complete_object (name ++ "_1")
  let build2 := build2.set_color color
  let _polygon2 := positions
  let loop := (List.range positions.length).foldl (wall_step positions) (_polygon2, [])
  let _polygon2 := loop.1
  let quads := loop.2
  let build2 := build2.set_color color
  let build2 :=
    if historic == "yes" then
      (if name == "building_relation_1834818" then
        build2.set_color_tex Texture.texture_colosseo
      else if element.colour != "null" then
        build2.set_color (get_building_color element.colour)
      else build2.set_color color)
    else wall_texture level build2
  { build2 with shape := { build2.shape with positions := _polygon2, quads := quads } }

/-- The block of `create_city_from_json` that promotes a flat roof on a footprint without
holes and otherwise assigns the colour of the floor object `build`: the value of `type_roof`
and the object after it. -/
def floor_colour (element : CityObject) (type_roof historic : String) (level : Int)
    (build : SceneObject) : String × SceneObject :=
  let name := element.name
  let type := element.type
  let num_holes := element.new_holes.length
  let color_given := element.colour != "null"
  let grass_area := check_grass_type element.type
  let color := get_color type grass_area
  if type_roof == "flat" && num_holes == 0 then ("gabled", build)
  else if name == "building_relation_1834818" then
    (type_roof, build.set_color (725 / 1000, 463 / 1000, 361 / 1000))
  else if type == "building" && level < 3 && historic != "no" then
    (type_roof, build.set_color (538 / 1000, 426 / 1000, 347 / 1000))
  else if historic == "yes" && color_given then
    (type_roof, build.set_color (get_building_color element.colour))
  else (type_roof, build.set_color color)

/-- The body of the loop that builds the pitches of a roof, for the vertex `i`: the
positions `_polygon2_roof` and the triangles `triangles2_roof` after it. -/
def roof_step (size : Nat) (centroid_x centroid_y total_height : Option ℚ)
    (st : List Position × List (Int × Int × Int)) (i : Nat) :
    List Position × List (Int × Int × Int) :=
  let prev_index := prev_index size i
  let index : Int := st.1.length
  let _polygon2_roof := st.1 ++ [{ x := centroid_x, y := total_height, z := centroid_y }]
  let index_2 : Int := _polygon2_roof.length
  let _polygon2_roof :=
    _polygon2_roof ++ [{ x := centroid_x, y := total_height, z := centroid_y }]
  (_polygon2_roof, st.2 ++ [(prev_index, (i : Int), index), (index, index_2, prev_index)])

/-- The division `centroid / num_vert` of a `float` by an `int`. -/
def centroid_div (centroid : Option ℚ) (num_vert : Nat) : Option ℚ :=
  match centroid with
  | some s => fdiv s (num_vert : ℚ)
  | none => none

/-- The block `if (type_roof == "gabled")` of `create_city_from_json`: the objects `roof`
(the cap) and `roof2` (the pitches) that it adds to the scene, if any.  The triangulation
`earcut` of the library is a parameter. -/
def roof_objects (earcut : List (List NewPoint) → List Int) (element : CityObject)
    (type_roof : String) : Except Err (Option SceneObject × Option SceneObject) :=
  if type_roof == "gabled" then
    let name := element.name
    let roof := add_complete_object name
    let height := element.height
    let roof_height := element.roof_height
    let num_vert := element.new_coords.length
    let num_holes := element.new_holes.length
    (if num_holes == 0 then do
      let positions_roof : List Position :=
        element.new_coords.map (fun elem => { x := elem.1, y := some height, z := elem.2 })
      let vect_roof : List NewPoint := element.new_coords.map (fun elem => (elem.1, elem.2))
      let centroid_x := element.new_coords.foldl (fun c elem => fadd c elem.1) (some 0)
      let centroid_y := element.new_coords.foldl (fun c elem => fadd c elem.2) (some 0)
      let centroid_x := centroid_div centroid_x num_vert
      let centroid_y := centroid_div centroid_y num_vert
      let polygon_roof := [vect_roof]
      let roof_color : Color := (351 / 1000, 96 / 1000, 91 / 1000)
      let roof := roof.set_color roof_color
      let _polygon_roof := positions_roof
      let indices_roof := earcut polygon_roof
      let triangles_roof ← triangle_loop indices_roof
      let roof2 := add_complete_object (name ++ "_roof")
      let roof2 := roof2.set_color roof_color
      let _polygon2_roof := positions_roof
      let total_height : Option ℚ := some (height + roof_height)
      let loop := (List.range positions_roof.length).foldl
        (roof_step positions_roof.length centroid_x centroid_y total_height)
        (_polygon2_roof, [])
      let roof2 :=
        { roof2 with shape := { roof2.shape with positions := loop.1, triangles := loop.2 } }
      let roof :=
        { roof with shape :=
            { roof.shape with positions := _polygon_roof, triangles := triangles_roof } }
      pure (some roof, some roof2)
    else pure (some roof, none))
  else pure (none, none)

/-- The objects that `create_city_from_json` adds to the scene for one element: the floor
`build`, the walls `build2` of a building, and the cap `roof` and the pitches `roof2` of a
gabled roof. -/
structure ElementMeshes where
  build : SceneObject
  build2 : Option SceneObject
  roof : Option SceneObject
  roof2 : Option SceneObject

/-- The value of the local `level` of the loop of `create_city_from_json`. -/
def element_level (element : CityObject) : Int :=
  let level : Int := 0
  if element.level > 0 then element.level else level

/-- The value of the local `historic` of the loop of `create_city_from_json`. -/
def element_historic (element : CityObject) : String :=
  let historic := "no"
  if element.historic != "no" then element.historic else historic

/-- The value of the local `type_roof` of the loop of `create_city_from_json` when the
element is read. -/
def element_type_roof (element : CityObject) : String :=
  let type_roof := "null"
  if element.roof_shape != "null" then element.roof_shape else type_roof

/-- The positions of the floor: those of the outer ring followed by those of the holes, at
the height of the element. -/
def element_positions (element : CityObject) : List Position :=
  let height := element.height
  let positions : List Position :=
    element.new_coords.map (fun elem => { x := elem.1, y := some height, z := elem.2 })
  element.new_holes.foldl
    (fun positions list =>
      positions ++ list.map (fun h => { x := h.1, y := some height, z := h.2 }))
    positions

/-- The local `polygon` handed to the triangulation: the outer ring and the holes. -/
def element_polygon (element : CityObject) : List (List NewPoint) :=
  let vect_building : List NewPoint := element.new_coords.map (fun elem => (elem.1, elem.2))
  element.new_holes.foldl
    (fun polygon list => polygon ++ [list.map (fun h => (h.1, h.2))])
    [vect_building]

/-- The body of the loop of `create_city_from_json` over the elements, for an element whose
type is none of the five tree species (the last branch of the chain on `type_s`).  The
triangulation `earcut` of the library is a parameter.  The counters of the loops over the
vertices are `int` in the source and unbounded here. -/
def polygonal_element (earcut : List (List NewPoint) → List Int) (element : CityObject) :
    Except Err ElementMeshes := do
  let name := element.name
  let type_roof := element_type_roof element
  let historic := element_historic element
  let build := add_complete_object name
  let type := element.type
  let level := element_level element
  let positions := element_positions element
  let polygon := element_polygon element
  let grass_area := check_grass_type element.type
  let color := get_color type grass_area
  let floor := floor_colour element type_roof historic level build
  let type_roof := floor.1
  let build := floor.2
  let _polygon := positions
  let indices := earcut polygon
  let triangles ← triangle_loop indices
  let build :=
    if type == "water" then
      { build with material :=
          { build.material with specular := some 1, transmission := some (99 / 100),
                                metallic := some (8 / 10), roughness := some (1 / 10) } }
    else build
  let build :=
    if type == "highway" then
      { build with material :=
          { build.material with roughness := some (9 / 10), specular := some (7 / 10) } }
    else build
  let build2 :=
    if type == "building" then some (wall_object element historic level color positions)
    else none
  let build :=
    { build with shape := { build.shape with positions := _polygon, triangles := triangles } }
  let roofs ← roof_objects earcut element type_roof
  pure { build := build, build2 := build2, roof := roofs.1, roof2 := roofs.2 }

/-- The value of the local `type_roof` when the roof is built: the effective roof shape. -/
def effective_type_roof (element : CityObject) : String :=
  (floor_colour element (element_type_roof element) (element_historic element)
    (element_level element) (add_complete_object element.name)).1

/-! ## Elements used as examples -/

/-- A triangulation used in the examples: the fan of triangles from the first vertex of the
outer ring. -/
def fan_triangulation (polygon : List (List NewPoint)) : List Int :=
  match polygon with
  | [] => []
  | ring :: _ =>
    (List.range (ring.length - 2)).foldl (fun l i => l ++ [0, (i : Int) + 1, (i : Int) + 2]) []

/-- A square building of one level without holes and without a roof tag. -/
def square_building : Feature :=
  { geometry := Geometry.Polygon [[(0, 0), (10, 0), (10, 10), (0, 10)]],
    properties := [("@id", Json.str "way/5"), ("building", Json.str "yes")] }

/-- The square building with a flat roof. -/
def flat_roof_building : Feature :=
  { geometry := Geometry.Polygon [[(0, 0), (10, 0), (10, 10), (0, 10)]],
    properties := [("@id", Json.str "way/6"), ("building", Json.str "yes"),
      ("roof:shape", Json.str "flat")] }

/-- The square building with a `historic` tag and without a `building:colour` tag. -/
def castle : Feature :=
  { geometry := Geometry.Polygon [[(0, 0), (10, 0), (10, 10), (0, 10)]],
    properties := [("@id", Json.str "way/12"), ("building", Json.str "yes"),
      ("historic", Json.str "castle")] }

/-- The square building with the tag `building:levels` = 100, that is, with 101 levels. -/
def tower : Feature :=
  { geometry := Geometry.Polygon [[(0, 0), (10, 0), (10, 10), (0, 10)]],
    properties := [("@id", Json.str "way/13"), ("building", Json.str "yes"),
      ("building:levels", Json.str "100")] }

/-- A park with a `historic` tag. -/
def historic_park : Feature :=
  { geometry := Geometry.Polygon [[(0, 0), (10, 0), (10, 10), (0, 10)]],
    properties := [("@id", Json.str "way/14"), ("leisure", Json.str "park"),
      ("historic", Json.str "yes")] }

/-- The object that the extraction and the normalization make of a feature whose geometry
is the square with the corners (0, 0) and (10, 10), from the object `b` that classifies its
tags, its level and its name. -/
def square_element (b : CityObject) (level : Int) (name : String) : CityObject :=
  { b with
    level := level, name := name,
    height := generate_height { b with level := level } scale,
    coords := [(0, 0), (10, 0), (10, 10), (0, 10)], holes := [],
    new_coords := [(some (-25), some (-25)), (some 25, some (-25)), (some 25, some 25),
      (some (-25), some 25)],
    new_holes := [] }

/-- The vertex before the vertex `i` on a ring of `n` vertices, the first vertex wrapping to
the last. -/
def ring_prev (n i : Nat) : Nat :=
  if i = 0 then n - 1 else i - 1

/-- The element that the extraction and the normalization make of `courtyard_building`,
whose bounding box has the corners (0, 0) and (9, 9). -/
def courtyard_element : CityObject :=
  { CityObject.new with
    type := "building", level := 1, name := "building_way_8",
    height := generate_height { CityObject.new with type := "building", level := 1 } scale,
    coords := [(0, 0), (9, 0), (9, 9), (0, 9)],
    holes := [[(1, 1), (2, 1), (2, 2)], [(5, 5), (6, 5), (6, 6)]],
    new_coords := [(0, 0), (9, 0), (9, 9), (0, 9)].map (new_point ⟨0, 0, 9, 9⟩),
    new_holes := [[(1, 1), (2, 1), (2, 2)], [(5, 5), (6, 5), (6, 6)]].map
      (fun list_hole => list_hole.map (new_point ⟨0, 0, 9, 9⟩)) }

/-! ## Notions used to state the properties of the meshes and of the ribbons -/

/-- The arithmetic mean of a list of numbers. -/
def mean (values : List ℚ) : ℚ :=
  values.sum / (values.length : ℚ)

/-- The three coordinates of a position all of whose components are finite. -/
def Position.finite (p : Position) : Option (ℚ × ℚ × ℚ) :=
  match p.x, p.y, p.z with
  | some x, some y, some z => some (x, y, z)
  | _, _, _ => none

/-- The square of twice the area of the triangle `a b c` in space: the squared length of the
cross product of `b - a` and `c - a`.  It is zero exactly when the area is. -/
def doubled_area_sq (a b c : ℚ × ℚ × ℚ) : ℚ :=
  let u := (b.1 - a.1, b.2.1 - a.2.1, b.2.2 - a.2.2)
  let v := (c.1 - a.1, c.2.1 - a.2.1, c.2.2 - a.2.2)
  (u.2.1 * v.2.2 - u.2.2 * v.2.1) ^ 2 + (u.2.2 * v.1 - u.1 * v.2.2) ^ 2 +
    (u.1 * v.2.1 - u.2.1 * v.1) ^ 2

/-- The triangle `triangle` of a shape with the positions `positions` has three finite
vertices and zero area. -/
def zero_area (positions : List Position) (triangle : Int × Int × Int) : Bool :=
  match (position_at positions triangle.1).finite,
    (position_at positions triangle.2.1).finite,
    (position_at positions triangle.2.2).finite with
  | some a, some b, some c => doubled_area_sq a b c == 0
  | _, _, _ => false

/-- A square building with a gabled roof whose ring is closed, as the rings of GeoJSON are:
the last position repeats the first. -/
def closed_square_building : Feature :=
  { geometry := Geometry.Polygon [[(0, 0), (10, 0), (10, 10), (0, 10), (0, 0)]],
    properties := [("@id", Json.str "way/15"), ("building", Json.str "yes"),
      ("roof:shape", Json.str "gabled"), ("roof:height", Json.str "5")] }

/-- The element that the extraction and the normalization make of
`closed_square_building`. -/
def closed_square_element : CityObject :=
  { CityObject.new with
    type := "building", roof_shape := "gabled", roof_height := 1 / 10, level := 1,
    name := "building_way_15", height := 7 / 40,
    coords := [(0, 0), (10, 0), (10, 10), (0, 10), (0, 0)],
    new_coords := [(some (-25), some (-25)), (some 25, some (-25)), (some 25, some 25),
      (some (-25), some 25), (some (-25), some (-25))] }

/-- A building whose ring has two positions only. -/
def sliver_building : Feature :=
  { geometry := Geometry.Polygon [[(0, 0), (10, 10)]],
    properties := [("@id", Json.str "way/16"), ("building", Json.str "yes")] }

/-- The element that the extraction and the normalization make of `sliver_building`. -/
def sliver_element : CityObject :=
  { CityObject.new with
    type := "building", level := 1, name := "building_way_16", height := 7 / 40,
    coords := [(0, 0), (10, 10)],
    new_coords := [(some (-25), some (-25)), (some 25, some 25)] }

/-- The apex of the roof of an element, the position `{centroid_x, total_height, centroid_y}`
that the loop over the vertices of the roof appends: the centroid of the outer ring at the
height of the element plus the height of the roof. -/
def roof_apex (element : CityObject) : Position :=
  { x := centroid_div (element.new_coords.foldl (fun c elem => fadd c elem.1) (some 0))
      element.new_coords.length,
    y := some (element.height + element.roof_height),
    z := centroid_div (element.new_coords.foldl (fun c elem => fadd c elem.2) (some 0))
      element.new_coords.length }
/-! ## Auxiliary lemmas: rounding to a binary format -/

theorem pow2_eq (e : ℤ) : pow2 e = (2 : ℚ) ^ e := by
  unfold pow2
  split
  · rename_i h
    obtain ⟨n, rfl⟩ := Int.eq_ofNat_of_zero_le h
    simp
  · rename_i h
    have h' : e < 0 := not_le.mp h
    obtain ⟨n, hn⟩ := Int.exists_eq_neg_ofNat (le_of_lt h')
    subst hn
    simp

theorem pow2_pos (e : ℤ) : 0 < pow2 e := by
  rw [pow2_eq]; positivity

theorem log2_fuel_spec (fuel n : ℕ) (h0 : 0 < n) (hf : n ≤ fuel) :
    2 ^ log2_fuel fuel n ≤ n ∧ n < 2 ^ (log2_fuel fuel n + 1) := by
  induction fuel generalizing n with
  | zero => omega
  | succ fuel ih =>
    unfold log2_fuel
    split
    · rename_i h2
      simp only [pow_zero, zero_add, pow_one]
      omega
    · rename_i h2
      have hn2 : 0 < n / 2 := by omega
      have hle : n / 2 ≤ fuel := by omega
      obtain ⟨h1, h3⟩ := ih (n / 2) hn2 hle
      constructor
      · rw [pow_succ]; omega
      · rw [pow_succ]; omega

theorem nat_log2_spec (n : ℕ) (h0 : 0 < n) :
    2 ^ nat_log2 n ≤ n ∧ n < 2 ^ (nat_log2 n + 1) :=
  log2_fuel_spec n n h0 (le_refl n)

theorem binade_spec (q : ℚ) (h : q ≠ 0) :
    (2 : ℚ) ^ binade q ≤ |q| ∧ |q| < (2 : ℚ) ^ (binade q + 1) := by
  have hnum : 0 < q.num.natAbs := Int.natAbs_pos.mpr (Rat.num_ne_zero.mpr h)
  have hden : 0 < q.den := q.den_pos
  obtain ⟨ha1, ha2⟩ := nat_log2_spec _ hnum
  obtain ⟨hb1, hb2⟩ := nat_log2_spec _ hden
  have habs : |q| = (q.num.natAbs : ℚ) / (q.den : ℚ) := by
    conv_lhs => rw [← Rat.num_div_den q]
    rw [abs_div, Nat.abs_cast, Nat.cast_natAbs, Int.cast_abs]
  have hdq : (0 : ℚ) < (q.den : ℚ) := by exact_mod_cast hden
  have ha1' : (2 : ℚ) ^ (nat_log2 q.num.natAbs : ℤ) ≤ (q.num.natAbs : ℚ) := by
    rw [zpow_natCast]; exact_mod_cast ha1
  have ha2' : (q.num.natAbs : ℚ) < (2 : ℚ) ^ ((nat_log2 q.num.natAbs : ℤ) + 1) := by
    rw [show ((nat_log2 q.num.natAbs : ℤ) + 1) = ((nat_log2 q.num.natAbs + 1 : ℕ) : ℤ) by simp,
      zpow_natCast]
    exact_mod_cast ha2
  have hb1' : (2 : ℚ) ^ (nat_log2 q.den : ℤ) ≤ (q.den : ℚ) := by
    rw [zpow_natCast]; exact_mod_cast hb1
  have hb2' : (q.den : ℚ) < (2 : ℚ) ^ ((nat_log2 q.den : ℤ) + 1) := by
    rw [show ((nat_log2 q.den : ℤ) + 1) = ((nat_log2 q.den + 1 : ℕ) : ℤ) by simp, zpow_natCast]
    exact_mod_cast hb2
  set la : ℤ := (nat_log2 q.num.natAbs : ℤ) with hla
  set lb : ℤ := (nat_log2 q.den : ℤ) with hlb
  have h2 : (0 : ℚ) < 2 := by norm_num
  -- |q| < 2 ^ (la - lb + 1)
  have hup : |q| < (2 : ℚ) ^ (la - lb + 1) := by
    rw [habs, div_lt_iff₀ hdq]
    calc (q.num.natAbs : ℚ) < (2 : ℚ) ^ (la + 1) := ha2'
      _ = (2 : ℚ) ^ (la - lb + 1) * (2 : ℚ) ^ lb := by
          rw [← zpow_add₀ (by norm_num : (2 : ℚ) ≠ 0)]; congr 1; ring
      _ ≤ (2 : ℚ) ^ (la - lb + 1) * (q.den : ℚ) :=
          mul_le_mul_of_nonneg_left hb1' (by positivity)
  have hlow : (2 : ℚ) ^ (la - lb - 1) ≤ |q| := by
    rw [habs, le_div_iff₀ hdq]
    calc (2 : ℚ) ^ (la - lb - 1) * (q.den : ℚ)
        ≤ (2 : ℚ) ^ (la - lb - 1) * (2 : ℚ) ^ (lb + 1) :=
          mul_le_mul_of_nonneg_left (le_of_lt hb2') (by positivity)
      _ = (2 : ℚ) ^ la := by
          rw [← zpow_add₀ (by norm_num : (2 : ℚ) ≠ 0)]; congr 1; ring
      _ ≤ (q.num.natAbs : ℚ) := ha1'
  unfold binade
  simp only [← hla, ← hlb, pow2_eq]
  split
  · rename_i hk
    exact ⟨hk, hup⟩
  · rename_i hk
    refine ⟨hlow, ?_⟩
    rw [show la - lb - 1 + 1 = la - lb by ring]
    exact not_le.mp hk

theorem binade_unique (q : ℚ) (k : ℤ) (h1 : (2 : ℚ) ^ k ≤ |q|) (h2 : |q| < (2 : ℚ) ^ (k + 1)) :
    binade q = k := by
  have hq : q ≠ 0 := by
    intro h0
    rw [h0, abs_zero] at h1
    exact absurd h1 (not_le.mpr (by positivity))
  obtain ⟨s1, s2⟩ := binade_spec q hq
  have a1 : k < binade q + 1 :=
    (zpow_lt_zpow_iff_right₀ (by norm_num : (1 : ℚ) < 2)).mp (lt_of_le_of_lt h1 s2)
  have a2 : binade q < k + 1 :=
    (zpow_lt_zpow_iff_right₀ (by norm_num : (1 : ℚ) < 2)).mp (lt_of_le_of_lt s1 h2)
  omega

theorem binade_mono (a b : ℚ) (ha : a ≠ 0) (h : |a| ≤ |b|) : binade a ≤ binade b := by
  have hb : b ≠ 0 := by
    intro h0
    rw [h0, abs_zero] at h
    exact ha (abs_eq_zero.mp (le_antisymm h (abs_nonneg a)))
  obtain ⟨a1, _⟩ := binade_spec a ha
  obtain ⟨_, b2⟩ := binade_spec b hb
  have : binade a < binade b + 1 :=
    (zpow_lt_zpow_iff_right₀ (by norm_num : (1 : ℚ) < 2)).mp
      (lt_of_le_of_lt (le_trans a1 h) b2)
  omega

theorem binade_neg (q : ℚ) : binade (-q) = binade q := by
  unfold binade
  simp only [Rat.neg_num, Int.natAbs_neg, Rat.neg_den, abs_neg]

theorem round_half_even_int (n : ℤ) : round_half_even (n : ℚ) = n := by
  simp [round_half_even]

theorem round_half_even_bounds (x : ℚ) :
    ⌊x⌋ ≤ round_half_even x ∧ round_half_even x ≤ ⌊x⌋ + 1 := by
  unfold round_half_even
  split_ifs <;> constructor <;> omega

theorem round_half_even_mono {x y : ℚ} (h : x ≤ y) :
    round_half_even x ≤ round_half_even y := by
  rcases (Int.floor_mono h).lt_or_eq with hlt | heq
  · have h1 := (round_half_even_bounds x).2
    have h2 := (round_half_even_bounds y).1
    omega
  · unfold round_half_even
    rw [← heq]
    have hx : x - (⌊x⌋ : ℚ) ≤ y - (⌊x⌋ : ℚ) := by linarith
    split_ifs <;> first | omega | (exfalso; linarith)

theorem round_half_even_neg (x : ℚ) : round_half_even (-x) = -round_half_even x := by
  by_cases hint : x = (⌊x⌋ : ℚ)
  · have h1 : -x = ((-⌊x⌋ : ℤ) : ℚ) := by push_cast; linarith
    rw [h1, round_half_even_int]
    conv_rhs => rw [hint, round_half_even_int]
  · have hlt : (⌊x⌋ : ℚ) < x := lt_of_le_of_ne (Int.floor_le x) (Ne.symm hint)
    have hlt2 : x < (⌊x⌋ : ℚ) + 1 := Int.lt_floor_add_one x
    have hf : ⌊-x⌋ = -⌊x⌋ - 1 := by
      rw [Int.floor_eq_iff]
      push_cast
      constructor <;> linarith
    unfold round_half_even
    rw [hf]
    push_cast
    split_ifs <;> first | omega | (exfalso; linarith)

theorem round_half_even_nonneg {x : ℚ} (h : 0 ≤ x) : 0 ≤ round_half_even x := by
  have := round_half_even_mono h
  rwa [show (0 : ℚ) = ((0 : ℤ) : ℚ) by simp, round_half_even_int] at this

theorem round_to_zero (p : ℕ) (emin : ℤ) : round_to p emin 0 = 0 := by
  simp [round_to, round_half_even]

theorem round_to_neg (p : ℕ) (emin : ℤ) (q : ℚ) : round_to p emin (-q) = -round_to p emin q := by
  unfold round_to
  simp only [binade_neg, neg_div, round_half_even_neg, Int.cast_neg, neg_mul]

theorem round_to_nonneg (p : ℕ) (emin : ℤ) {q : ℚ} (h : 0 ≤ q) : 0 ≤ round_to p emin q := by
  unfold round_to
  have hp := pow2_pos (max (binade q - ((p : ℤ) - 1)) emin)
  have : 0 ≤ round_half_even (q / pow2 (max (binade q - ((p : ℤ) - 1)) emin)) :=
    round_half_even_nonneg (div_nonneg h (le_of_lt hp))
  have h2 : (0 : ℚ) ≤ (round_half_even (q / pow2 (max (binade q - ((p : ℤ) - 1)) emin)) : ℚ) := by
    exact_mod_cast this
  exact mul_nonneg h2 (le_of_lt hp)

/-- Rounding does not move a value across a power of two that is a number of the format:
a value below `2 ^ m` is rounded to at most `2 ^ m`. -/
theorem round_to_le_pow (p : ℕ) (emin : ℤ) (q : ℚ) (m : ℤ)
    (hm : max (binade q - ((p : ℤ) - 1)) emin ≤ m) (h : q ≤ (2 : ℚ) ^ m) :
    round_to p emin q ≤ (2 : ℚ) ^ m := by
  unfold round_to
  set e := max (binade q - ((p : ℤ) - 1)) emin with he
  have hp := pow2_pos e
  obtain ⟨n, hn⟩ := Int.eq_ofNat_of_zero_le (sub_nonneg.mpr hm)
  have hpow : (2 : ℚ) ^ m = ((2 ^ n : ℤ) : ℚ) * pow2 e := by
    rw [pow2_eq]
    push_cast
    rw [← zpow_natCast, ← hn, ← zpow_add₀ (by norm_num : (2 : ℚ) ≠ 0)]
    congr 1; ring
  have hdiv : q / pow2 e ≤ ((2 ^ n : ℤ) : ℚ) := by
    rw [div_le_iff₀ hp, ← hpow]; exact h
  have hr := round_half_even_mono hdiv
  rw [round_half_even_int] at hr
  rw [hpow]
  exact mul_le_mul_of_nonneg_right (by exact_mod_cast hr) (le_of_lt hp)

/-- A value of at least `2 ^ m` is rounded to at least `2 ^ m`, when `2 ^ m` is a number of
the format. -/
theorem round_to_ge_pow (p : ℕ) (emin : ℤ) (q : ℚ) (m : ℤ)
    (hm : max (binade q - ((p : ℤ) - 1)) emin ≤ m) (h : (2 : ℚ) ^ m ≤ q) :
    (2 : ℚ) ^ m ≤ round_to p emin q := by
  unfold round_to
  set e := max (binade q - ((p : ℤ) - 1)) emin with he
  have hp := pow2_pos e
  obtain ⟨n, hn⟩ := Int.eq_ofNat_of_zero_le (sub_nonneg.mpr hm)
  have hpow : (2 : ℚ) ^ m = ((2 ^ n : ℤ) : ℚ) * pow2 e := by
    rw [pow2_eq]
    push_cast
    rw [← zpow_natCast, ← hn, ← zpow_add₀ (by norm_num : (2 : ℚ) ≠ 0)]
    congr 1; ring
  have hdiv : ((2 ^ n : ℤ) : ℚ) ≤ q / pow2 e := by
    rw [le_div_iff₀ hp, ← hpow]; exact h
  have hr := round_half_even_mono hdiv
  rw [round_half_even_int] at hr
  rw [hpow]
  exact mul_le_mul_of_nonneg_right (by exact_mod_cast hr) (le_of_lt hp)

theorem round_to_mono_pos (p : ℕ) (hp : 1 ≤ p) (emin : ℤ) (a b : ℚ) (ha : 0 < a) (h : a ≤ b) :
    round_to p emin a ≤ round_to p emin b := by
  have hb : 0 < b := lt_of_lt_of_le ha h
  have hab : |a| ≤ |b| := by rw [abs_of_pos ha, abs_of_pos hb]; exact h
  have hbin := binade_mono a b (ne_of_gt ha) hab
  have hp' : (1 : ℤ) ≤ (p : ℤ) := by exact_mod_cast hp
  by_cases hee : max (binade a - ((p : ℤ) - 1)) emin = max (binade b - ((p : ℤ) - 1)) emin
  · unfold round_to
    rw [hee]
    have hpos := pow2_pos (max (binade b - ((p : ℤ) - 1)) emin)
    have hdiv : a / pow2 (max (binade b - ((p : ℤ) - 1)) emin) ≤
        b / pow2 (max (binade b - ((p : ℤ) - 1)) emin) :=
      div_le_div_of_nonneg_right h (le_of_lt hpos)
    have hr := round_half_even_mono hdiv
    exact mul_le_mul_of_nonneg_right (by exact_mod_cast hr) (le_of_lt hpos)
  · have hlt : binade a < binade b := by
      rcases hbin.lt_or_eq with h1 | h1
      · exact h1
      · exact absurd (by rw [h1]) hee
    have hemin : emin < binade b - ((p : ℤ) - 1) := by
      by_contra hcon
      apply hee
      rw [max_eq_right (by omega), max_eq_right (by omega)]
    obtain ⟨_, a2⟩ := binade_spec a (ne_of_gt ha)
    obtain ⟨b1, _⟩ := binade_spec b (ne_of_gt hb)
    rw [abs_of_pos ha] at a2
    rw [abs_of_pos hb] at b1
    have hmid : (2 : ℚ) ^ (binade a + 1) ≤ (2 : ℚ) ^ binade b :=
      zpow_le_zpow_right₀ (by norm_num) (by omega)
    have h1 : round_to p emin a ≤ (2 : ℚ) ^ binade b :=
      round_to_le_pow p emin a (binade b) (by
        apply max_le <;> omega) (le_trans (le_of_lt a2) hmid)
    have h2 : (2 : ℚ) ^ binade b ≤ round_to p emin b :=
      round_to_ge_pow p emin b (binade b) (by apply max_le <;> omega) b1
    exact le_trans h1 h2

/-- Rounding to nearest is monotone. -/
theorem round_to_mono (p : ℕ) (hp : 1 ≤ p) (emin : ℤ) {a b : ℚ} (h : a ≤ b) :
    round_to p emin a ≤ round_to p emin b := by
  rcases lt_trichotomy a 0 with ha | ha | ha
  · rcases lt_trichotomy b 0 with hb | hb | hb
    · have := round_to_mono_pos p hp emin (-b) (-a) (by linarith) (by linarith)
      rw [round_to_neg, round_to_neg] at this
      linarith
    · rw [hb, round_to_zero]
      have := round_to_nonneg p emin (show 0 ≤ -a by linarith)
      rw [round_to_neg] at this
      linarith
    · have h1 := round_to_nonneg p emin (show 0 ≤ -a by linarith)
      rw [round_to_neg] at h1
      have h2 := round_to_nonneg p emin (le_of_lt hb)
      linarith
  · rw [ha, round_to_zero]
    exact round_to_nonneg p emin (by linarith)
  · exact round_to_mono_pos p hp emin a b ha h

/-! ## Auxiliary lemmas: the error monad, characters and digits -/


@[simp]
theorem ok_bind {α β : Type} (a : α) (f : α → Except Err β) :
    (Except.ok a >>= f) = f a := rfl

@[simp]
theorem error_bind {α β : Type} (e : Err) (f : α → Except Err β) :
    ((Except.error e : Except Err α) >>= f) = Except.error e := rfl

theorem digit_bounds (c : Char) (h : c.isDigit = true) : 48 ≤ c.toNat ∧ c.toNat ≤ 57 := by
  simp only [Char.isDigit, Bool.and_eq_true, decide_eq_true_eq] at h
  exact ⟨h.1, h.2⟩

theorem char_le_iff (a b : Char) : a ≤ b ↔ a.toNat ≤ b.toNat := Iff.rfl

theorem char_ne_of_toNat_ne {a b : Char} (h : a.toNat ≠ b.toNat) : a ≠ b :=
  fun e => h (by rw [e])

theorem check_digit_foldl (cs : List Char) (b : Bool) :
    cs.foldl (fun digit c =>
      if ('a' ≤ c && c ≤ 'z') || ('A' ≤ c && c ≤ 'B') || c == ';' || c == ',' then false
      else digit) b
    = (b && cs.all (fun c =>
        !(('a' ≤ c && c ≤ 'z') || ('A' ≤ c && c ≤ 'B') || c == ';' || c == ','))) := by
  induction cs generalizing b with
  | nil => simp
  | cons c cs ih =>
    rw [List.foldl_cons, ih, List.all_cons]
    by_cases hc : (('a' ≤ c && c ≤ 'z') || ('A' ≤ c && c ≤ 'B') || c == ';' || c == ',') = true
    · rw [if_pos hc, hc]; simp
    · rw [if_neg hc]
      have : (('a' ≤ c && c ≤ 'z') || ('A' ≤ c && c ≤ 'B') || c == ';' || c == ',') = false := by
        simpa using hc
      rw [this]; simp

theorem check_digit_eq_all (s : String) :
    check_digit s = s.toList.all (fun c =>
        !(('a' ≤ c && c ≤ 'z') || ('A' ≤ c && c ≤ 'B') || c == ';' || c == ',')) := by
  unfold check_digit
  rw [check_digit_foldl]; simp

theorem check_int_foldl (cs : List Char) (b : Bool) :
    cs.foldl (fun integer c => if c == '.' then false else integer) b
      = (b && cs.all (fun c => !(c == '.'))) := by
  induction cs generalizing b with
  | nil => simp
  | cons c cs ih =>
    rw [List.foldl_cons, ih, List.all_cons]
    by_cases hc : (c == '.') = true
    · rw [if_pos hc, hc]; simp
    · rw [if_neg hc]
      have : (c == '.') = false := by simpa using hc
      rw [this]; simp

theorem check_int_eq_all (s : String) :
    check_int s = s.toList.all (fun c => !(c == '.')) := by
  unfold check_int
  rw [check_int_foldl]; simp


theorem is_digits_iff (ds : List Char) :
    is_digits ds = true ↔ ds ≠ [] ∧ ∀ c ∈ ds, c.isDigit = true := by
  simp [is_digits]

theorem digit_not_space (c : Char) (h : c.isDigit = true) : isspace c = false := by
  have hb := digit_bounds c h
  simp only [isspace, Bool.or_eq_false_iff, beq_eq_false_iff_ne, ne_eq]
  refine ⟨⟨⟨⟨⟨?_, ?_⟩, ?_⟩, ?_⟩, ?_⟩, ?_⟩ <;>
    · apply char_ne_of_toNat_ne
      intro e
      rw [e] at hb
      revert hb
      decide

theorem digit_check_digit (c : Char) (h : c.isDigit = true) :
    (('a' ≤ c && c ≤ 'z') || ('A' ≤ c && c ≤ 'B') || c == ';' || c == ',') = false := by
  have hb := digit_bounds c h
  have e1 : ('a' : Char).toNat = 97 := rfl
  have e3 : ('A' : Char).toNat = 65 := rfl
  simp only [Bool.or_eq_false_iff, Bool.and_eq_false_iff, decide_eq_false_iff_not,
    beq_eq_false_iff_ne, char_le_iff, ne_eq]
  refine ⟨⟨⟨?_, ?_⟩, ?_⟩, ?_⟩
  · left; rw [e1]; omega
  · left; rw [e3]; omega
  · apply char_ne_of_toNat_ne; intro e; rw [e] at hb; revert hb; decide
  · apply char_ne_of_toNat_ne; intro e; rw [e] at hb; revert hb; decide

theorem digit_ne (c d : Char) (h : c.isDigit = true) (hd : d.isDigit = false) : c ≠ d := by
  intro e; rw [e, hd] at h; exact Bool.noConfusion h

theorem read_sign_digit (c : Char) (cs : List Char) (h : c.isDigit = true) :
    read_sign (c :: cs) = (false, c :: cs) := by
  have h1 : c ≠ '-' := digit_ne c '-' h (by decide)
  have h2 : c ≠ '+' := digit_ne c '+' h (by decide)
  unfold read_sign
  split
  · rename_i heq; injection heq with h3 h4; exact absurd h3 h1
  · rename_i heq; injection heq with h3 h4; exact absurd h3 h2
  · rfl

theorem takeWhile_digits (ds rest : List Char) (h : ∀ c ∈ ds, c.isDigit = true)
    (hr : ∀ c, rest.head? = some c → c.isDigit = false) :
    (ds ++ rest).takeWhile Char.isDigit = ds := by
  induction ds with
  | nil =>
    cases rest with
    | nil => rfl
    | cons c cs => simp [List.takeWhile_cons, hr c rfl]
  | cons d ds ih =>
    simp only [List.cons_append, List.takeWhile_cons, h d (List.mem_cons_self _ _), if_true]
    rw [ih (fun c hc => h c (List.mem_cons_of_mem _ hc))]

theorem dropWhile_digits (ds rest : List Char) (h : ∀ c ∈ ds, c.isDigit = true)
    (hr : ∀ c, rest.head? = some c → c.isDigit = false) :
    (ds ++ rest).dropWhile Char.isDigit = rest := by
  induction ds with
  | nil =>
    cases rest with
    | nil => rfl
    | cons c cs => simp [List.dropWhile_cons, hr c rfl]
  | cons d ds ih =>
    simp only [List.cons_append, List.dropWhile_cons, h d (List.mem_cons_self _ _), if_true]
    rw [ih (fun c hc => h c (List.mem_cons_of_mem _ hc))]

theorem special_float_digits (c : Char) (cs : List Char) (h : c.isDigit = true)
    (h2 : ∀ d, cs.head? = some d → d ≠ 'x' ∧ d ≠ 'X') :
    special_float (c :: cs) = false := by
  have hb := digit_bounds c h
  have hl : c.toLower = c := by
    unfold Char.toLower
    have h65 : ¬ (65 ≤ c.toNat) := by omega
    simp [h65]
  have hi : c ≠ 'i' := digit_ne c 'i' h (by decide)
  have hn : c ≠ 'n' := digit_ne c 'n' h (by decide)
  unfold special_float
  split
  · rename_i x _ heq
    injection heq with h3 h4
    subst h4
    have := h2 x rfl
    simp [this.1, this.2]
  · rename_i a b d _ _ heq
    injection heq with h3 h4
    subst h3
    simp [hl, hi, hn]
  · rfl


theorem dropWhile_space_digit (c : Char) (cs : List Char) (h : c.isDigit = true) :
    (c :: cs).dropWhile isspace = c :: cs := by
  simp [List.dropWhile_cons, digit_not_space c h]

theorem stoi_digits (ds : List Char) (h : is_digits ds = true) :
    stoi (String.mk ds) =
      if INT_MAX < (digits_value ds : Int) then Except.error Err.out_of_range
      else Except.ok (digits_value ds : Int) := by
  obtain ⟨hne, hall⟩ := (is_digits_iff ds).1 h
  obtain ⟨c, cs, rfl⟩ := List.exists_cons_of_ne_nil hne
  have hc : c.isDigit = true := hall c (List.mem_cons_self _ _)
  have htake : (c :: cs).takeWhile Char.isDigit = c :: cs := by
    have := takeWhile_digits (c :: cs) [] hall (by simp)
    simpa using this
  have hmin : ¬ ((digits_value (c :: cs) : Int) < INT_MIN) := by
    have : (0 : Int) ≤ (digits_value (c :: cs) : Int) := Int.ofNat_nonneg _
    unfold INT_MIN; omega
  simp only [stoi, String.toList, dropWhile_space_digit c cs hc, read_sign_digit c cs hc, htake]
  simp [hmin]

theorem read_decimal_integer (ds : List Char) (h : is_digits ds = true) :
    read_decimal (String.mk ds) = Except.ok (digits_value ds : ℚ) := by
  obtain ⟨hne, hall⟩ := (is_digits_iff ds).1 h
  obtain ⟨c, cs, rfl⟩ := List.exists_cons_of_ne_nil hne
  have hc : c.isDigit = true := hall c (List.mem_cons_self _ _)
  have htake : (c :: cs).takeWhile Char.isDigit = c :: cs := by
    have := takeWhile_digits (c :: cs) [] hall (by simp)
    simpa using this
  have hdrop : (c :: cs).dropWhile Char.isDigit = [] := by
    have := dropWhile_digits (c :: cs) [] hall (by simp)
    simpa using this
  have hsp : special_float (c :: cs) = false := by
    apply special_float_digits c cs hc
    intro d hd
    have hdm : d ∈ cs := List.mem_of_mem_head? hd
    have hdd : d.isDigit = true := hall d (List.mem_cons_of_mem _ hdm)
    exact ⟨digit_ne d 'x' hdd (by decide), digit_ne d 'X' hdd (by decide)⟩
  simp only [read_decimal, String.toList, dropWhile_space_digit c cs hc, read_sign_digit c cs hc, hsp, htake, hdrop]
  simp [read_exponent, digits_value]

theorem read_decimal_decimal (ds fs : List Char) (h : is_digits ds = true) (hf : is_digits fs = true) :
    read_decimal (String.mk (ds ++ '.' :: fs)) = Except.ok (decimal_value ds fs) := by
  obtain ⟨hne, hall⟩ := (is_digits_iff ds).1 h
  obtain ⟨hfne, hfall⟩ := (is_digits_iff fs).1 hf
  obtain ⟨c, cs, rfl⟩ := List.exists_cons_of_ne_nil hne
  have hc : c.isDigit = true := hall c (List.mem_cons_self _ _)
  have htake : (c :: cs ++ '.' :: fs).takeWhile Char.isDigit = c :: cs :=
    takeWhile_digits (c :: cs) ('.' :: fs) hall (by simp)
  have hdrop : (c :: cs ++ '.' :: fs).dropWhile Char.isDigit = '.' :: fs :=
    dropWhile_digits (c :: cs) ('.' :: fs) hall (by simp)
  have hftake : fs.takeWhile Char.isDigit = fs := by
    have := takeWhile_digits fs [] hfall (by simp)
    simpa using this
  have hfdrop : fs.dropWhile Char.isDigit = [] := by
    have := dropWhile_digits fs [] hfall (by simp)
    simpa using this
  have hsp : special_float (c :: (cs ++ '.' :: fs)) = false := by
    apply special_float_digits c _ hc
    intro d hd
    cases cs with
    | nil =>
      simp at hd
      subst hd
      exact ⟨by decide, by decide⟩
    | cons e es =>
      simp at hd
      subst hd
      have hdd : e.isDigit = true := hall e (by simp)
      exact ⟨digit_ne e 'x' hdd (by decide), digit_ne e 'X' hdd (by decide)⟩
  have hcons : c :: cs ++ '.' :: fs = c :: (cs ++ '.' :: fs) := rfl
  simp only [read_decimal, String.toList, hcons, dropWhile_space_digit c _ hc, read_sign_digit c _ hc, hsp]
  rw [← hcons, htake, hdrop]
  simp only [hftake, hfdrop]
  simp [read_exponent, decimal_value, hfne]

theorem read_decimal_numeric {s : String} {v : ℚ} (h : Numeric s v) :
    read_decimal s = Except.ok v := by
  cases h with
  | integer ds hd => exact read_decimal_integer ds hd
  | decimal ds fs hd hf => exact read_decimal_decimal ds fs hd hf

theorem all_digits_check_digit (cs : List Char) (h : ∀ c ∈ cs, c.isDigit = true ∨ c = '.') :
    cs.all (fun c =>
        !(('a' ≤ c && c ≤ 'z') || ('A' ≤ c && c ≤ 'B') || c == ';' || c == ',')) = true := by
  rw [List.all_eq_true]
  intro c hc
  rcases h c hc with hd | rfl
  · rw [digit_check_digit c hd]; rfl
  · decide

theorem check_digit_numeric {s : String} {v : ℚ} (h : Numeric s v) : check_digit s = true := by
  rw [check_digit_eq_all]
  cases h with
  | integer ds hd =>
    apply all_digits_check_digit
    intro c hc
    exact Or.inl (((is_digits_iff ds).1 hd).2 c hc)
  | decimal ds fs hd hf =>
    apply all_digits_check_digit
    intro c hc
    change c ∈ ds ++ '.' :: fs at hc
    simp only [List.mem_append, List.mem_cons] at hc
    rcases hc with hc | rfl | hc
    · exact Or.inl (((is_digits_iff ds).1 hd).2 c hc)
    · exact Or.inr rfl
    · exact Or.inl (((is_digits_iff fs).1 hf).2 c hc)

theorem check_int_integer (ds : List Char) (h : is_digits ds = true) :
    check_int (String.mk ds) = true := by
  rw [check_int_eq_all, List.all_eq_true]
  intro c hc
  have hd := ((is_digits_iff ds).1 h).2 c hc
  have : c ≠ '.' := digit_ne c '.' hd (by decide)
  simp [this]

theorem check_int_decimal (ds fs : List Char) :
    check_int (String.mk (ds ++ '.' :: fs)) = false := by
  rw [check_int_eq_all]
  simp

theorem numeric_nonneg {s : String} {v : ℚ} (h : Numeric s v) : 0 ≤ v := by
  cases h with
  | integer ds hd => exact Nat.cast_nonneg _
  | decimal ds fs hd hf =>
    unfold decimal_value
    positivity



theorem generate_building_level_eq (ft : String) (p : Props) :
    generate_building_level ft p =
      (levels_block p 1 >>= fun level =>
       height_block ft p "height" (-1) >>= fun height =>
       height_block ft p "building:height" height >>= fun height =>
       override_block level height >>= fun level =>
       pure (if (ft == "building" && !(p.get "building").empty && check_high p) = true
         then 3 else level)) := rfl

theorem int_result_ok (v : Int) (h1 : INT_MIN ≤ v) (h2 : v ≤ INT_MAX) :
    int_result v = Except.ok v := by
  simp [int_result, h1, h2]

theorem to_int_nonneg (d : ℚ) (h : 0 ≤ d) : to_int d = int_result ⌊d⌋ := by
  simp [to_int, h]

theorem cround_nonneg (d : ℚ) (h : 0 ≤ d) : cround d = ((round d : Int) : ℚ) := by
  simp [cround, h, round_eq]

theorem round_nonneg_of_nonneg (d : ℚ) (h : 0 ≤ d) : (0 : Int) ≤ round d := by
  rw [round_eq]; apply Int.floor_nonneg.2; linarith

theorem to_int_cround (d : ℚ) (h : 0 ≤ d) : to_int (cround d) = int_result (round d) := by
  rw [cround_nonneg d h, to_int_nonneg _ (by exact_mod_cast round_nonneg_of_nonneg d h)]
  simp

theorem stof_numeric {s : String} {v : ℚ} (h : Numeric s v) : stof s = float_of_decimal v := by
  unfold stof
  rw [read_decimal_numeric h]
  rfl

theorem float_of_decimal_eq {v f : ℚ} (h : float_of_decimal v = Except.ok f) :
    f = round_float v := by
  unfold float_of_decimal at h
  split at h
  · exact Except.noConfusion h
  · split at h
    · exact Except.noConfusion h
    · injection h with h
      exact h.symm

theorem round_float_mono {a b : ℚ} (h : a ≤ b) : round_float a ≤ round_float b :=
  round_to_mono 24 (by norm_num) (-149) h

theorem round_double_mono {a b : ℚ} (h : a ≤ b) : round_double a ≤ round_double b :=
  round_to_mono 53 (by norm_num) (-1074) h

theorem round_float_nonneg {v : ℚ} (h : 0 ≤ v) : 0 ≤ round_float v :=
  round_to_nonneg 24 (-149) h

theorem round_double_nonneg {v : ℚ} (h : 0 ≤ v) : 0 ≤ round_double v :=
  round_to_nonneg 53 (-1074) h

theorem double_literal_3_2 :
    round_double (32 / 10) = 3602879701896397 / 1125899906842624 := by decide!

theorem float_literal_3_2 : round_float (16 / 5) = 13421773 / 4194304 := by decide!

theorem round_float_neg_one : round_float (-1) = -1 := by decide!

theorem round_double_one : round_double 1 = 1 := by decide!

theorem height_quotient_nonneg {f : ℚ} (h : 0 ≤ f) : 0 ≤ height_quotient f := by
  unfold height_quotient
  apply round_double_nonneg
  rw [double_literal_3_2]
  positivity

theorem levels_block_no_tag (p : Props) (level : Int) (h : no_tag p "building:levels") :
    levels_block p level = Except.ok level := by
  unfold no_tag at h
  simp [levels_block, h]
  rfl

theorem levels_block_rejected (p : Props) (level : Int) (lev : String)
    (hl : p.get "building:levels" = Json.str lev) (hd : check_digit lev = false) :
    levels_block p level = Except.ok 1 := by
  simp [levels_block, hl, Json.empty, Json.get_string, hd]
  rfl

theorem levels_number_cases {s : String} {v w : ℚ} (hn : Numeric s v)
    (hw : levels_number s v = Except.ok w) :
    0 ≤ w ∧ w = if check_int s = true then v else round_float v := by
  have h0 := numeric_nonneg hn
  unfold levels_number at hw
  split at hw
  · rename_i hc
    injection hw with hw
    subst hw
    exact ⟨h0, by simp [hc]⟩
  · rename_i hc
    have := float_of_decimal_eq hw
    subst this
    exact ⟨round_float_nonneg h0, by simp [hc]⟩

theorem levels_block_numeric (p : Props) (level : Int) (s : String) (v w : ℚ)
    (hl : p.get "building:levels" = Json.str s) (hn : Numeric s v)
    (hw : levels_number s v = Except.ok w) (hr : round w + 1 ≤ INT_MAX) :
    levels_block p level = Except.ok (round w + 1) := by
  have h0 := (levels_number_cases hn hw).1
  have hr0 := round_nonneg_of_nonneg w h0
  have hmin : INT_MIN ≤ round w := by unfold INT_MIN; omega
  have hmin1 : INT_MIN ≤ round w + 1 := by unfold INT_MIN; omega
  have hmax : round w ≤ INT_MAX := by omega
  have he : (Json.str s).empty = false := rfl
  have hg : (Json.str s).get_string = Except.ok s := rfl
  unfold levels_block
  simp only [hl, he, hg, check_digit_numeric hn, ok_bind, Bool.not_false, ↓reduceIte]
  cases hn with
  | integer ds hd =>
    have hw' : w = ((digits_value ds : ℕ) : ℚ) := by
      simpa [levels_number, check_int_integer ds hd] using hw.symm
    subst hw'
    have hround : round ((digits_value ds : ℕ) : ℚ) = (digits_value ds : Int) := by simp
    rw [hround] at hr hmin hmin1 hmax ⊢
    have hmax2 : ¬ (INT_MAX < (digits_value ds : Int)) := by omega
    have hc : to_int (cround (((digits_value ds : ℕ) : Int) : ℚ)) =
        Except.ok (digits_value ds : Int) := by
      rw [to_int_cround _ (by positivity)]
      simp only [Int.cast_natCast, hround]
      exact int_result_ok _ hmin hmax
    simp only [check_int_integer ds hd, stoi_digits ds hd, ↓reduceIte]
    rw [if_neg hmax2, ok_bind, hc, ok_bind]
    exact int_result_ok _ hmin1 hr
  | decimal ds fs hd hf =>
    have hw' : float_of_decimal (decimal_value ds fs) = Except.ok w := by
      simpa [levels_number, check_int_decimal] using hw
    have hc : to_int (cround w) = Except.ok (round w) := by
      rw [to_int_cround _ h0]
      exact int_result_ok _ hmin hmax
    simp only [check_int_decimal, stof_numeric (Numeric.decimal ds fs hd hf), hw',
      Bool.false_eq_true, ↓reduceIte]
    rw [ok_bind, hc, ok_bind]
    exact int_result_ok _ hmin1 hr

theorem height_block_no_tag (ft : String) (p : Props) (key : String) (height : ℚ)
    (h : no_tag p key) : height_block ft p key height = Except.ok height := by
  unfold no_tag at h
  simp only [height_block, h, Bool.not_true, Bool.and_false, Bool.false_eq_true, ↓reduceIte]
  rfl

theorem height_block_numeric (p : Props) (key : String) (height v f : ℚ)
    (hn : height_tag p key v f) : height_block "building" p key height = Except.ok f := by
  obtain ⟨⟨s, hs, hn⟩, hf⟩ := hn
  have he : (Json.str s).empty = false := rfl
  have hg : (Json.str s).get_string = Except.ok s := rfl
  simp only [height_block, hs, he, hg, ok_bind, check_digit_numeric hn, stof_numeric hn, hf,
    beq_self_eq_true, Bool.not_false, Bool.and_self, ↓reduceIte]

theorem height_tag_nonneg {p : Props} {key : String} {v f : ℚ} (hn : height_tag p key v f) :
    0 ≤ f ∧ f = round_float v := by
  obtain ⟨⟨s, _, hn⟩, hf⟩ := hn
  have := float_of_decimal_eq hf
  subst this
  exact ⟨round_float_nonneg (numeric_nonneg hn), rfl⟩

theorem override_block_unset (level : Int) : override_block level (-1) = Except.ok level := by
  simp only [override_block, gt_iff_lt, lt_self_iff_false, ↓reduceIte]
  rfl

theorem floor_height_nonneg (f : ℚ) (h0 : 0 ≤ f) : (0 : Int) ≤ ⌊height_quotient f⌋ :=
  Int.floor_nonneg.2 (height_quotient_nonneg h0)

theorem override_block_height (level : Int) (f : ℚ) (h0 : 0 ≤ f)
    (hr : ⌊height_quotient f⌋ ≤ INT_MAX) :
    override_block level f = Except.ok ⌊height_quotient f⌋ := by
  have hgt : f > -1 := by linarith
  have hmin : INT_MIN ≤ ⌊height_quotient f⌋ := by
    have := floor_height_nonneg f h0
    unfold INT_MIN; omega
  simp only [override_block, hgt, ↓reduceIte]
  rw [to_int_nonneg _ (height_quotient_nonneg h0)]
  exact int_result_ok _ hmin hr

theorem levels_block_well_formed (p : Props) (h : well_formed_levels p) :
    ∃ l, levels_block p 1 = Except.ok l ∧ 1 ≤ l := by
  rcases h with h | ⟨v, w, ⟨s, hs, hn, hw⟩, hr⟩
  · exact ⟨1, levels_block_no_tag p 1 h, le_refl _⟩
  · refine ⟨round w + 1, levels_block_numeric p 1 s v w hs hn hw hr, ?_⟩
    have := round_nonneg_of_nonneg w (levels_number_cases hn hw).1
    omega

theorem check_high_of_mem (p : Props) (b : String) (hb : p.get "building" = Json.str b)
    (hm : b ∈ ["apartments", "residential", "tower", "hotel"]) : check_high p = true := by
  simp only [List.mem_cons, List.mem_singleton, List.not_mem_nil, or_false] at hm
  simp only [check_high, hb, Json.eq_str, Bool.or_eq_true, beq_iff_eq]
  tauto

/-- C2, as amended: when no height tag is present and the building value is not a high
subtype, a `building:levels` tag that is a numeric string denoting `v` makes
`generate_building_level` return `round w + 1`, where `w` is the number read from the
string, `v` itself for a string without a point and the `float` nearest to `v` for a string
with a point, provided `round w + 1` is no larger than `INT_MAX`. -/
theorem generate_building_level_of_levels (ft : String) (p : Props) (s : String) (v w : ℚ)
    (hs : p.get "building:levels" = Json.str s) (hn : Numeric s v)
    (hw : levels_number s v = Except.ok w) (hh : no_tag p "height")
    (hbh : no_tag p "building:height") (hhigh : check_high p = false)
    (hr : round w + 1 ≤ INT_MAX) :
    generate_building_level ft p = Except.ok (round w + 1) ∧
      w = if check_int s = true then v else round_float v := by
  refine ⟨?_, (levels_number_cases hn hw).2⟩
  rw [generate_building_level_eq, levels_block_numeric p 1 s v w hs hn hw hr, ok_bind,
    height_block_no_tag ft p "height" (-1) hh, ok_bind,
    height_block_no_tag ft p "building:height" (-1) hbh, ok_bind,
    override_block_unset, ok_bind, hhigh]
  simp only [Bool.and_false, Bool.false_eq_true, ↓reduceIte]
  rfl

theorem numeric_of_digits (ds : List Char) (n : ℕ) (h : is_digits ds = true)
    (hv : digits_value ds = n) : Numeric (String.mk ds) (n : ℚ) := by
  rw [← hv]; exact Numeric.integer ds h

theorem numeric_tag_of_digits (p : Props) (key : String) (ds : List Char) (n : ℕ)
    (hp : p.get key = Json.str (String.mk ds)) (h : is_digits ds = true)
    (hv : digits_value ds = n) : numeric_tag p key (n : ℚ) :=
  ⟨String.mk ds, hp, numeric_of_digits ds n h hv⟩

theorem numeric_of_decimal (ds fs : List Char) (v : ℚ) (h : is_digits ds = true)
    (hf : is_digits fs = true) (hv : decimal_value ds fs = v) :
    Numeric (String.mk (ds ++ '.' :: fs)) v := by
  rw [← hv]; exact Numeric.decimal ds fs h hf

theorem decimal_value_eq (ds fs : List Char) (a b : ℕ) (hd : digits_value ds = a)
    (hf : digits_value fs = b) :
    decimal_value ds fs = (a : ℚ) + (b : ℚ) / (10 : ℚ) ^ fs.length := by
  unfold decimal_value
  rw [hd, hf]

/-- C2, witness: the tag map with only `building:levels = 5` gives level 6, and the tag map
with only `building:levels = 2.5` gives level 4. -/
theorem generate_building_level_of_levels_witness :
    generate_building_level "building" [("building:levels", Json.str "5")] = Except.ok 6 ∧
    generate_building_level "building" [("building:levels", Json.str "2.5")] = Except.ok 4 := by
  have h := (generate_building_level_of_levels "building" [("building:levels", Json.str "5")]
    "5" ((5 : ℕ) : ℚ) ((5 : ℕ) : ℚ) rfl (numeric_of_digits ['5'] 5 (by decide) (by decide))
    rfl rfl rfl rfl (by simp [INT_MAX])).1
  have h2 := (generate_building_level_of_levels "building"
    [("building:levels", Json.str "2.5")] "2.5" (5 / 2) (5 / 2) rfl
    (numeric_of_decimal ['2'] ['5'] (5 / 2) (by decide) (by decide)
      (by rw [decimal_value_eq ['2'] ['5'] 2 5 (by decide) (by decide)]; norm_num))
    (by decide!) rfl rfl rfl (by norm_num [INT_MAX, round_eq, Int.floor_le_iff])).1
  have e : round ((5 : ℚ) / 2) + 1 = 4 := by
    rw [round_eq, show ((5 : ℚ) / 2 + 1 / 2) = ((3 : ℤ) : ℚ) by norm_num, Int.floor_intCast]
    rfl
  rw [e] at h2
  exact ⟨by simpa using h, h2⟩

/-- C2, counterexample: `2.4999999` is a numeric string denoting `v` with `round v + 1 = 3`,
no height tag is present and the building value is not a high subtype, yet the call returns
4: `std::stof` reads the `float` 2.5.  On the numeric string `2147483648` the call does not
return `round v + 1`: `std::stoi` throws `out_of_range`.  And on the numeric string
`0.0000000000000000000000000000000000000000000001`, below the range of `float`, `std::stof`
throws `out_of_range`. -/
theorem generate_building_level_levels_rounded :
    (numeric_tag [("building:levels", Json.str "2.4999999")] "building:levels"
        (24999999 / 10000000) ∧
      no_tag [("building:levels", Json.str "2.4999999")] "height" ∧
      no_tag [("building:levels", Json.str "2.4999999")] "building:height" ∧
      check_high [("building:levels", Json.str "2.4999999")] = false ∧
      round ((24999999 : ℚ) / 10000000) + 1 = 3 ∧
      generate_building_level "building" [("building:levels", Json.str "2.4999999")]
        = Except.ok 4) ∧
    (numeric_tag [("building:levels", Json.str "2147483648")] "building:levels" 2147483648 ∧
      no_tag [("building:levels", Json.str "2147483648")] "height" ∧
      no_tag [("building:levels", Json.str "2147483648")] "building:height" ∧
      check_high [("building:levels", Json.str "2147483648")] = false ∧
      generate_building_level "building" [("building:levels", Json.str "2147483648")]
        = Except.error Err.out_of_range) ∧
    (numeric_tag
        [("building:levels", Json.str "0.0000000000000000000000000000000000000000000001")]
        "building:levels" (1 / 10 ^ 46) ∧
      generate_building_level "building"
        [("building:levels", Json.str "0.0000000000000000000000000000000000000000000001")]
        = Except.error Err.out_of_range) := by
  refine ⟨⟨?_, rfl, rfl, rfl, ?_, ?_⟩, ⟨?_, rfl, rfl, rfl, ?_⟩, ⟨?_, ?_⟩⟩
  · exact ⟨"2.4999999", rfl, numeric_of_decimal ['2'] ['4', '9', '9', '9', '9', '9', '9'] _
      (by decide) (by decide)
      (by rw [decimal_value_eq ['2'] ['4', '9', '9', '9', '9', '9', '9'] 2 4999999 (by decide)
        (by decide)]; norm_num)⟩
  · rw [round_eq, Int.floor_eq_iff.2 (by norm_num : ((2 : ℤ) : ℚ) ≤ 24999999 / 10000000 + 1 / 2 ∧
      (24999999 : ℚ) / 10000000 + 1 / 2 < ((2 : ℤ) : ℚ) + 1)]
    rfl
  · decide!
  · have h := numeric_tag_of_digits [("building:levels", Json.str "2147483648")]
      "building:levels" ['2', '1', '4', '7', '4', '8', '3', '6', '4', '8'] 2147483648 rfl
      (by decide) (by decide)
    simpa using h
  · decide!
  · exact ⟨"0.0000000000000000000000000000000000000000000001", rfl,
      numeric_of_decimal ['0'] "0000000000000000000000000000000000000000000001".toList _
        (by decide) (by decide)
        (by rw [decimal_value_eq ['0'] "0000000000000000000000000000000000000000000001".toList
          0 1 (by decide) (by decide)]; norm_num)⟩
  · decide!

/-- C3, the code at the failing input: `5C` contains the letter `C`, and the call returns 6
instead of rejecting the string and returning 1. -/
theorem generate_building_level_accepts_letter :
    has_letter_or_separator "5C" = true ∧
    generate_building_level "building" [("building:levels", Json.str "5C")] = Except.ok 6 := by
  refine ⟨by decide, ?_⟩
  with_unfolding_all rfl

theorem height_blocks (p : Props) (h f : ℚ)
    (hh : (height_tag p "building:height" h f ∧
            (no_tag p "height" ∨ ∃ h' f', height_tag p "height" h' f')) ∨
          (no_tag p "building:height" ∧ height_tag p "height" h f)) :
    (height_block "building" p "height" (-1) >>= fun height =>
      height_block "building" p "building:height" height) = Except.ok f := by
  rcases hh with ⟨hb, hn | ⟨h', f', hn⟩⟩ | ⟨hb, hn⟩
  · rw [height_block_no_tag _ p "height" (-1) hn, ok_bind, height_block_numeric p _ _ h f hb]
  · rw [height_block_numeric p "height" (-1) h' f' hn, ok_bind,
      height_block_numeric p _ _ h f hb]
  · rw [height_block_numeric p "height" (-1) h f hn, ok_bind, height_block_no_tag _ p _ _ hb]

/-- C4, as amended: for footprint type `building`, a building value that is not a high
subtype and a `building:levels` tag that is missing or well formed, when `building:height`
is a numeric string denoting `h` (and `height` is missing or numeric), or `building:height`
is missing and `height` is a numeric string denoting `h`, `generate_building_level` returns
the integer part of the quotient `f / 3.2` computed in `double`, where `f` is the `float`
nearest to `h` that `std::stof` reads, provided this integer is no larger than `INT_MAX`. -/
theorem generate_building_level_of_height (p : Props) (h f : ℚ)
    (hlev : well_formed_levels p) (hhigh : check_high p = false)
    (hh : (height_tag p "building:height" h f ∧
            (no_tag p "height" ∨ ∃ h' f', height_tag p "height" h' f')) ∨
          (no_tag p "building:height" ∧ height_tag p "height" h f))
    (hr : ⌊height_quotient f⌋ ≤ INT_MAX) :
    generate_building_level "building" p = Except.ok ⌊height_quotient f⌋ ∧
      f = round_float h ∧
      height_quotient f = round_double (f / round_double (32 / 10)) := by
  obtain ⟨l, hl, _⟩ := levels_block_well_formed p hlev
  have h0 : 0 ≤ f ∧ f = round_float h := by
    rcases hh with ⟨hs, _⟩ | ⟨_, hs⟩ <;> exact height_tag_nonneg hs
  have hb := height_blocks p h f hh
  refine ⟨?_, h0.2, rfl⟩
  rw [generate_building_level_eq, hl, ok_bind]
  rw [← bind_assoc, hb, ok_bind, override_block_height l f h0.1 hr, ok_bind, hhigh]
  simp only [Bool.and_false, Bool.false_eq_true, ↓reduceIte]
  rfl

theorem height_tag_of_digits (p : Props) (key : String) (ds : List Char) (n : ℕ) (f : ℚ)
    (hp : p.get key = Json.str (String.mk ds)) (h : is_digits ds = true)
    (hv : digits_value ds = n) (hf : float_of_decimal (n : ℚ) = Except.ok f) :
    height_tag p key (n : ℚ) f :=
  ⟨numeric_tag_of_digits p key ds n hp h hv, hf⟩

theorem levels_tag_of_digits (p : Props) (ds : List Char) (n : ℕ)
    (hp : p.get "building:levels" = Json.str (String.mk ds)) (h : is_digits ds = true)
    (hv : digits_value ds = n) : levels_tag p (n : ℚ) (n : ℚ) :=
  ⟨String.mk ds, hp, numeric_of_digits ds n h hv, by
    simp [levels_number, check_int_integer ds h]⟩

/-- C4, witness: `building:levels = 5` and `height = 10` give the integer part of
`10 / 3.2`, which is 3. -/
theorem generate_building_level_of_height_witness :
    generate_building_level "building"
      [("building:levels", Json.str "5"), ("height", Json.str "10")] = Except.ok 3 := by
  have e : ⌊height_quotient (((10 : ℕ) : ℚ))⌋ = 3 := by decide!
  have h := (generate_building_level_of_height
    [("building:levels", Json.str "5"), ("height", Json.str "10")] ((10 : ℕ) : ℚ)
    ((10 : ℕ) : ℚ)
    (Or.inr ⟨((5 : ℕ) : ℚ), ((5 : ℕ) : ℚ),
      levels_tag_of_digits _ ['5'] 5 rfl (by decide) (by decide), by simp [INT_MAX]⟩)
    rfl
    (Or.inr ⟨rfl, height_tag_of_digits _ _ ['1', '0'] 10 _ rfl (by decide) (by decide)
      (by decide!)⟩)
    (by rw [e]; decide)).1
  rw [e] at h
  exact h

/-- C4, counterexample: with `height = 10` and `building:height = 20`, a numeric `height`
tag with value 10 is present, but the call returns 6, the integer part of `20 / 3.2`, and
not 3, that of `10 / 3.2`.  With `height = 22.4` the call returns 6, while the floor of
`22.4 / 3.2` is 7: the `float` read is below 22.4.  With `height = 10000000000` the
quotient is no `int`, and the conversion is undefined; and with a height of 1 followed by
39 zeros, above the range of `float`, `std::stof` throws `out_of_range`. -/
theorem generate_building_level_height_precedence :
    (numeric_tag [("height", Json.str "10"), ("building:height", Json.str "20")] "height" 10 ∧
      check_high [("height", Json.str "10"), ("building:height", Json.str "20")] = false ∧
      generate_building_level "building"
        [("height", Json.str "10"), ("building:height", Json.str "20")] = Except.ok 6 ∧
      ⌊(10 : ℚ) / (16 / 5)⌋ = 3) ∧
    (numeric_tag [("height", Json.str "22.4")] "height" (224 / 10) ∧
      check_high [("height", Json.str "22.4")] = false ∧
      generate_building_level "building" [("height", Json.str "22.4")] = Except.ok 6 ∧
      ⌊(224 / 10 : ℚ) / (16 / 5)⌋ = 7) ∧
    (numeric_tag [("height", Json.str "10000000000")] "height" 10000000000 ∧
      generate_building_level "building" [("height", Json.str "10000000000")]
        = Except.error Err.undefined_behaviour) ∧
    (numeric_tag [("height", Json.str "1000000000000000000000000000000000000000")] "height"
        (10 ^ 39) ∧
      generate_building_level "building"
        [("height", Json.str "1000000000000000000000000000000000000000")]
        = Except.error Err.out_of_range) := by
  refine ⟨⟨?_, rfl, ?_, ?_⟩, ⟨?_, rfl, ?_, ?_⟩, ⟨?_, ?_⟩, ⟨?_, ?_⟩⟩
  · have h := numeric_tag_of_digits
      [("height", Json.str "10"), ("building:height", Json.str "20")] "height" ['1', '0'] 10
      rfl (by decide) (by decide)
    simpa using h
  · decide!
  · rw [Int.floor_eq_iff]; norm_num
  · exact ⟨"22.4", rfl, numeric_of_decimal ['2', '2'] ['4'] _ (by decide) (by decide)
      (by rw [decimal_value_eq ['2', '2'] ['4'] 22 4 (by decide) (by decide)]; norm_num)⟩
  · decide!
  · rw [Int.floor_eq_iff]; norm_num
  · have h := numeric_tag_of_digits [("height", Json.str "10000000000")] "height"
      "10000000000".toList 10000000000 rfl (by decide) (by decide)
    simpa using h
  · decide!
  · have h := numeric_tag_of_digits
      [("height", Json.str "1000000000000000000000000000000000000000")] "height"
      "1000000000000000000000000000000000000000".toList (10 ^ 39) rfl (by decide) (by decide)
    simpa using h
  · decide!

theorem height_block_well_formed (p : Props) (key : String) (height : ℚ)
    (h : well_formed_height p key) :
    height_block "building" p key height = Except.ok height ∨
      ∃ v, height_block "building" p key height = Except.ok v ∧ 0 ≤ v ∧
        ⌊height_quotient v⌋ ≤ INT_MAX := by
  rcases h with h | ⟨v, f, hn, hr⟩
  · exact Or.inl (height_block_no_tag _ p key height h)
  · exact Or.inr ⟨f, height_block_numeric p key height v f hn, (height_tag_nonneg hn).1, hr⟩

theorem override_block_returns (level : Int) (height : ℚ)
    (h : height = -1 ∨ (0 ≤ height ∧ ⌊height_quotient height⌋ ≤ INT_MAX)) :
    ∃ l, override_block level height = Except.ok l := by
  rcases h with rfl | ⟨h0, hr⟩
  · exact ⟨level, override_block_unset level⟩
  · exact ⟨_, override_block_height level height h0 hr⟩

/-- C5: for footprint type `building` and a building value among apartments, residential,
tower and hotel, `generate_building_level` returns 3, whatever the `building:levels`,
`height` and `building:height` tags are, each being missing or well formed. -/
theorem generate_building_level_high (p : Props) (b : String)
    (hb : p.get "building" = Json.str b)
    (hm : b ∈ ["apartments", "residential", "tower", "hotel"])
    (hlev : well_formed_levels p) (hh : well_formed_height p "height")
    (hbh : well_formed_height p "building:height") :
    generate_building_level "building" p = Except.ok 3 := by
  obtain ⟨l, hl, _⟩ := levels_block_well_formed p hlev
  have hhigh := check_high_of_mem p b hb hm
  have he : (p.get "building").empty = false := by rw [hb]; rfl
  have hfin : ∃ height,
      (height_block "building" p "height" (-1) >>= fun height =>
        height_block "building" p "building:height" height) = Except.ok height ∧
      (height = -1 ∨ (0 ≤ height ∧ ⌊height_quotient height⌋ ≤ INT_MAX)) := by
    rcases height_block_well_formed p "height" (-1) hh with h1 | ⟨v, h1, hv⟩
    · rcases height_block_well_formed p "building:height" (-1) hbh with h2 | ⟨w, h2, hw⟩
      · exact ⟨-1, by rw [h1, ok_bind, h2], Or.inl rfl⟩
      · exact ⟨w, by rw [h1, ok_bind, h2], Or.inr hw⟩
    · rcases height_block_well_formed p "building:height" v hbh with h2 | ⟨w, h2, hw⟩
      · exact ⟨v, by rw [h1, ok_bind, h2], Or.inr hv⟩
      · exact ⟨w, by rw [h1, ok_bind, h2], Or.inr hw⟩
  obtain ⟨height, hht, hcase⟩ := hfin
  obtain ⟨l', hl'⟩ := override_block_returns l height hcase
  rw [generate_building_level_eq, hl, ok_bind, ← bind_assoc, hht, ok_bind, hl', ok_bind,
    hhigh, he]
  rfl

/-- C5, witness: the tag map with `building = tower`, `building:levels = 5` and
`height = 10` gives level 3. -/
theorem generate_building_level_high_witness :
    generate_building_level "building"
      [("building", Json.str "tower"), ("building:levels", Json.str "5"),
       ("height", Json.str "10")] = Except.ok 3 :=
  generate_building_level_high
    [("building", Json.str "tower"), ("building:levels", Json.str "5"),
     ("height", Json.str "10")] "tower" rfl (by decide)
    (Or.inr ⟨((5 : ℕ) : ℚ), ((5 : ℕ) : ℚ),
      levels_tag_of_digits _ ['5'] 5 rfl (by decide) (by decide), by simp [INT_MAX]⟩)
    (Or.inr ⟨((10 : ℕ) : ℚ), ((10 : ℕ) : ℚ),
      height_tag_of_digits _ _ ['1', '0'] 10 _ rfl (by decide) (by decide) (by decide!),
      by rw [show ⌊height_quotient (((10 : ℕ) : ℚ))⌋ = 3 by decide!]; decide⟩)
    (Or.inl rfl)

theorem int_result_eq_ok (v l : Int) (h : int_result v = Except.ok l) :
    l = v ∧ v ≤ INT_MAX := by
  unfold int_result at h
  split at h
  · rename_i hc
    injection h with h
    exact ⟨h.symm, hc.2⟩
  · exact Except.noConfusion h

theorem read_number_empty (p : Props) (key : String) (h : (p.get key).empty = true) :
    read_number p key = none := by
  unfold read_number
  cases hk : p.get key with
  | str s => rw [hk] at h; exact absurd h (by simp [Json.empty])
  | null => rfl
  | bool b => rfl
  | num q => rfl
  | arr items => rfl
  | obj members => rfl

theorem stof_cases {s : String} {f : ℚ} (h : stof s = Except.ok f) :
    ∃ v, read_decimal s = Except.ok v ∧ float_of_decimal v = Except.ok f := by
  unfold stof at h
  cases hr : read_decimal s with
  | error e => rw [hr] at h; exact Except.noConfusion h
  | ok v => rw [hr, ok_bind] at h; exact ⟨v, rfl, h⟩

theorem stof_float {s : String} {f : ℚ} (h : stof s = Except.ok f) :
    ∃ v, f = round_float v := by
  obtain ⟨v, _, hf⟩ := stof_cases h
  exact ⟨v, float_of_decimal_eq hf⟩

/-- No `float` lies strictly between 13421772 / 2^22 and 13421773 / 2^22, the `float`
nearest to 3.2. -/
theorem round_float_near_3_2 (v : ℚ) :
    round_float v ≤ 13421772 / 4194304 ∨ 13421773 / 4194304 ≤ round_float v := by
  by_cases h1 : v ≤ 13421772 / 4194304
  · left
    have := round_float_mono h1
    rwa [show round_float (13421772 / 4194304) = 13421772 / 4194304 by decide!] at this
  · by_cases h2 : 13421773 / 4194304 ≤ v
    · right
      have := round_float_mono h2
      rwa [show round_float (13421773 / 4194304) = 13421773 / 4194304 by decide!] at this
    · have h1' : 13421772 / 4194304 < v := not_le.mp h1
      have h2' : v < 13421773 / 4194304 := not_le.mp h2
      have hpos : 0 < v := by linarith
      have hb : binade v = 1 := by
        apply binade_unique
        · rw [abs_of_pos hpos]; norm_num; linarith
        · rw [abs_of_pos hpos]; norm_num; linarith
      have he : max (binade v - (((24 : ℕ) : ℤ) - 1)) (-149) = -22 := by
        rw [hb]; norm_num
      have hp : pow2 (-22) = 1 / 4194304 := by rw [pow2_eq]; norm_num
      have hfl : ⌊v / (1 / 4194304)⌋ = 13421772 := by
        rw [Int.floor_eq_iff]
        constructor
        · rw [le_div_iff₀ (by norm_num)]; push_cast; linarith
        · rw [div_lt_iff₀ (by norm_num)]; push_cast; linarith
      have hbd := round_half_even_bounds (v / (1 / 4194304))
      rw [hfl] at hbd
      have hr : round_float v = (round_half_even (v / (1 / 4194304)) : ℚ) * (1 / 4194304) := by
        unfold round_float round_to
        rw [he]
        dsimp only
        rw [hp]
      rcases (show round_half_even (v / (1 / 4194304)) = 13421772 ∨
          round_half_even (v / (1 / 4194304)) = 13421773 by omega) with h | h
      · left; rw [hr, h]; norm_num
      · right; rw [hr, h]; norm_num

/-- What a block that reads a height tag leaves in `height`, when it returns: the value it
found, when no number is read from the tag, and otherwise the `float` read. -/
theorem height_block_cases (p : Props) (key : String) (h0 h1 : ℚ)
    (hb : height_block "building" p key h0 = Except.ok h1) :
    (read_number p key = none ∧ h1 = h0) ∨
      (read_number p key = some h1 ∧ ∃ v, h1 = round_float v) := by
  unfold height_block at hb
  by_cases he : (p.get key).empty = true
  · simp only [he, Bool.not_true, Bool.and_false, Bool.false_eq_true, ↓reduceIte] at hb
    injection hb with hb
    exact Or.inl ⟨read_number_empty p key he, hb.symm⟩
  · have he' : (p.get key).empty = false := by simpa using he
    simp only [he', beq_self_eq_true, Bool.not_false, Bool.and_self, ↓reduceIte] at hb
    cases hk : p.get key with
    | str s =>
      have hg : (Json.str s).get_string = Except.ok s := rfl
      rw [hk, hg, ok_bind] at hb
      by_cases hd : check_digit s = true
      · simp only [hd, ↓reduceIte] at hb
        refine Or.inr ⟨?_, stof_float hb⟩
        simp [read_number, hk, hd, hb, Except.toOption]
      · simp only [hd, Bool.false_eq_true, ↓reduceIte] at hb
        injection hb with hb
        refine Or.inl ⟨?_, hb.symm⟩
        simp [read_number, hk, hd]
    | null => rw [hk] at hb; exact Except.noConfusion hb
    | bool b => rw [hk] at hb; exact Except.noConfusion hb
    | num q => rw [hk] at hb; exact Except.noConfusion hb
    | arr items => rw [hk] at hb; exact Except.noConfusion hb
    | obj members => rw [hk] at hb; exact Except.noConfusion hb

theorem height_blocks_cases (p : Props) (h2 : ℚ)
    (hb : (height_block "building" p "height" (-1) >>= fun height =>
      height_block "building" p "building:height" height) = Except.ok h2) :
    (read_height p = none ∧ h2 = -1) ∨ (read_height p = some h2 ∧ ∃ v, h2 = round_float v) := by
  cases h1e : height_block "building" p "height" (-1) with
  | error e => rw [h1e] at hb; exact Except.noConfusion hb
  | ok h1 =>
    rw [h1e, ok_bind] at hb
    rcases height_block_cases p "building:height" h1 h2 hb with ⟨hn, he⟩ | ⟨hv, hf⟩
    · subst he
      rcases height_block_cases p "height" (-1) h2 h1e with ⟨hn1, he1⟩ | ⟨hv, hf⟩
      · exact Or.inl ⟨by simp [read_height, hn, hn1], he1⟩
      · exact Or.inr ⟨by simp [read_height, hn, hv], hf⟩
    · exact Or.inr ⟨by simp [read_height, hv], hf⟩

theorem cround_level (w : ℚ) (r l : Int) (h1 : to_int (cround w) = Except.ok r)
    (h2 : int_result (r + 1) = Except.ok l) : 1 ≤ l ↔ -1 / 2 < w := by
  have hl := (int_result_eq_ok _ _ h2).1
  by_cases hw : 0 ≤ w
  · rw [to_int_cround _ hw] at h1
    have hr := (int_result_eq_ok _ _ h1).1
    have := round_nonneg_of_nonneg w hw
    constructor
    · intro _; linarith
    · intro _; omega
  · have hc : cround w = ((⌈w - 1 / 2⌉ : Int) : ℚ) := by simp [cround, hw]
    have ht : to_int (((⌈w - 1 / 2⌉ : Int) : ℚ)) = int_result ⌈w - 1 / 2⌉ := by
      unfold to_int
      split <;> simp
    rw [hc, ht] at h1
    have hr := (int_result_eq_ok _ _ h1).1
    constructor
    · intro h
      have h3 : (-1 : Int) < ⌈w - 1 / 2⌉ := by omega
      have := Int.lt_ceil.1 h3
      push_cast at this
      linarith
    · intro h
      have h3 : (-1 : Int) < ⌈w - 1 / 2⌉ := by
        apply Int.lt_ceil.2
        push_cast
        linarith
      omega

/-- What the block that reads `building:levels` leaves in `level`, when it returns: 1 when
no number is read from the tag, and otherwise a level that is at least 1 exactly when the
number read is above -0.5. -/
theorem levels_block_cases (p : Props) (l1 : Int)
    (hb : levels_block p 1 = Except.ok l1) :
    (read_levels p = none ∧ l1 = 1) ∨
      ∃ n, read_levels p = some n ∧ (1 ≤ l1 ↔ -1 / 2 < n) := by
  unfold levels_block at hb
  by_cases he : (p.get "building:levels").empty = true
  · simp only [he, Bool.not_true, Bool.false_eq_true, ↓reduceIte] at hb
    injection hb with hb
    refine Or.inl ⟨?_, hb.symm⟩
    unfold read_levels
    cases hk : p.get "building:levels" with
    | str s => rw [hk] at he; exact absurd he (by simp [Json.empty])
    | null => rfl
    | bool b => rfl
    | num q => rfl
    | arr items => rfl
    | obj members => rfl
  · have he' : (p.get "building:levels").empty = false := by simpa using he
    simp only [he', Bool.not_false, ↓reduceIte] at hb
    cases hk : p.get "building:levels" with
    | str s =>
      have hg : (Json.str s).get_string = Except.ok s := rfl
      rw [hk, hg, ok_bind] at hb
      by_cases hd : check_digit s = true
      · simp only [hd, ↓reduceIte] at hb
        by_cases hi : check_int s = true
        · simp only [hi, ↓reduceIte] at hb
          cases hs : stoi s with
          | error e => rw [hs] at hb; exact Except.noConfusion hb
          | ok ni =>
            rw [hs, ok_bind] at hb
            refine Or.inr ⟨(ni : ℚ), by simp [read_levels, hk, hd, hi, hs, Except.toOption],
              ?_⟩
            cases hr : to_int (cround (ni : ℚ)) with
            | error e => rw [hr] at hb; exact Except.noConfusion hb
            | ok r =>
              rw [hr, ok_bind] at hb
              exact cround_level _ r l1 hr hb
        · simp only [hi, Bool.false_eq_true, ↓reduceIte] at hb
          cases hs : stof s with
          | error e => rw [hs] at hb; exact Except.noConfusion hb
          | ok f =>
            rw [hs, ok_bind] at hb
            refine Or.inr ⟨f, by simp [read_levels, hk, hd, hi, hs, Except.toOption], ?_⟩
            cases hr : to_int (cround f) with
            | error e => rw [hr] at hb; exact Except.noConfusion hb
            | ok r =>
              rw [hr, ok_bind] at hb
              exact cround_level _ r l1 hr hb
      · simp only [hd, Bool.false_eq_true, ↓reduceIte] at hb
        injection hb with hb
        refine Or.inl ⟨?_, hb.symm⟩
        simp [read_levels, hk, hd]
    | null => rw [hk] at hb; exact Except.noConfusion hb
    | bool b => rw [hk] at hb; exact Except.noConfusion hb
    | num q => rw [hk] at hb; exact Except.noConfusion hb
    | arr items => rw [hk] at hb; exact Except.noConfusion hb
    | obj members => rw [hk] at hb; exact Except.noConfusion hb

/-- The level that the block deriving the level from the height gives, for a `float`: the
level it found when the height is at most -1, the level 0 when the height lies strictly
between -1 and 3.2, and a level of at least 1 when the height is at least 3.2. -/
theorem override_block_cases (l1 l2 : Int) (f v : ℚ) (hf : f = round_float v)
    (hb : override_block l1 f = Except.ok l2) :
    (f ≤ -1 → l2 = l1) ∧ (-1 < f → f < 16 / 5 → l2 = 0) ∧ (16 / 5 ≤ f → 1 ≤ l2) := by
  have hd := double_literal_3_2
  refine ⟨?_, ?_, ?_⟩
  · intro h1
    have hgt : ¬ (f > -1) := by linarith
    simp only [override_block, hgt, ↓reduceIte] at hb
    injection hb with hb
    exact hb.symm
  · intro h1 h2
    have hle : f ≤ 13421772 / 4194304 := by
      rcases round_float_near_3_2 v with h | h
      · rw [hf]; exact h
      · rw [← hf] at h
        exfalso
        have : (16 : ℚ) / 5 ≤ 13421773 / 4194304 := by norm_num
        linarith
    have hq1 : height_quotient f ≤ round_double
        (13421772 / 4194304 / (3602879701896397 / 1125899906842624)) := by
      unfold height_quotient
      rw [hd]
      exact round_double_mono (div_le_div_of_nonneg_right hle (by norm_num))
    have hq2 : round_double (-1 / (3602879701896397 / 1125899906842624)) ≤
        height_quotient f := by
      unfold height_quotient
      rw [hd]
      exact round_double_mono (div_le_div_of_nonneg_right (le_of_lt h1) (by norm_num))
    have c1 : round_double (13421772 / 4194304 / (3602879701896397 / 1125899906842624)) < 1 := by
      decide!
    have c2 : -1 < round_double (-1 / (3602879701896397 / 1125899906842624)) := by decide!
    have hgt : f > -1 := h1
    simp only [override_block, hgt, ↓reduceIte] at hb
    unfold to_int at hb
    rw [(int_result_eq_ok _ _ hb).1]
    split
    · rename_i h0
      rw [Int.floor_eq_iff]
      constructor
      · simpa using h0
      · push_cast; linarith
    · rename_i h0
      rw [Int.ceil_eq_iff]
      constructor
      · push_cast; linarith
      · push_cast; linarith
  · intro h3
    have hge : (13421773 : ℚ) / 4194304 ≤ f := by
      rcases round_float_near_3_2 v with h | h
      · rw [← hf] at h
        exfalso
        have : (13421772 : ℚ) / 4194304 < 16 / 5 := by norm_num
        linarith
      · rw [hf]; exact h
    have hgt : f > -1 := by linarith
    have hq : (1 : ℚ) ≤ height_quotient f := by
      unfold height_quotient
      rw [← round_double_one, hd]
      apply round_double_mono
      rw [le_div_iff₀ (by norm_num)]
      linarith
    simp only [override_block, hgt, ↓reduceIte] at hb
    rw [to_int_nonneg _ (by linarith)] at hb
    rw [(int_result_eq_ok _ _ hb).1]
    exact Int.le_floor.2 (by simpa using hq)

/-- C6, as amended: for footprint type `building`, a value that `generate_building_level`
returns is at least 1 exactly when the building value is a high subtype, or the height read
from the tags, that of `building:height` when it is read and that of `height` otherwise,
does not lie strictly between -1 and 3.2 and, no height above -1 being read, the number read
from `building:levels` is above -0.5, so that it does not round to a negative integer. -/
theorem generate_building_level_ge_one (p : Props) (l : Int)
    (hl : generate_building_level "building" p = Except.ok l) :
    1 ≤ l ↔
      (high_subtype p = true ∨
        ((∀ h, read_height p = some h → h ≤ -1 ∨ 16 / 5 ≤ h) ∧
          ((∀ h, read_height p = some h → h ≤ -1) →
            ∀ n, read_levels p = some n → -1 / 2 < n))) := by
  rw [generate_building_level_eq] at hl
  cases h1 : levels_block p 1 with
  | error e => rw [h1] at hl; exact Except.noConfusion hl
  | ok l1 =>
    rw [h1, ok_bind, ← bind_assoc] at hl
    cases h2 : (height_block "building" p "height" (-1) >>= fun height =>
        height_block "building" p "building:height" height) with
    | error e => rw [h2] at hl; exact Except.noConfusion hl
    | ok height =>
      rw [h2, ok_bind] at hl
      cases h3 : override_block l1 height with
      | error e => rw [h3] at hl; exact Except.noConfusion hl
      | ok l2 =>
        rw [h3, ok_bind] at hl
        have hl' : (if ("building" == "building" && !(p.get "building").empty &&
            check_high p) = true then (3 : Int) else l2) = l := by
          injection hl
        by_cases hs : high_subtype p = true
        · have : ("building" == "building" && !(p.get "building").empty && check_high p)
              = true := by simpa [high_subtype] using hs
          rw [if_pos this] at hl'
          constructor
          · intro _; exact Or.inl hs
          · intro _; omega
        · have : ¬ ("building" == "building" && !(p.get "building").empty && check_high p)
              = true := by simpa [high_subtype] using hs
          rw [if_neg this] at hl'
          subst hl'
          have hlev : 1 ≤ l1 ↔ ∀ n, read_levels p = some n → -1 / 2 < n := by
            rcases levels_block_cases p l1 h1 with ⟨hw, h1'⟩ | ⟨n, hw, hiff⟩
            · constructor
              · intro _ n hn; rw [hw] at hn; exact Option.noConfusion hn
              · intro _; omega
            · constructor
              · intro h n' hn'
                rw [hw] at hn'; injection hn' with hn'
                rw [← hn']; exact hiff.1 h
              · intro h; exact hiff.2 (h n hw)
          rcases height_blocks_cases p height h2 with ⟨hw, he⟩ | ⟨hw, v, hf⟩
          · subst he
            rw [override_block_unset] at h3
            injection h3 with h3
            subst h3
            have hno : ∀ h, read_height p = some h → h ≤ -1 := by
              intro h hh; rw [hw] at hh; exact Option.noConfusion hh
            constructor
            · intro h
              exact Or.inr ⟨fun h' hh => Or.inl (hno h' hh), fun _ => hlev.1 h⟩
            · rintro (h | ⟨_, h⟩)
              · exact absurd h hs
              · exact hlev.2 (h hno)
          · obtain ⟨c1, c2, c3⟩ := override_block_cases l1 l2 height v hf h3
            have hone : ∀ h, read_height p = some h → h = height := by
              intro h hh; rw [hw] at hh; injection hh with hh; exact hh.symm
            by_cases k1 : height ≤ -1
            · rw [c1 k1]
              have hno : ∀ h, read_height p = some h → h ≤ -1 := by
                intro h hh; rw [hone h hh]; exact k1
              constructor
              · intro h
                exact Or.inr ⟨fun h' hh => Or.inl (hno h' hh), fun _ => hlev.1 h⟩
              · rintro (h | ⟨_, h⟩)
                · exact absurd h hs
                · exact hlev.2 (h hno)
            · have k1' : -1 < height := not_le.mp k1
              by_cases k2 : 16 / 5 ≤ height
              · constructor
                · intro _
                  refine Or.inr ⟨fun h' hh => Or.inr (by rw [hone h' hh]; exact k2), ?_⟩
                  intro hno
                  exact absurd (hno height hw) k1
                · intro _; exact c3 k2
              · have k2' : height < 16 / 5 := not_le.mp k2
                rw [c2 k1' k2']
                constructor
                · intro h; omega
                · rintro (h | ⟨h, _⟩)
                  · exact absurd h hs
                  · rcases h height hw with h' | h'
                    · exact absurd h' k1
                    · exact absurd h' k2

/-- C6, witness: the building with `building:levels = abc` and `height = 12 m`, from which
no number is read, gets level 1; the building with `building:levels = 5` and `height = 10`
gets level 3. -/
theorem generate_building_level_ge_one_witness :
    (generate_building_level "building"
      [("building", Json.str "yes"), ("building:levels", Json.str "abc"),
       ("height", Json.str "12 m")] = Except.ok 1 ∧ (1 : Int) ≤ 1) ∧
    (generate_building_level "building"
      [("building", Json.str "yes"), ("building:levels", Json.str "5"),
       ("height", Json.str "10")] = Except.ok 3 ∧ (1 : Int) ≤ 3) := by
  have hl1 : generate_building_level "building"
      [("building", Json.str "yes"), ("building:levels", Json.str "abc"),
       ("height", Json.str "12 m")] = Except.ok 1 := by decide!
  have hl2 : generate_building_level "building"
      [("building", Json.str "yes"), ("building:levels", Json.str "5"),
       ("height", Json.str "10")] = Except.ok 3 := by decide!
  have hw1 : read_height [("building", Json.str "yes"), ("building:levels", Json.str "abc"),
       ("height", Json.str "12 m")] = none := by decide!
  have hn1 : read_levels [("building", Json.str "yes"), ("building:levels", Json.str "abc"),
       ("height", Json.str "12 m")] = none := by decide!
  have hw2 : read_height [("building", Json.str "yes"), ("building:levels", Json.str "5"),
       ("height", Json.str "10")] = some 10 := by decide!
  refine ⟨⟨hl1, (generate_building_level_ge_one _ 1 hl1).2 (Or.inr ⟨?_, ?_⟩)⟩,
    ⟨hl2, (generate_building_level_ge_one _ 3 hl2).2 (Or.inr ⟨?_, ?_⟩)⟩⟩
  · intro h hh
    rw [hw1] at hh
    exact Option.noConfusion hh
  · intro _ n hn
    rw [hn1] at hn
    exact Option.noConfusion hn
  · intro h hh
    rw [hw2] at hh
    injection hh with hh
    right
    rw [← hh]
    norm_num
  · intro hno n _
    have := hno 10 hw2
    norm_num at this

/-- C6, counterexample: for the building with `height = 2`, `generate_building_level` with
footprint type `building` returns 0, and for the building with `building:levels = -3` it
returns -2; neither is at least 1. -/
theorem generate_building_level_zero :
    (generate_building_level "building"
        [("building", Json.str "yes"), ("height", Json.str "2")] = Except.ok 0 ∧
      read_height [("building", Json.str "yes"), ("height", Json.str "2")] = some 2 ∧
      ¬ ((1 : Int) ≤ 0)) ∧
    (generate_building_level "building"
        [("building", Json.str "yes"), ("building:levels", Json.str "-3")] = Except.ok (-2) ∧
      read_levels [("building", Json.str "yes"), ("building:levels", Json.str "-3")]
        = some (-3) ∧
      ¬ ((1 : Int) ≤ -2)) := by
  refine ⟨⟨?_, ?_, by decide⟩, ⟨?_, ?_, by decide⟩⟩ <;> decide!

theorem assign_type_building (b : CityObject) (p : Props)
    (h : (p.get "building").empty = false) :
    assign_type b p =
      (roof_shape_block { b with type := "building" } p >>= fun b1 =>
       roof_height_block b1 p >>= fun b2 =>
       historic_block b2 p >>= fun b3 =>
       tourism_block b3 p >>= fun b4 => pure b4) := by
  unfold assign_type
  simp only [h, Bool.not_false, ↓reduceIte]
  rfl

theorem roof_shape_block_type (b : CityObject) (p : Props)
    (h : string_or_no_tag p "roof:shape") :
    ∃ b', roof_shape_block b p = Except.ok b' ∧ b'.type = b.type := by
  rcases h with h | ⟨s, hs⟩
  · unfold no_tag at h
    refine ⟨b, ?_, rfl⟩
    simp only [roof_shape_block, h, Bool.not_true, Bool.false_eq_true, ↓reduceIte]
    rfl
  · have he : (Json.str s).empty = false := rfl
    have hg : (Json.str s).get_string = Except.ok s := rfl
    simp only [roof_shape_block, hs, he, hg, ok_bind, Bool.not_false, ↓reduceIte]
    refine ⟨_, rfl, ?_⟩
    split
    · rfl
    · split <;> rfl

theorem generate_roof_height_numeric (s : String) (v f : ℚ) (h : Numeric s v)
    (hf : float_of_decimal v = Except.ok f) :
    ∃ r, generate_roof_height s scale = Except.ok r := by
  unfold generate_roof_height
  by_cases hs : (s != "null") = true
  · simp only [hs, ↓reduceIte, stof_numeric h, hf, ok_bind]
    exact ⟨_, rfl⟩
  · simp only [hs, ↓reduceIte]
    exact ⟨_, rfl⟩

theorem roof_height_block_type (b : CityObject) (p : Props) (h : numeric_roof_height p) :
    ∃ b', roof_height_block b p = Except.ok b' ∧ b'.type = b.type := by
  rcases h with h | ⟨v, f, ⟨s, hs, hn⟩, hf⟩
  · unfold no_tag at h
    refine ⟨b, ?_, rfl⟩
    simp only [roof_height_block, h, Bool.not_true, Bool.false_eq_true, ↓reduceIte]
    rfl
  · have he : (Json.str s).empty = false := rfl
    have hg : (Json.str s).get_string = Except.ok s := rfl
    obtain ⟨r, hr⟩ := generate_roof_height_numeric s v f hn hf
    simp only [roof_height_block, hs, he, hg, ok_bind, Bool.not_false, ↓reduceIte, hr]
    exact ⟨_, rfl, rfl⟩

theorem colour_block_type (b : CityObject) (p : Props)
    (h : string_or_no_tag p "building:colour") :
    ∃ b', (if (!(p.get "building:colour").empty) = true then
        (p.get "building:colour").get_string >>= fun build_colour =>
          (pure { b with colour := build_colour } : Except Err CityObject)
      else pure b) = Except.ok b' ∧ b'.type = b.type := by
  rcases h with h | ⟨s, hs⟩
  · unfold no_tag at h
    refine ⟨b, ?_, rfl⟩
    simp only [h, Bool.not_true, Bool.false_eq_true, ↓reduceIte]
    rfl
  · have he : (Json.str s).empty = false := rfl
    have hg : (Json.str s).get_string = Except.ok s := rfl
    simp only [hs, he, hg, ok_bind, Bool.not_false, ↓reduceIte]
    exact ⟨_, rfl, rfl⟩

theorem historic_block_type (b : CityObject) (p : Props)
    (h : string_or_no_tag p "building:colour") :
    ∃ b', historic_block b p = Except.ok b' ∧ b'.type = b.type := by
  unfold historic_block
  by_cases hh : (!(p.get "historic").empty) = true
  · simp only [hh, ↓reduceIte]
    exact colour_block_type { b with historic := "yes" } p h
  · simp only [hh, ↓reduceIte]
    exact ⟨b, rfl, rfl⟩

theorem tourism_block_type (b : CityObject) (p : Props)
    (ht : string_or_no_tag p "tourism") (h : string_or_no_tag p "building:colour") :
    ∃ b', tourism_block b p = Except.ok b' ∧ b'.type = b.type := by
  unfold tourism_block
  rcases ht with ht | ⟨s, hs⟩
  · unfold no_tag at ht
    refine ⟨b, ?_, rfl⟩
    simp only [ht, Bool.not_true, Bool.false_eq_true, ↓reduceIte]
    rfl
  · have he : (Json.str s).empty = false := rfl
    have hg : (Json.str s).get_string = Except.ok s := rfl
    simp only [hs, he, hg, ok_bind, Bool.not_false, ↓reduceIte]
    by_cases hs : (s == "attraction") = true
    · simp only [hs, ↓reduceIte]
      exact colour_block_type { b with historic := "yes" } p h
    · simp only [hs, ↓reduceIte]
      exact ⟨b, rfl, rfl⟩

theorem check_pedestrian_str (p : Props) (s : String) (h : p.get "highway" = Json.str s) :
    check_pedestrian p = decide (s ∈ pedestrian_categories) := by
  simp only [check_pedestrian, h, Json.eq_str, pedestrian_categories, List.mem_cons,
    List.mem_singleton, List.not_mem_nil, or_false]
  rw [Bool.eq_iff_iff]
  simp only [Bool.or_eq_true, beq_iff_eq, decide_eq_true_eq]
  tauto

theorem check_pedestrian_eq (p : Props) :
    check_pedestrian p = decide (tag_value p "highway" ∈ pedestrian_categories) := by
  cases h : p.get "highway" with
  | str s =>
    rw [check_pedestrian_str p s h]
    simp only [tag_value, h]
  | null => simp only [check_pedestrian, tag_value, h, Json.eq_str]; decide
  | bool b => simp only [check_pedestrian, tag_value, h, Json.eq_str]; decide
  | num q => simp only [check_pedestrian, tag_value, h, Json.eq_str]; decide
  | arr items => simp only [check_pedestrian, tag_value, h, Json.eq_str]; decide
  | obj members => simp only [check_pedestrian, tag_value, h, Json.eq_str]; decide

/-- C1, as amended: for a tag map whose `roof:shape`, `building:colour`, `tourism`,
`landuse`, `natural` and `leisure` tags are each missing or a string, and whose
`roof:height` tag is missing or a numeric string in the range of `float`, `assign_type`
returns an object whose type is that of the first tag the map has among building, water,
landuse, natural, leisure and highway, and `null` when it has none of them. -/
theorem assign_type_first_match (b : CityObject) (p : Props)
    (hs : string_tags p) (hr : numeric_roof_height p) :
    ∃ b', assign_type b p = Except.ok b' ∧ b'.type = first_matching_type p := by
  by_cases h1 : (p.get "building").empty = false
  · have hf : first_matching_type p = "building" := by
      have hfind : tag_priority.find? (fun key => !(p.get key).empty) = some "building" := by
        simp [tag_priority, List.find?, h1]
      simp [first_matching_type, hfind, type_of_tag]
    rw [assign_type_building b p h1, hf]
    obtain ⟨b1, e1, t1⟩ := roof_shape_block_type { b with type := "building" } p (hs _ (by decide))
    obtain ⟨b2, e2, t2⟩ := roof_height_block_type b1 p hr
    obtain ⟨b3, e3, t3⟩ := historic_block_type b2 p (hs _ (by decide))
    obtain ⟨b4, e4, t4⟩ := tourism_block_type b3 p (hs _ (by decide)) (hs _ (by decide))
    refine ⟨b4, ?_, ?_⟩
    · rw [e1, ok_bind, e2, ok_bind, e3, ok_bind, e4, ok_bind]; rfl
    · rw [t4, t3, t2, t1]
  have h1 : (p.get "building").empty = true := by simpa using h1
  by_cases h2 : (p.get "water").empty = false
  · refine ⟨{ b with type := "water" }, ?_, ?_⟩
    · simp only [assign_type, h1, h2, Bool.not_true, Bool.not_false, Bool.false_eq_true,
        ↓reduceIte]
      rfl
    · have hfind : tag_priority.find? (fun key => !(p.get key).empty) =
          some "water" := by
        simp [tag_priority, List.find?, h1, h2]
      simp [first_matching_type, hfind, type_of_tag]
  have h2 : (p.get "water").empty = true := by simpa using h2
  by_cases h3 : (p.get "landuse").empty = false
  · rcases hs "landuse" (by decide) with h | ⟨s, hv⟩
    · unfold no_tag at h; rw [h] at h3; exact Bool.noConfusion h3
    · have hg : (Json.str s).get_string = Except.ok s := rfl
      refine ⟨{ b with type := s }, ?_, ?_⟩
      · simp only [assign_type, h1, h2, h3, Bool.not_true, Bool.not_false,
          Bool.false_eq_true, ↓reduceIte]
        rw [hv, hg]; rfl
      · have hfind : tag_priority.find? (fun key => !(p.get key).empty) =
            some "landuse" := by
          simp [tag_priority, List.find?, h1, h2, h3]
        simp [first_matching_type, hfind, type_of_tag, tag_value, hv]
  have h3 : (p.get "landuse").empty = true := by simpa using h3
  by_cases h4 : (p.get "natural").empty = false
  · rcases hs "natural" (by decide) with h | ⟨s, hv⟩
    · unfold no_tag at h; rw [h] at h4; exact Bool.noConfusion h4
    · have hg : (Json.str s).get_string = Except.ok s := rfl
      by_cases hw : s = "wood"
      · refine ⟨{ b with type := "forest" }, ?_, ?_⟩
        · simp only [assign_type, h1, h2, h3, h4, Bool.not_true, Bool.not_false,
            Bool.false_eq_true, ↓reduceIte]
          rw [hv, hg, ok_bind, hw]; rfl
        · have hfind : tag_priority.find? (fun key => !(p.get key).empty) =
              some "natural" := by
            simp [tag_priority, List.find?, h1, h2, h3, h4]
          simp [first_matching_type, hfind, type_of_tag, tag_value, hv, hw]
      · refine ⟨{ b with type := s }, ?_, ?_⟩
        · simp only [assign_type, h1, h2, h3, h4, Bool.not_true, Bool.not_false,
            Bool.false_eq_true, ↓reduceIte]
          rw [hv, hg, ok_bind]
          have : (s == "wood") = false := by simpa using hw
          simp only [this, Bool.false_eq_true, ↓reduceIte]
          rfl
        · have hfind : tag_priority.find? (fun key => !(p.get key).empty) =
              some "natural" := by
            simp [tag_priority, List.find?, h1, h2, h3, h4]
          simp [first_matching_type, hfind, type_of_tag, tag_value, hv, hw]
  have h4 : (p.get "natural").empty = true := by simpa using h4
  by_cases h5 : (p.get "leisure").empty = false
  · rcases hs "leisure" (by decide) with h | ⟨s, hv⟩
    · unfold no_tag at h; rw [h] at h5; exact Bool.noConfusion h5
    · have hg : (Json.str s).get_string = Except.ok s := rfl
      refine ⟨{ b with type := s }, ?_, ?_⟩
      · simp only [assign_type, h1, h2, h3, h4, h5, Bool.not_true, Bool.not_false,
          Bool.false_eq_true, ↓reduceIte]
        rw [hv, hg]; rfl
      · have hfind : tag_priority.find? (fun key => !(p.get key).empty) =
            some "leisure" := by
          simp [tag_priority, List.find?, h1, h2, h3, h4, h5]
        simp [first_matching_type, hfind, type_of_tag, tag_value, hv]
  have h5 : (p.get "leisure").empty = true := by simpa using h5
  by_cases h6 : (p.get "highway").empty = false
  · have hp := check_pedestrian_eq p
    by_cases hm : tag_value p "highway" ∈ pedestrian_categories
    · refine ⟨{ b with type := "pedestrian" }, ?_, ?_⟩
      · simp only [assign_type, h1, h2, h3, h4, h5, h6, Bool.not_true, Bool.not_false,
          Bool.false_eq_true, ↓reduceIte, hp, hm, decide_True]
        rfl
      · have hfind : tag_priority.find? (fun key => !(p.get key).empty) =
            some "highway" := by
          simp [tag_priority, List.find?, h1, h2, h3, h4, h5, h6]
        simp [first_matching_type, hfind, type_of_tag, hm]
    · refine ⟨{ b with type := "highway" }, ?_, ?_⟩
      · simp only [assign_type, h1, h2, h3, h4, h5, h6, Bool.not_true, Bool.not_false,
          Bool.false_eq_true, ↓reduceIte, hp, hm, decide_False]
        rfl
      · have hfind : tag_priority.find? (fun key => !(p.get key).empty) =
            some "highway" := by
          simp [tag_priority, List.find?, h1, h2, h3, h4, h5, h6]
        simp [first_matching_type, hfind, type_of_tag, hm]
  have h6 : (p.get "highway").empty = true := by simpa using h6
  refine ⟨{ b with type := "null" }, ?_, ?_⟩
  · simp only [assign_type, h1, h2, h3, h4, h5, h6, Bool.not_true, Bool.false_eq_true,
      ↓reduceIte]
    rfl
  · have hfind : tag_priority.find? (fun key => !(p.get key).empty) = none := by
      simp [tag_priority, List.find?, h1, h2, h3, h4, h5, h6]
    simp [first_matching_type, hfind]

theorem string_or_no_tag_of_forall (p : Props) (h : ∀ kv ∈ p, ∃ s, kv.2 = Json.str s)
    (key : String) : string_or_no_tag p key := by
  induction p with
  | nil => exact Or.inl rfl
  | cons kv rest ih =>
    obtain ⟨k, v⟩ := kv
    by_cases hk : key == k
    · obtain ⟨s, hs⟩ := h (k, v) (List.mem_cons_self _ _)
      right
      refine ⟨s, ?_⟩
      simp only [Props.get, List.lookup, hk, Option.getD_some]
      exact hs
    · have hk' : (key == k) = false := by simpa using hk
      rcases ih (fun kv hkv => h kv (List.mem_cons_of_mem _ hkv)) with h1 | ⟨s, h1⟩
      · left
        unfold no_tag Props.get at h1 ⊢
        simp only [List.lookup, hk']
        exact h1
      · right
        refine ⟨s, ?_⟩
        unfold Props.get at h1 ⊢
        simp only [List.lookup, hk']
        exact h1

theorem string_tags_of_forall (p : Props) (h : ∀ kv ∈ p, ∃ s, kv.2 = Json.str s) :
    string_tags p :=
  fun key _ => string_or_no_tag_of_forall p h key

/-- C1, witness: a feature tagged `natural = wood` and `highway = path` has string values
and no `roof:height`; its first matching tag is natural, and its type is `forest`. -/
theorem assign_type_first_match_witness :
    ∃ b', assign_type CityObject.new
        [("natural", Json.str "wood"), ("highway", Json.str "path")] = Except.ok b' ∧
      b'.type = "forest" := by
  have h := assign_type_first_match CityObject.new
    [("natural", Json.str "wood"), ("highway", Json.str "path")]
    (string_tags_of_forall _ (by
      intro kv hkv
      simp only [List.mem_cons, List.mem_singleton, List.not_mem_nil, or_false] at hkv
      rcases hkv with rfl | rfl
      · exact ⟨"wood", rfl⟩
      · exact ⟨"path", rfl⟩))
    (Or.inl rfl)
  have e : first_matching_type [("natural", Json.str "wood"), ("highway", Json.str "path")]
      = "forest" := by decide
  rw [e] at h
  exact h

/-- C1, counterexample: a feature with a building tag and the tag `roof:height = abc` is not
given the type `building`, because `std::stof` throws `invalid_argument`, and neither is one
with the numeric tag `roof:height = 1000000000000000000000000000000000000000`, above the
range of `float`, because `std::stof` throws `out_of_range`; and a feature whose first
matching tag is a landuse tag holding the number 5 is given no type, because the conversion
to a string throws `type_error`. -/
theorem assign_type_throws :
    ((Props.get [("building", Json.str "yes"), ("roof:height", Json.str "abc")]
        "building").empty = false ∧
      assign_type CityObject.new [("building", Json.str "yes"), ("roof:height", Json.str "abc")]
        = Except.error Err.invalid_argument) ∧
    ((Props.get [("landuse", Json.num 5)] "landuse").empty = false ∧
      assign_type CityObject.new [("landuse", Json.num 5)] = Except.error Err.type_error) ∧
    (numeric_tag [("building", Json.str "yes"),
        ("roof:height", Json.str "1000000000000000000000000000000000000000")] "roof:height"
        (10 ^ 39) ∧
      assign_type CityObject.new [("building", Json.str "yes"),
        ("roof:height", Json.str "1000000000000000000000000000000000000000")]
        = Except.error Err.out_of_range) := by
  refine ⟨⟨rfl, ?_⟩, ⟨rfl, ?_⟩, ⟨?_, ?_⟩⟩
  · with_unfolding_all rfl
  · with_unfolding_all rfl
  · have h := numeric_tag_of_digits [("building", Json.str "yes"),
        ("roof:height", Json.str "1000000000000000000000000000000000000000")] "roof:height"
      "1000000000000000000000000000000000000000".toList (10 ^ 39) rfl (by decide) (by decide)
    simpa using h
  · decide!

theorem polygon_area_four (a b c d : Point) :
    polygon_area [a, b, c, d] =
      1 / 2 * |(a.1 * d.2 + b.1 * a.2 + c.1 * b.2 + d.1 * c.2) -
        (a.2 * d.1 + b.2 * a.1 + c.2 * b.1 + d.2 * c.1)| := by
  simp only [polygon_area, List.map, List.rotate, List.length_cons, List.length_nil,
    List.zip, List.zipWith, List.foldl]
  norm_num [List.splitAt]

/-- The quadrilateral around the segment from `(px, py)` to `(nx, ny)` with the offset
`(ox, oy)`, the shape of each candidate of `compute_area`. -/
theorem ribbon_area (px py nx ny ox oy : ℚ) :
    polygon_area [(nx + ox, ny + oy), (nx - ox, ny - oy), (px - ox, py - oy),
      (px + ox, py + oy)] = 2 * |ox * (ny - py) - oy * (nx - px)| := by
  rw [polygon_area_four]
  have e : ((nx + ox) * (py + oy) + (nx - ox) * (ny + oy) + (px - ox) * (ny - oy) +
        (px + ox) * (py - oy)) -
      ((ny + oy) * (px + ox) + (ny - oy) * (nx + ox) + (py - oy) * (nx - ox) +
        (py + oy) * (px - ox)) = (-4) * (ox * (ny - py) - oy * (nx - px)) := by ring
  simp only [e]
  rw [abs_mul]
  norm_num
  ring

theorem line_1_area (x next_x y next_y t : ℚ) :
    polygon_area (line_1 x next_x y next_y t) = 2 * |t * (next_y - y) - t * (next_x - x)| :=
  ribbon_area x y next_x next_y t t

theorem line_2_area (x next_x y next_y t : ℚ) :
    polygon_area (line_2 x next_x y next_y t) = 2 * |t * (next_y - y) - 0 * (next_x - x)| := by
  have h := ribbon_area x y next_x next_y t 0
  simpa [line_2] using h

theorem line_3_area (x next_x y next_y t : ℚ) :
    polygon_area (line_3 x next_x y next_y t) = 2 * |0 * (next_y - y) - t * (next_x - x)| := by
  have h := ribbon_area x y next_x next_y 0 t
  simpa [line_3] using h

/-- A quadrilateral built around a segment with an offset that is not parallel to the
segment is a simple parallelogram. -/
theorem ribbon_simple (px py nx ny ox oy : ℚ)
    (hc : ox * (ny - py) - oy * (nx - px) ≠ 0) :
    parallelogram (nx + ox, ny + oy) (nx - ox, ny - oy) (px - ox, py - oy) (px + ox, py + oy) ∧
    simple_quadrilateral (nx + ox, ny + oy) (nx - ox, ny - oy) (px - ox, py - oy)
      (px + ox, py + oy) := by
  refine ⟨⟨by simp only; ring, by simp only; ring⟩, ?_, ?_, ?_, ?_, ?_, ?_⟩
  · rintro ⟨q1, q2⟩ ⟨s, _, _, hs1, hs2⟩ ⟨u, _, _, hu1, hu2⟩
    simp only at hs1 hs2 hu1 hu2
    apply hc
    linear_combination oy * (hs1 - hu1) - ox * (hs2 - hu2)
  · rintro ⟨q1, q2⟩ ⟨s, _, _, hs1, hs2⟩ ⟨u, _, _, hu1, hu2⟩
    simp only at hs1 hs2 hu1 hu2
    apply hc
    linear_combination (1 / 2) * (ny - py) * (hs1 - hu1) - (1 / 2) * (nx - px) * (hs2 - hu2)
  · rintro ⟨q1, q2⟩ ⟨s, _, _, hs1, hs2⟩ ⟨u, _, _, hu1, hu2⟩
    simp only at hs1 hs2 hu1 hu2
    have hu : u * (ox * (ny - py) - oy * (nx - px)) = 0 := by
      linear_combination oy * (hs1 - hu1) - ox * (hs2 - hu2)
    have hu0 : u = 0 := by
      rcases mul_eq_zero.1 hu with h | h
      · exact h
      · exact absurd h hc
    subst hu0
    ext
    · simp only; linarith
    · simp only; linarith
  · rintro ⟨q1, q2⟩ ⟨s, _, _, hs1, hs2⟩ ⟨u, _, _, hu1, hu2⟩
    simp only at hs1 hs2 hu1 hu2
    have hu : u * (ox * (ny - py) - oy * (nx - px)) = 0 := by
      linear_combination (1 / 2) * (ny - py) * (hs1 - hu1) - (1 / 2) * (nx - px) * (hs2 - hu2)
    have hu0 : u = 0 := by
      rcases mul_eq_zero.1 hu with h | h
      · exact h
      · exact absurd h hc
    subst hu0
    ext
    · simp only; linarith
    · simp only; linarith
  · rintro ⟨q1, q2⟩ ⟨s, _, _, hs1, hs2⟩ ⟨u, _, _, hu1, hu2⟩
    simp only at hs1 hs2 hu1 hu2
    have hu : u * (ox * (ny - py) - oy * (nx - px)) = 0 := by
      linear_combination ox * (hs2 - hu2) - oy * (hs1 - hu1)
    have hu0 : u = 0 := by
      rcases mul_eq_zero.1 hu with h | h
      · exact h
      · exact absurd h hc
    subst hu0
    ext
    · simp only; linarith
    · simp only; linarith
  · rintro ⟨q1, q2⟩ ⟨s, _, _, hs1, hs2⟩ ⟨u, _, _, hu1, hu2⟩
    simp only at hs1 hs2 hu1 hu2
    have hu : u * (ox * (ny - py) - oy * (nx - px)) = 0 := by
      linear_combination (1 / 2) * (nx - px) * (hs2 - hu2) - (1 / 2) * (ny - py) * (hs1 - hu1)
    have hu0 : u = 0 := by
      rcases mul_eq_zero.1 hu with h | h
      · exact h
      · exact absurd h hc
    subst hu0
    ext
    · simp only; linarith
    · simp only; linarith

theorem ribbon_facts (px py nx ny ox oy : ℚ)
    (h : 0 < polygon_area [(nx + ox, ny + oy), (nx - ox, ny - oy), (px - ox, py - oy),
      (px + ox, py + oy)]) :
    ∃ v0 v1 v2 v3 : Point,
      [(nx + ox, ny + oy), (nx - ox, ny - oy), (px - ox, py - oy), (px + ox, py + oy)]
        = [v0, v1, v2, v3] ∧
      parallelogram v0 v1 v2 v3 ∧ 0 < polygon_area [v0, v1, v2, v3] ∧
      simple_quadrilateral v0 v1 v2 v3 := by
  have hc : ox * (ny - py) - oy * (nx - px) ≠ 0 := by
    intro h0
    rw [ribbon_area, h0] at h
    simp at h
  obtain ⟨hp, hs⟩ := ribbon_simple px py nx ny ox oy hc
  exact ⟨_, _, _, _, rfl, hp, h, hs⟩

theorem line_2_eq (x next_x y next_y t : ℚ) :
    line_2 x next_x y next_y t =
      [(next_x + t, next_y + 0), (next_x - t, next_y - 0), (x - t, y - 0), (x + t, y + 0)] := by
  simp [line_2]

theorem line_3_eq (x next_x y next_y t : ℚ) :
    line_3 x next_x y next_y t =
      [(next_x + 0, next_y + t), (next_x - 0, next_y - t), (x - 0, y - t), (x + 0, y + t)] := by
  simp [line_3]

theorem line_1_facts (x next_x y next_y t : ℚ)
    (h : 0 < polygon_area (line_1 x next_x y next_y t)) :
    ∃ v0 v1 v2 v3 : Point, line_1 x next_x y next_y t = [v0, v1, v2, v3] ∧
      parallelogram v0 v1 v2 v3 ∧ 0 < polygon_area [v0, v1, v2, v3] ∧
      simple_quadrilateral v0 v1 v2 v3 :=
  ribbon_facts x y next_x next_y t t h

theorem line_2_facts (x next_x y next_y t : ℚ)
    (h : 0 < polygon_area (line_2 x next_x y next_y t)) :
    ∃ v0 v1 v2 v3 : Point, line_2 x next_x y next_y t = [v0, v1, v2, v3] ∧
      parallelogram v0 v1 v2 v3 ∧ 0 < polygon_area [v0, v1, v2, v3] ∧
      simple_quadrilateral v0 v1 v2 v3 := by
  rw [line_2_eq] at h ⊢
  exact ribbon_facts x y next_x next_y t 0 h

theorem line_3_facts (x next_x y next_y t : ℚ)
    (h : 0 < polygon_area (line_3 x next_x y next_y t)) :
    ∃ v0 v1 v2 v3 : Point, line_3 x next_x y next_y t = [v0, v1, v2, v3] ∧
      parallelogram v0 v1 v2 v3 ∧ 0 < polygon_area [v0, v1, v2, v3] ∧
      simple_quadrilateral v0 v1 v2 v3 := by
  rw [line_3_eq] at h ⊢
  exact ribbon_facts x y next_x next_y 0 t h


theorem Fp.gt_irrefl (a : Fp) : Fp.gt a a = false := by
  cases a with
  | num q => simp [Fp.gt]
  | inf s => cases s <;> rfl
  | nan => rfl

theorem Fp.gt_asymm {a b : Fp} (h : Fp.gt a b = true) : Fp.gt b a = false := by
  cases a with
  | num x =>
    cases b with
    | num y =>
      simp only [Fp.gt, decide_eq_true_eq, decide_eq_false_iff_not, not_lt] at h ⊢
      exact le_of_lt h
    | inf t => simp only [Fp.gt] at h ⊢; simp [h]
    | nan => rfl
  | inf s =>
    cases b with
    | num y => simp only [Fp.gt] at h ⊢; simpa using h
    | inf t => cases s <;> cases t <;> simp_all [Fp.gt]
    | nan => rfl
  | nan => simp [Fp.gt] at h

theorem Fp.gt_trans {a b c : Fp} (h1 : Fp.gt a b = true) (h2 : Fp.gt b c = true) :
    Fp.gt a c = true := by
  cases a with
  | num x =>
    cases b with
    | num y =>
      cases c with
      | num z =>
        simp only [Fp.gt, decide_eq_true_eq] at h1 h2 ⊢
        exact lt_trans h2 h1
      | inf u => simpa [Fp.gt] using h2
      | nan => simp [Fp.gt] at h2
    | inf t =>
      cases c with
      | num z => simp_all [Fp.gt]
      | inf u => cases t <;> cases u <;> simp_all [Fp.gt]
      | nan => simp [Fp.gt] at h2
    | nan => simp [Fp.gt] at h1
  | inf s =>
    cases b with
    | num y =>
      cases c with
      | num z => simpa [Fp.gt] using h1
      | inf u => cases s <;> cases u <;> simp_all [Fp.gt]
      | nan => simp [Fp.gt] at h2
    | inf t =>
      cases c with
      | num z => cases s <;> cases t <;> simp_all [Fp.gt]
      | inf u => cases s <;> cases t <;> cases u <;> simp_all [Fp.gt]
      | nan => simp [Fp.gt] at h2
    | nan => simp [Fp.gt] at h1
  | nan => simp [Fp.gt] at h1

/-- The selection of `compute_area`, by the comparisons of the computed areas. -/
theorem compute_area_selection (x next_x y next_y t : ℚ) :
    (Fp.gt (area_2 x next_x y next_y t) (area_1 x next_x y next_y t) = false ∧
      Fp.gt (area_3 x next_x y next_y t) (area_1 x next_x y next_y t) = false ∧
      compute_area x next_x y next_y t = line_1 x next_x y next_y t) ∨
    (Fp.gt (area_2 x next_x y next_y t) (area_1 x next_x y next_y t) = true ∧
      Fp.gt (area_3 x next_x y next_y t) (area_2 x next_x y next_y t) = false ∧
      compute_area x next_x y next_y t = line_2 x next_x y next_y t) ∨
    (((Fp.gt (area_2 x next_x y next_y t) (area_1 x next_x y next_y t) = true ∧
        Fp.gt (area_3 x next_x y next_y t) (area_2 x next_x y next_y t) = true) ∨
      (Fp.gt (area_2 x next_x y next_y t) (area_1 x next_x y next_y t) = false ∧
        Fp.gt (area_3 x next_x y next_y t) (area_1 x next_x y next_y t) = true)) ∧
      compute_area x next_x y next_y t = line_3 x next_x y next_y t) := by
  unfold compute_area
  cases h21 : Fp.gt (area_2 x next_x y next_y t) (area_1 x next_x y next_y t)
  · cases h31 : Fp.gt (area_3 x next_x y next_y t) (area_1 x next_x y next_y t)
    · exact Or.inl ⟨rfl, rfl, by simp⟩
    · exact Or.inr (Or.inr ⟨Or.inr ⟨rfl, rfl⟩, by simp⟩)
  · cases h32 : Fp.gt (area_3 x next_x y next_y t) (area_2 x next_x y next_y t)
    · exact Or.inr (Or.inl ⟨rfl, rfl, by simp⟩)
    · exact Or.inr (Or.inr ⟨Or.inl ⟨rfl, rfl⟩, by simp⟩)

/-- C8, as amended: `compute_area` returns a candidate whose computed area, the `float`
that results from the `double` arithmetic of the program, is not exceeded by the computed
area of any of the three candidates. -/
theorem compute_area_largest (x next_x y next_y t : ℚ) :
    ∃ a : Fp,
      ((compute_area x next_x y next_y t = line_1 x next_x y next_y t ∧
          a = area_1 x next_x y next_y t) ∨
        (compute_area x next_x y next_y t = line_2 x next_x y next_y t ∧
          a = area_2 x next_x y next_y t) ∨
        (compute_area x next_x y next_y t = line_3 x next_x y next_y t ∧
          a = area_3 x next_x y next_y t)) ∧
      Fp.gt (area_1 x next_x y next_y t) a = false ∧
      Fp.gt (area_2 x next_x y next_y t) a = false ∧
      Fp.gt (area_3 x next_x y next_y t) a = false := by
  rcases compute_area_selection x next_x y next_y t with ⟨g21, g31, hc⟩ | ⟨g21, g32, hc⟩ |
    ⟨hg, hc⟩
  · exact ⟨_, Or.inl ⟨hc, rfl⟩, Fp.gt_irrefl _, g21, g31⟩
  · exact ⟨_, Or.inr (Or.inl ⟨hc, rfl⟩), Fp.gt_asymm g21, Fp.gt_irrefl _, g32⟩
  · refine ⟨_, Or.inr (Or.inr ⟨hc, rfl⟩), ?_, ?_, Fp.gt_irrefl _⟩
    · rcases hg with ⟨g21, g32⟩ | ⟨g21, g31⟩
      · exact Fp.gt_asymm (Fp.gt_trans g32 g21)
      · exact Fp.gt_asymm g31
    · rcases hg with ⟨g21, g32⟩ | ⟨g21, g31⟩
      · exact Fp.gt_asymm g32
      · cases h23 : Fp.gt (area_2 x next_x y next_y t) (area_3 x next_x y next_y t)
        · rfl
        · rw [Fp.gt_trans h23 g31] at g21
          exact Bool.noConfusion g21

/-- C8, counterexample: for the segment from (0, 0) to (0.000000001, 1) with thickness 0.5
the computed areas of the diagonal and of the X-offset candidate are both 1, the diagonal
candidate is returned, and its area is smaller than that of the X-offset candidate.  The
same holds for the segment from (0, 0) to (2^-30, 1), where every coordinate of the
candidates is a `double`: the area of the candidate returned is 1 - 2^-30, that of the
X-offset candidate is 1. -/
theorem compute_area_smaller_area :
    (area_1 0 (1 / 1000000000) 0 1 (1 / 2) = Fp.num 1 ∧
      area_2 0 (1 / 1000000000) 0 1 (1 / 2) = Fp.num 1 ∧
      compute_area 0 (1 / 1000000000) 0 1 (1 / 2) = line_1 0 (1 / 1000000000) 0 1 (1 / 2) ∧
      polygon_area (compute_area 0 (1 / 1000000000) 0 1 (1 / 2)) <
        polygon_area (line_2 0 (1 / 1000000000) 0 1 (1 / 2))) ∧
    (area_1 0 (1 / 2 ^ 30) 0 1 (1 / 2) = Fp.num 1 ∧
      area_2 0 (1 / 2 ^ 30) 0 1 (1 / 2) = Fp.num 1 ∧
      compute_area 0 (1 / 2 ^ 30) 0 1 (1 / 2) = line_1 0 (1 / 2 ^ 30) 0 1 (1 / 2) ∧
      polygon_area (compute_area 0 (1 / 2 ^ 30) 0 1 (1 / 2)) = 1 - 1 / 2 ^ 30 ∧
      polygon_area (line_2 0 (1 / 2 ^ 30) 0 1 (1 / 2)) = 1) := by
  have hc : compute_area 0 (1 / 1000000000) 0 1 (1 / 2) =
      line_1 0 (1 / 1000000000) 0 1 (1 / 2) := by decide!
  have hd : compute_area 0 (1 / 2 ^ 30) 0 1 (1 / 2) = line_1 0 (1 / 2 ^ 30) 0 1 (1 / 2) := by
    decide!
  refine ⟨⟨by decide!, by decide!, hc, ?_⟩, ⟨by decide!, by decide!, hd, ?_, ?_⟩⟩
  · rw [hc, line_1_area, line_2_area]
    norm_num [abs_of_pos]
  · rw [hd, line_1_area]
    norm_num [abs_of_pos]
  · rw [line_2_area]
    norm_num [abs_of_pos]

/-- C9, as amended: `compute_area` prefers the diagonal candidate, then the X-offset
candidate, then the Y-offset candidate, by the computed areas: `line_1` is returned whenever
the computed area of neither other candidate exceeds its own, `line_2` whenever its computed
area exceeds that of `line_1` and is not exceeded by that of `line_3`, and `line_3` whenever
its computed area exceeds both others. -/
theorem compute_area_tie_break (x next_x y next_y t : ℚ) :
    (Fp.gt (area_2 x next_x y next_y t) (area_1 x next_x y next_y t) = false →
      Fp.gt (area_3 x next_x y next_y t) (area_1 x next_x y next_y t) = false →
      compute_area x next_x y next_y t = line_1 x next_x y next_y t) ∧
    (Fp.gt (area_2 x next_x y next_y t) (area_1 x next_x y next_y t) = true →
      Fp.gt (area_3 x next_x y next_y t) (area_2 x next_x y next_y t) = false →
      compute_area x next_x y next_y t = line_2 x next_x y next_y t) ∧
    (Fp.gt (area_3 x next_x y next_y t) (area_1 x next_x y next_y t) = true →
      Fp.gt (area_3 x next_x y next_y t) (area_2 x next_x y next_y t) = true →
      compute_area x next_x y next_y t = line_3 x next_x y next_y t) := by
  refine ⟨?_, ?_, ?_⟩
  · intro h21 h31
    unfold compute_area
    simp only [h21, h31, Bool.false_eq_true, ↓reduceIte]
  · intro h21 h32
    unfold compute_area
    simp only [h21, h32, Bool.false_eq_true, ↓reduceIte]
  · intro h31 h32
    unfold compute_area
    simp only [h31, h32, ↓reduceIte]
    split <;> rfl

theorem area_line_1_diagonal : polygon_area (line_1 0 1 0 1 1) = 0 := by
  rw [line_1_area]; norm_num

theorem area_line_2_diagonal : polygon_area (line_2 0 1 0 1 1) = 2 := by
  rw [line_2_area]; norm_num

theorem area_line_3_diagonal : polygon_area (line_3 0 1 0 1 1) = 2 := by
  rw [line_3_area]; norm_num

/-- C9, witness: for the segment from (0, 0) to (1, 1) with thickness 1 the X-offset and the
Y-offset candidates both have the largest area, 2, computed without rounding, and the
X-offset candidate is returned; for the vertical segment from (12.4924, 41.8902) to
(12.4924, 41.8912) with thickness 0.00005f the diagonal and the X-offset candidate have the
same area, the computed area of the X-offset candidate exceeds that of the diagonal
candidate, and the X-offset candidate is returned. -/
theorem compute_area_tie_break_witness :
    (area_2 0 1 0 1 1 = area_3 0 1 0 1 1 ∧
      compute_area 0 1 0 1 1 = line_2 0 1 0 1 1) ∧
    (polygon_area (line_1 (124924 / 10000) (124924 / 10000) (418902 / 10000)
        (418912 / 10000) (13743895 / 274877906944)) =
      polygon_area (line_2 (124924 / 10000) (124924 / 10000) (418902 / 10000)
        (418912 / 10000) (13743895 / 274877906944)) ∧
      compute_area (124924 / 10000) (124924 / 10000) (418902 / 10000) (418912 / 10000)
        (13743895 / 274877906944) =
      line_2 (124924 / 10000) (124924 / 10000) (418902 / 10000) (418912 / 10000)
        (13743895 / 274877906944)) :=
  ⟨⟨by decide!, (compute_area_tie_break 0 1 0 1 1).2.1 (by decide!) (by decide!)⟩,
   ⟨by rw [line_1_area, line_2_area]; norm_num,
    (compute_area_tie_break (124924 / 10000) (124924 / 10000) (418902 / 10000)
      (418912 / 10000) (13743895 / 274877906944)).2.1 (by decide!) (by decide!)⟩⟩

/-- C9, counterexample: for the segment from (0, 0) to (1, 1) with thickness 1 the
Y-offset candidate is among the largest, by the exact and by the computed areas, yet it is
not the one returned; and for the segment from (0, 0) to (0, 1) the X-offset candidate is
among the largest and the Y-offset candidate is not, yet the X-offset candidate is not the
one returned. -/
theorem compute_area_tie_not_y_first :
    (polygon_area (line_1 0 1 0 1 1) ≤ polygon_area (line_3 0 1 0 1 1) ∧
      polygon_area (line_2 0 1 0 1 1) ≤ polygon_area (line_3 0 1 0 1 1) ∧
      exact_areas 0 1 0 1 1 ∧
      compute_area 0 1 0 1 1 ≠ line_3 0 1 0 1 1) ∧
    (polygon_area (line_3 0 0 0 1 1) < polygon_area (line_2 0 0 0 1 1) ∧
      polygon_area (line_1 0 0 0 1 1) ≤ polygon_area (line_2 0 0 0 1 1) ∧
      exact_areas 0 0 0 1 1 ∧
      compute_area 0 0 0 1 1 ≠ line_2 0 0 0 1 1) := by
  refine ⟨⟨?_, ?_, ⟨?_, ?_, ?_⟩, ?_⟩, ⟨?_, ?_, ⟨?_, ?_, ?_⟩, ?_⟩⟩
  · rw [area_line_1_diagonal, area_line_3_diagonal]; norm_num
  · rw [area_line_2_diagonal, area_line_3_diagonal]
  · decide!
  · decide!
  · decide!
  · decide!
  · rw [line_3_area, line_2_area]; norm_num
  · rw [line_1_area, line_2_area]; norm_num
  · decide!
  · decide!
  · decide!
  · decide!

theorem new_coordinate_eq (minimum maximum v : ℚ) (h : minimum < maximum) :
    new_coordinate minimum maximum v =
      some ((v - minimum) / (maximum - minimum) * 50 - 25) := by
  have hne : maximum - minimum ≠ 0 := by
    have : 0 < maximum - minimum := by linarith
    exact this.ne'
  simp only [new_coordinate, fdiv, hne, ↓reduceIte, Option.map_some', scale]
  norm_num

theorem Fp.le_ninf (x : Fp) (h : x ≠ Fp.nan) : Fp.le (Fp.inf true) x = true := by
  cases x with
  | num q => rfl
  | inf t => rfl
  | nan => exact absurd rfl h

theorem Fp.le_pinf (x : Fp) (h : x ≠ Fp.nan) : Fp.le x (Fp.inf false) = true := by
  cases x with
  | num q => rfl
  | inf t => cases t <;> rfl
  | nan => exact absurd rfl h

theorem Fp.nan_gt (b : Fp) : Fp.gt Fp.nan b = false := by
  cases b <;> rfl

theorem Fp.gt_nan (a : Fp) : Fp.gt a Fp.nan = false := by
  cases a <;> rfl

theorem Fp.le_not_gt {a b : Fp} (h : Fp.le a b = true) : Fp.gt a b = false := by
  cases a with
  | num x =>
    cases b with
    | num y =>
      simp only [Fp.le, Fp.gt, decide_eq_true_eq, decide_eq_false_iff_not, not_lt] at h ⊢
      exact h
    | inf t => simpa [Fp.le, Fp.gt] using h
    | nan => rfl
  | inf s =>
    cases b with
    | num y => simpa [Fp.le, Fp.gt] using h
    | inf t => cases s <;> cases t <;> simp_all [Fp.le, Fp.gt]
    | nan => rfl
  | nan => exact Fp.nan_gt b

/-- The rounding of a result to `double`, with its overflow to an infinity, is monotone. -/
theorem Fp.double_mono {a b : ℚ} (h : a ≤ b) : Fp.le (Fp.double a) (Fp.double b) = true := by
  have hr := round_double_mono h
  have hmax : (0 : ℚ) < DBL_MAX := by unfold DBL_MAX; norm_num
  unfold Fp.double
  by_cases h1 : DBL_MAX < |round_double a|
  · by_cases h2 : DBL_MAX < |round_double b|
    · rw [if_pos h1, if_pos h2]
      simp only [Fp.le, Bool.or_eq_true, decide_eq_true_eq, Bool.not_eq_true',
        decide_eq_false_iff_not, not_lt]
      by_cases hb : b < 0
      · left; linarith
      · right; exact not_lt.mp hb
    · rw [if_pos h1, if_neg h2]
      simp only [Fp.le, decide_eq_true_eq]
      by_contra ha
      have ha' : 0 ≤ a := not_lt.mp ha
      have r0 := round_double_nonneg ha'
      rw [abs_of_nonneg r0] at h1
      have : round_double b ≤ |round_double b| := le_abs_self _
      have h2' := not_lt.mp h2
      linarith
  · by_cases h2 : DBL_MAX < |round_double b|
    · rw [if_neg h1, if_pos h2]
      simp only [Fp.le, Bool.not_eq_true', decide_eq_false_iff_not, not_lt]
      by_contra hb
      have hb' : b < 0 := not_le.mp hb
      have r0 : round_double b ≤ 0 := by
        have := round_double_mono (le_of_lt hb')
        rwa [show round_double 0 = 0 from round_to_zero 53 (-1074)] at this
      rw [abs_of_nonpos r0] at h2
      have : -round_double a ≤ |round_double a| := neg_le_abs _
      have h1' := not_lt.mp h1
      linarith
    · rw [if_neg h1, if_neg h2]
      simp only [Fp.le, decide_eq_true_eq]
      exact hr

theorem Fp.double_ne_nan (q : ℚ) : Fp.double q ≠ Fp.nan := by
  unfold Fp.double
  split <;> exact fun h => Fp.noConfusion h

/-- Subtracting the same value keeps the order, when neither difference is a NaN. -/
theorem Fp.sub_mono {a b : Fp} (c : Fp) (h : Fp.le a b = true)
    (ha : Fp.sub a c ≠ Fp.nan) (hb : Fp.sub b c ≠ Fp.nan) :
    Fp.le (Fp.sub a c) (Fp.sub b c) = true := by
  cases c with
  | nan => cases a <;> exact absurd rfl ha
  | num z =>
    cases a with
    | nan => exact absurd rfl ha
    | num x =>
      cases b with
      | nan => exact absurd rfl hb
      | num y =>
        have hxy : x ≤ y := by simpa [Fp.le] using h
        exact Fp.double_mono (by linarith : x + -z ≤ y + -z)
      | inf t =>
        have ht : t = false := by simpa [Fp.le] using h
        subst ht
        exact Fp.le_pinf _ ha
    | inf s =>
      cases b with
      | nan => exact absurd rfl hb
      | num y =>
        have hs : s = true := by simpa [Fp.le] using h
        subst hs
        exact Fp.le_ninf _ hb
      | inf t => exact h
  | inf u =>
    cases a with
    | nan => exact absurd rfl ha
    | num x =>
      cases b with
      | nan => exact absurd rfl hb
      | num y => cases u <;> rfl
      | inf t =>
        have ht : t = false := by simpa [Fp.le] using h
        subst ht
        cases u
        · exact absurd rfl hb
        · rfl
    | inf s =>
      cases b with
      | nan => exact absurd rfl hb
      | num y =>
        have hs : s = true := by simpa [Fp.le] using h
        subst hs
        cases u
        · rfl
        · exact absurd rfl ha
      | inf t =>
        cases s <;> cases t <;> cases u <;>
          first | rfl | exact absurd rfl ha | exact absurd rfl hb

/-- Multiplying by the same positive number keeps the order. -/
theorem Fp.mul_mono {a b : Fp} (c : ℚ) (hc : 0 < c) (h : Fp.le a b = true) :
    Fp.le (Fp.mul a (Fp.num c)) (Fp.mul b (Fp.num c)) = true := by
  have hc0 : c ≠ 0 := hc.ne'
  have hcn : ¬ c < 0 := not_lt.mpr hc.le
  cases a with
  | nan => cases b <;> simp [Fp.le] at h
  | num x =>
    cases b with
    | nan => simp [Fp.le] at h
    | num y =>
      have hxy : x ≤ y := by simpa [Fp.le] using h
      exact Fp.double_mono (mul_le_mul_of_nonneg_right hxy hc.le)
    | inf t =>
      have ht : t = false := by simpa [Fp.le] using h
      subst ht
      have e : Fp.mul (Fp.inf false) (Fp.num c) = Fp.inf false := by
        simp [Fp.mul, hc0, hcn]
      rw [e]
      exact Fp.le_pinf _ (Fp.double_ne_nan _)
  | inf s =>
    cases b with
    | nan => simp [Fp.le] at h
    | num y =>
      have hs : s = true := by simpa [Fp.le] using h
      subst hs
      have e : Fp.mul (Fp.inf true) (Fp.num c) = Fp.inf true := by
        simp [Fp.mul, hc0, hcn]
      rw [e]
      exact Fp.le_ninf _ (Fp.double_ne_nan _)
    | inf t =>
      have e1 : Fp.mul (Fp.inf s) (Fp.num c) = Fp.inf s := by simp [Fp.mul, hc0, hcn]
      have e2 : Fp.mul (Fp.inf t) (Fp.num c) = Fp.inf t := by simp [Fp.mul, hc0, hcn]
      rw [e1, e2]
      exact h

/-- Dividing by the same value, a number that is not negative or the positive infinity,
keeps the order, when neither quotient is a NaN. -/
theorem Fp.div_mono {a b d : Fp} (h : Fp.le a b = true)
    (hd : (∃ y, d = Fp.num y ∧ 0 ≤ y) ∨ d = Fp.inf false)
    (ha : Fp.div a d ≠ Fp.nan) (hb : Fp.div b d ≠ Fp.nan) :
    Fp.le (Fp.div a d) (Fp.div b d) = true := by
  rcases hd with ⟨y, rfl, hy⟩ | rfl
  · have hyn : ¬ y < 0 := not_lt.mpr hy
    cases a with
    | nan => exact absurd rfl ha
    | num x =>
      cases b with
      | nan => exact absurd rfl hb
      | num z =>
        have hxz : x ≤ z := by simpa [Fp.le] using h
        by_cases hy0 : y = 0
        · subst hy0
          have hx0 : x ≠ 0 := by
            intro h0; apply ha; simp [Fp.div, h0]
          have hz0 : z ≠ 0 := by
            intro h0; apply hb; simp [Fp.div, h0]
          simp only [Fp.div, ↓reduceIte, hx0, hz0, Fp.le, Bool.or_eq_true, decide_eq_true_eq,
            Bool.not_eq_true', decide_eq_false_iff_not, not_lt]
          by_cases hz : z < 0
          · left; linarith
          · right; exact not_lt.mp hz
        · simp only [Fp.div, hy0, ↓reduceIte]
          exact Fp.double_mono (div_le_div_of_nonneg_right hxz hy)
      | inf t =>
        have ht : t = false := by simpa [Fp.le] using h
        subst ht
        have e : Fp.div (Fp.inf false) (Fp.num y) = Fp.inf false := by simp [Fp.div, hyn]
        rw [e]
        exact Fp.le_pinf _ ha
    | inf s =>
      cases b with
      | nan => exact absurd rfl hb
      | num z =>
        have hs : s = true := by simpa [Fp.le] using h
        subst hs
        have e : Fp.div (Fp.inf true) (Fp.num y) = Fp.inf true := by simp [Fp.div, hyn]
        rw [e]
        exact Fp.le_ninf _ hb
      | inf t =>
        have e1 : Fp.div (Fp.inf s) (Fp.num y) = Fp.inf s := by simp [Fp.div, hyn]
        have e2 : Fp.div (Fp.inf t) (Fp.num y) = Fp.inf t := by simp [Fp.div, hyn]
        rw [e1, e2]
        exact h
  · cases a with
    | nan => exact absurd rfl ha
    | inf s => exact absurd rfl ha
    | num x =>
      cases b with
      | nan => exact absurd rfl hb
      | inf t => exact absurd rfl hb
      | num z => simp [Fp.div, Fp.le]

/-- The extent of an axis of the bounding box, as computed: a number that is not negative,
the positive infinity, or a NaN. -/
theorem extent_shape (minimum maximum : ℚ) (h : minimum < maximum) :
    (∃ y, Fp.sub (Fp.double maximum) (Fp.double minimum) = Fp.num y ∧ 0 ≤ y) ∨
      Fp.sub (Fp.double maximum) (Fp.double minimum) = Fp.inf false ∨
      Fp.sub (Fp.double maximum) (Fp.double minimum) = Fp.nan := by
  have hle := Fp.double_mono (le_of_lt h)
  cases ha : Fp.double maximum with
  | nan => exact absurd ha (Fp.double_ne_nan _)
  | num x =>
    cases hb : Fp.double minimum with
    | nan => exact absurd hb (Fp.double_ne_nan _)
    | num y =>
      rw [ha, hb] at hle
      have hyx : y ≤ x := by simpa [Fp.le] using hle
      have e : Fp.sub (Fp.num x) (Fp.num y) = Fp.double (x + -y) := rfl
      rw [e]
      unfold Fp.double
      split
      · right; left
        have : ¬ (x + -y < 0) := by linarith
        simp [this]
      · left
        exact ⟨_, rfl, round_double_nonneg (by linarith)⟩
    | inf t =>
      rw [ha, hb] at hle
      have ht : t = true := by simpa [Fp.le] using hle
      subst ht
      right; left; rfl
  | inf s =>
    cases hb : Fp.double minimum with
    | nan => exact absurd hb (Fp.double_ne_nan _)
    | num y =>
      rw [ha, hb] at hle
      have hs : s = false := by simpa [Fp.le] using hle
      subst hs
      right; left; rfl
    | inf t =>
      rw [ha, hb] at hle
      cases s <;> cases t <;> simp_all [Fp.le, Fp.sub, Fp.add, Fp.neg]

theorem Fp.sub_nan (c : Fp) : Fp.sub Fp.nan c = Fp.nan := by
  cases c <;> rfl

theorem Fp.mul_nan (c : Fp) : Fp.mul Fp.nan c = Fp.nan := by
  cases c <;> rfl

theorem Fp.div_nan (c : Fp) : Fp.div Fp.nan c = Fp.nan := by
  cases c <;> rfl

theorem Fp.div_by_nan (a : Fp) : Fp.div a Fp.nan = Fp.nan := by
  cases a <;> rfl

/-- The order of two coordinates after the normalization in `double`: the order of the raw
coordinates is kept, possibly as an equality, when neither result is a NaN. -/
theorem new_coordinate_double_le (minimum maximum v w : ℚ) (h : minimum < maximum)
    (hvw : v ≤ w) (ha : new_coordinate_double minimum maximum v ≠ Fp.nan)
    (hb : new_coordinate_double minimum maximum w ≠ Fp.nan) :
    Fp.le (new_coordinate_double minimum maximum v)
      (new_coordinate_double minimum maximum w) = true := by
  unfold new_coordinate_double at ha hb ⊢
  have h50 : (0 : ℚ) < ((scale : Int) : ℚ) := by norm_num [scale]
  have m1 : Fp.mul (Fp.div (Fp.sub (Fp.double v) (Fp.double minimum))
      (Fp.sub (Fp.double maximum) (Fp.double minimum))) (Fp.num (scale : ℚ)) ≠ Fp.nan := by
    intro e; rw [e, Fp.sub_nan] at ha; exact ha rfl
  have m2 : Fp.mul (Fp.div (Fp.sub (Fp.double w) (Fp.double minimum))
      (Fp.sub (Fp.double maximum) (Fp.double minimum))) (Fp.num (scale : ℚ)) ≠ Fp.nan := by
    intro e; rw [e, Fp.sub_nan] at hb; exact hb rfl
  have d1 : Fp.div (Fp.sub (Fp.double v) (Fp.double minimum))
      (Fp.sub (Fp.double maximum) (Fp.double minimum)) ≠ Fp.nan := by
    intro e; rw [e, Fp.mul_nan] at m1; exact m1 rfl
  have d2 : Fp.div (Fp.sub (Fp.double w) (Fp.double minimum))
      (Fp.sub (Fp.double maximum) (Fp.double minimum)) ≠ Fp.nan := by
    intro e; rw [e, Fp.mul_nan] at m2; exact m2 rfl
  have s1 : Fp.sub (Fp.double v) (Fp.double minimum) ≠ Fp.nan := by
    intro e; rw [e, Fp.div_nan] at d1; exact d1 rfl
  have s2 : Fp.sub (Fp.double w) (Fp.double minimum) ≠ Fp.nan := by
    intro e; rw [e, Fp.div_nan] at d2; exact d2 rfl
  have hd : (∃ y, Fp.sub (Fp.double maximum) (Fp.double minimum) = Fp.num y ∧ 0 ≤ y) ∨
      Fp.sub (Fp.double maximum) (Fp.double minimum) = Fp.inf false := by
    rcases extent_shape minimum maximum h with h1 | h1 | h1
    · exact Or.inl h1
    · exact Or.inr h1
    · rw [h1, Fp.div_by_nan] at d1; exact absurd rfl d1
  have k1 := Fp.sub_mono (Fp.double minimum) (Fp.double_mono hvw) s1 s2
  have k2 := Fp.div_mono k1 hd d1 d2
  have k3 := Fp.mul_mono ((scale : Int) : ℚ) h50 k2
  exact Fp.sub_mono _ k3 ha hb

/-- C10, as amended: the rescaling of `generate_new_coordinates`, evaluated in `double` as
the program evaluates it, does not reverse the order on either axis: when `x_maximum`
exceeds `x_minimum`, two raw points with `x1 < x2` never get `x1' > x2'`, and they get
`x1' <= x2'` when neither new coordinate is a NaN; likewise for y when `y_maximum` exceeds
`y_minimum`. -/
theorem new_point_monotone (class_coord : Coordinate) (p q : Point) :
    (class_coord.x_minimum < class_coord.x_maximum → p.1 < q.1 →
      Fp.gt (new_point_double class_coord p).1 (new_point_double class_coord q).1 = false ∧
      ((new_point_double class_coord p).1 ≠ Fp.nan →
        (new_point_double class_coord q).1 ≠ Fp.nan →
        Fp.le (new_point_double class_coord p).1 (new_point_double class_coord q).1 = true)) ∧
    (class_coord.y_minimum < class_coord.y_maximum → p.2 < q.2 →
      Fp.gt (new_point_double class_coord p).2 (new_point_double class_coord q).2 = false ∧
      ((new_point_double class_coord p).2 ≠ Fp.nan →
        (new_point_double class_coord q).2 ≠ Fp.nan →
        Fp.le (new_point_double class_coord p).2 (new_point_double class_coord q).2 = true)) := by
  have key : ∀ minimum maximum v w : ℚ, minimum < maximum → v < w →
      Fp.gt (new_coordinate_double minimum maximum v)
        (new_coordinate_double minimum maximum w) = false ∧
      (new_coordinate_double minimum maximum v ≠ Fp.nan →
        new_coordinate_double minimum maximum w ≠ Fp.nan →
        Fp.le (new_coordinate_double minimum maximum v)
          (new_coordinate_double minimum maximum w) = true) := by
    intro minimum maximum v w hbox hlt
    have hle := new_coordinate_double_le minimum maximum v w hbox (le_of_lt hlt)
    refine ⟨?_, hle⟩
    by_cases ha : new_coordinate_double minimum maximum v = Fp.nan
    · rw [ha]; exact Fp.nan_gt _
    · by_cases hb : new_coordinate_double minimum maximum w = Fp.nan
      · rw [hb]; exact Fp.gt_nan _
      · exact Fp.le_not_gt (hle ha hb)
  exact ⟨fun hbox hlt => key _ _ _ _ hbox hlt, fun hbox hlt => key _ _ _ _ hbox hlt⟩

/-- C10, witness: in the box from (0, 0) to (10, 20) the points (2, 5) and (4, 15) are
rescaled to (-15, -12.5) and (-5, 12.5), in the same order on both axes. -/
theorem new_point_monotone_witness :
    ((new_point_double ⟨0, 0, 10, 20⟩ (2, 5)).1 = Fp.num (-15) ∧
      (new_point_double ⟨0, 0, 10, 20⟩ (4, 15)).1 = Fp.num (-5) ∧
      Fp.le (new_point_double ⟨0, 0, 10, 20⟩ (2, 5)).1
        (new_point_double ⟨0, 0, 10, 20⟩ (4, 15)).1 = true) ∧
    ((new_point_double ⟨0, 0, 10, 20⟩ (2, 5)).2 = Fp.num (-25 / 2) ∧
      (new_point_double ⟨0, 0, 10, 20⟩ (4, 15)).2 = Fp.num (25 / 2) ∧
      Fp.le (new_point_double ⟨0, 0, 10, 20⟩ (2, 5)).2
        (new_point_double ⟨0, 0, 10, 20⟩ (4, 15)).2 = true) :=
  ⟨⟨by decide!, by decide!,
    ((new_point_monotone ⟨0, 0, 10, 20⟩ (2, 5) (4, 15)).1 (by norm_num) (by norm_num)).2
      (by decide!) (by decide!)⟩,
   ⟨by decide!, by decide!,
    ((new_point_monotone ⟨0, 0, 10, 20⟩ (2, 5) (4, 15)).2 (by norm_num) (by norm_num)).2
      (by decide!) (by decide!)⟩⟩

/-- C10, counterexample: in a box from 0 to 100 the raw coordinates 1 and 1 + 2^-52, the
next `double` after 1, are both rescaled to -24.5, so that `x1 < x2` does not give
`x1' < x2'`; and in a box from `-DBL_MAX` to `DBL_MAX` the raw coordinate `DBL_MAX` is
rescaled to a NaN, which is in no order with the -25 of the raw coordinate 0. -/
theorem new_point_order_lost :
    ((0 : ℚ) < 100 ∧ (1 : ℚ) < 1 + 1 / 2 ^ 52 ∧
      (new_point_double ⟨0, 0, 100, 100⟩ (1, 1)).1 = Fp.num (-49 / 2) ∧
      (new_point_double ⟨0, 0, 100, 100⟩ (1 + 1 / 2 ^ 52, 1)).1 = Fp.num (-49 / 2) ∧
      ¬ ((-49 / 2 : ℚ) < -49 / 2)) ∧
    (-DBL_MAX < DBL_MAX ∧ (0 : ℚ) < DBL_MAX ∧
      (new_point_double ⟨-DBL_MAX, 0, DBL_MAX, 100⟩ (0, 1)).1 = Fp.num (-25) ∧
      (new_point_double ⟨-DBL_MAX, 0, DBL_MAX, 100⟩ (DBL_MAX, 1)).1 = Fp.nan) := by
  refine ⟨⟨by norm_num, by norm_num, ?_, ?_, by norm_num⟩, ⟨?_, ?_, ?_, ?_⟩⟩ <;> decide!


/-! ## Normalization: end points, aspect, degenerate boxes -/

theorem new_coordinate_degenerate (minimum v : ℚ) :
    new_coordinate minimum minimum v = none := by
  simp [new_coordinate, fdiv]

theorem new_point_degenerate_x (class_coord : Coordinate) (p : Point)
    (h : class_coord.x_maximum = class_coord.x_minimum) :
    (new_point class_coord p).1 = none := by
  simp only [new_point, h, new_coordinate_degenerate]

theorem new_point_degenerate_y (class_coord : Coordinate) (p : Point)
    (h : class_coord.y_maximum = class_coord.y_minimum) :
    (new_point class_coord p).2 = none := by
  simp only [new_point, h, new_coordinate_degenerate]

/-- C13, as amended: `generate_new_coordinates` has no error for a degenerate bounding box:
whenever `data_analysis` returns, it returns one object per extracted object, and when the
box is degenerate on an axis, every new coordinate on that axis, of the outer rings and of
the holes, is the infinity or NaN of a division by zero (`none`). -/
theorem generate_new_coordinates_degenerate (geojson_file : List Feature)
    (all_buildings objects : List CityObject) (class_coord box : Coordinate)
    (h : data_analysis geojson_file all_buildings class_coord = Except.ok (objects, box)) :
    ∃ out, generate_new_coordinates geojson_file all_buildings class_coord = Except.ok out ∧
      out.length = objects.length ∧
      (box.x_maximum = box.x_minimum → ∀ o ∈ out,
        (∀ pt ∈ o.new_coords, pt.1 = none) ∧
        (∀ hole ∈ o.new_holes, ∀ pt ∈ hole, pt.1 = none)) ∧
      (box.y_maximum = box.y_minimum → ∀ o ∈ out,
        (∀ pt ∈ o.new_coords, pt.2 = none) ∧
        (∀ hole ∈ o.new_holes, ∀ pt ∈ hole, pt.2 = none)) := by
  refine ⟨_, by rw [generate_new_coordinates, h]; rfl, by simp, ?_, ?_⟩
  · intro hd o ho
    simp only [List.mem_map] at ho
    obtain ⟨b, _, rfl⟩ := ho
    constructor
    · intro pt hpt
      simp only [List.mem_map] at hpt
      obtain ⟨r, _, rfl⟩ := hpt
      exact new_point_degenerate_x box r hd
    · intro hole hhole pt hpt
      simp only [List.mem_map] at hhole
      obtain ⟨l, _, rfl⟩ := hhole
      simp only [List.mem_map] at hpt
      obtain ⟨r, _, rfl⟩ := hpt
      exact new_point_degenerate_x box r hd
  · intro hd o ho
    simp only [List.mem_map] at ho
    obtain ⟨b, _, rfl⟩ := ho
    constructor
    · intro pt hpt
      simp only [List.mem_map] at hpt
      obtain ⟨r, _, rfl⟩ := hpt
      exact new_point_degenerate_y box r hd
    · intro hole hhole pt hpt
      simp only [List.mem_map] at hhole
      obtain ⟨l, _, rfl⟩ := hhole
      simp only [List.mem_map] at hpt
      obtain ⟨r, _, rfl⟩ := hpt
      exact new_point_degenerate_y box r hd

theorem Coordinate.set_x_max_eq (c : Coordinate) (x : ℚ) :
    c.set_x_max x = { c with x_maximum := max c.x_maximum x } := by
  unfold Coordinate.set_x_max
  split
  · rename_i h; rw [max_eq_right h.le]
  · rename_i h; rw [max_eq_left (not_lt.1 h)]

theorem Coordinate.set_y_max_eq (c : Coordinate) (y : ℚ) :
    c.set_y_max y = { c with y_maximum := max c.y_maximum y } := by
  unfold Coordinate.set_y_max
  split
  · rename_i h; rw [max_eq_right h.le]
  · rename_i h; rw [max_eq_left (not_lt.1 h)]

theorem Coordinate.set_x_min_eq (c : Coordinate) (x : ℚ) :
    c.set_x_min x = { c with x_minimum := min c.x_minimum x } := by
  unfold Coordinate.set_x_min
  split
  · rename_i h; rw [min_eq_right (le_of_lt h)]
  · rename_i h; rw [min_eq_left (not_lt.1 h)]

theorem Coordinate.set_y_min_eq (c : Coordinate) (y : ℚ) :
    c.set_y_min y = { c with y_minimum := min c.y_minimum y } := by
  unfold Coordinate.set_y_min
  split
  · rename_i h; rw [min_eq_right (le_of_lt h)]
  · rename_i h; rw [min_eq_left (not_lt.1 h)]

theorem Coordinate.update_eq (c : Coordinate) (x y : ℚ) :
    c.update x y =
      { x_minimum := min c.x_minimum x, y_minimum := min c.y_minimum y,
        x_maximum := max c.x_maximum x, y_maximum := max c.y_maximum y } := by
  simp only [Coordinate.update, Coordinate.set_x_max_eq, Coordinate.set_x_min_eq,
    Coordinate.set_y_max_eq, Coordinate.set_y_min_eq]

theorem dbl_max_ge (x : ℚ) (h : x ≤ 1000) : x < DBL_MAX := by
  have : (1000 : ℚ) < DBL_MAX := by
    unfold DBL_MAX
    have h1 : (1 : ℚ) ≤ 2 ^ 971 := one_le_pow₀ (by norm_num)
    have h2 : (1001 : ℚ) ≤ 2 ^ 53 - 1 := by norm_num
    nlinarith
  linarith

theorem dbl_min_lt_one : DBL_MIN < 1 := by
  unfold DBL_MIN
  rw [div_lt_one (by positivity)]
  exact one_lt_pow₀ (by norm_num) (by norm_num)

theorem dbl_min_pos : 0 < DBL_MIN := by
  unfold DBL_MIN; positivity


/-! ## Polygons -/

theorem foldl_push (init xs : List Point) :
    xs.foldl (fun l coord => l ++ [coord]) init = init ++ xs := by
  induction xs generalizing init with
  | nil => simp
  | cons x xs ih => simp [List.foldl_cons, ih]

theorem check_valid_type_congr (a b : CityObject) (h : a.type = b.type) :
    check_valid_type a = check_valid_type b := by
  simp only [check_valid_type, h]

/-- The loop over the holes of a polygon, started after at least one ring: when the rings
left are exactly those still to come, the object is appended after the last of them. -/
theorem hole_loop (id : String) (level : Int) (num_lists : Nat) (hs : List (List Point))
    (st : RingState) (hne : hs ≠ []) (hc : 1 ≤ st.count_list)
    (hn : st.count_list + hs.length = num_lists) :
    hs.foldl (polygon_ring id level num_lists) st =
      { st with
        count_list := num_lists
        building := { st.building with holes := st.list_holes ++ hs }
        list_holes := st.list_holes ++ hs
        all_buildings :=
          if check_valid_type st.building then
            st.all_buildings ++ [{ st.building with holes := st.list_holes ++ hs }]
          else st.all_buildings } := by
  induction hs generalizing st with
  | nil => exact absurd rfl hne
  | cons h t ih =>
    have h0 : (st.count_list == 0) = false := by
      simp only [beq_eq_false_iff_ne, ne_eq]; omega
    rw [List.foldl_cons]
    by_cases ht : t = []
    · subst ht
      simp only [List.length_singleton] at hn
      simp only [polygon_ring, h0, Bool.false_eq_true, ↓reduceIte, foldl_push, List.nil_append,
        ring_end, hn, beq_self_eq_true, List.foldl_nil]
      rw [check_valid_type_congr { st.building with holes := st.list_holes ++ [h] }
        st.building rfl]
      split <;> rfl
    · have hlen : 1 ≤ t.length := by
        cases t with
        | nil => exact absurd rfl ht
        | cons _ _ => simp
      simp only [List.length_cons] at hn
      have hneq : (st.count_list + 1 == num_lists) = false := by
        simp only [beq_eq_false_iff_ne, ne_eq]; omega
      have hstep : polygon_ring id level num_lists st h =
          { st with list_holes := st.list_holes ++ [h], count_list := st.count_list + 1 } := by
        simp only [polygon_ring, h0, Bool.false_eq_true, ↓reduceIte, foldl_push,
          List.nil_append, ring_end, hneq]
      rw [hstep, ih _ ht (by simp) (by simp only; omega)]
      simp only [List.append_assoc, List.singleton_append]

theorem polygon_rings (id : String) (level : Int) (outer : List Point)
    (holes : List (List Point)) (b : CityObject) (bs : List CityObject) (c : Coordinate) :
    (outer :: holes).foldl (polygon_ring id level (outer :: holes).length)
        { count_list := 0, building := b, list_coordinates := [], list_holes := [],
          all_buildings := bs, class_coord := c } =
      { count_list := (outer :: holes).length
        building := { b with level := level, coords := outer, name := "building_" ++ id,
                             holes := holes }
        list_coordinates := outer
        list_holes := holes
        all_buildings :=
          if check_valid_type b then
            bs ++ [{ b with level := level, coords := outer, name := "building_" ++ id,
                            holes := holes }]
          else bs
        class_coord := outer.foldl (fun c coord => c.update coord.1 coord.2) c } := by
  rw [List.foldl_cons]
  by_cases hh : holes = []
  · subst hh
    simp only [polygon_ring, beq_self_eq_true, ↓reduceIte, foldl_push, List.nil_append,
      ring_end, List.length_singleton, zero_add, List.foldl_nil]
    rw [check_valid_type_congr
      { b with level := level, coords := outer, name := "building_" ++ id, holes := [] }
      b rfl]
    by_cases hv : check_valid_type b = true
    · simp only [hv, ↓reduceIte]
    · simp only [hv, Bool.false_eq_true, ↓reduceIte]
  · have hlen : 1 ≤ holes.length := by
      cases holes with
      | nil => exact absurd rfl hh
      | cons _ _ => simp
    have hneq : (0 + 1 == (outer :: holes).length) = false := by
      simp only [List.length_cons, beq_eq_false_iff_ne, ne_eq]; omega
    have hstep : polygon_ring id level (outer :: holes).length
        { count_list := 0, building := b, list_coordinates := [], list_holes := [],
          all_buildings := bs, class_coord := c } outer =
        { count_list := 0 + 1
          building := { b with level := level, coords := outer, name := "building_" ++ id }
          list_coordinates := outer, list_holes := [], all_buildings := bs
          class_coord := outer.foldl (fun c coord => c.update coord.1 coord.2) c } := by
      simp only [polygon_ring, beq_self_eq_true, ↓reduceIte, foldl_push, List.nil_append,
        ring_end, hneq, Bool.false_eq_true]
    rw [hstep, hole_loop id level _ holes _ hh (by simp) (by simp [Nat.add_comm])]
    simp only [List.nil_append]
    rw [check_valid_type_congr
      { b with level := level, coords := outer, name := "building_" ++ id } b rfl]

theorem analyse_polygon (f : Feature) (outer : List Point) (holes : List (List Point))
    (id : String) (b : CityObject) (l : Int) (bs : List CityObject) (c : Coordinate)
    (hg : f.geometry = Geometry.Polygon (outer :: holes))
    (hid : f.properties.get "@id" = Json.str id)
    (hb : assign_type CityObject.new f.properties = Except.ok b)
    (hnull : b.type ≠ "null")
    (hl : generate_building_level b.type f.properties = Except.ok l) :
    analyse_feature f bs c =
      Except.ok
        (if check_valid_type b then
            bs ++ [{ b with level := l, coords := outer,
                            name := "building_" ++ replace_slash id, holes := holes }]
          else bs,
         outer.foldl (fun c coord => c.update coord.1 coord.2) c) := by
  have hg' : (Json.str id).get_string = Except.ok id := rfl
  have hn : (b.type == "null") = false := by simpa using hnull
  unfold analyse_feature
  simp only [hid, hg', ok_bind, hg, hb, hn, Bool.false_eq_true, ↓reduceIte, hl, polygon_rings]
  rfl

theorem data_analysis_singleton (f : Feature) (bs : List CityObject) (c : Coordinate) :
    data_analysis [f] bs c = analyse_feature f bs c := by
  simp only [data_analysis, List.foldlM_cons, List.foldlM_nil]
  cases analyse_feature f bs c <;> rfl

theorem check_valid_type_ne_null (b : CityObject) (h : check_valid_type b = true) :
    b.type ≠ "null" := by
  intro hn
  have : check_valid_type b = false := by
    simp only [check_valid_type, check_grass_type, hn]
    decide
  rw [this] at h
  exact Bool.false_ne_true h

theorem column_building_box :
    [((1 : ℚ), (1 : ℚ)), (1, 2), (1, 3)].foldl (fun c coord => c.update coord.1 coord.2)
      Coordinate.new = ⟨1, 1, 1, 3⟩ := by
  simp only [List.foldl, Coordinate.update_eq, Coordinate.new,
    min_eq_right (dbl_max_ge 1 (by norm_num)).le, max_eq_right dbl_min_lt_one.le]
  norm_num

theorem column_building_analysis :
    data_analysis [column_building] [] Coordinate.new =
      Except.ok
        ([{ CityObject.new with
            name := "building_way_7", type := "building", level := 1,
            coords := [(1, 1), (1, 2), (1, 3)] }],
         ⟨1, 1, 1, 3⟩) := by
  rw [data_analysis_singleton,
    analyse_polygon column_building [(1, 1), (1, 2), (1, 3)] [] "way/7"
      { CityObject.new with type := "building" } 1 [] Coordinate.new rfl rfl
      (by with_unfolding_all rfl) (by decide) (by with_unfolding_all rfl),
    column_building_box]
  rfl

/-- C13, witness: the building `column_building`, whose three points have the same x
coordinate, gives a box that is degenerate in x. -/
theorem generate_new_coordinates_degenerate_witness :
    ∃ out, generate_new_coordinates [column_building] [] Coordinate.new = Except.ok out ∧
      out.length = 1 ∧
      (∀ o ∈ out, (∀ pt ∈ o.new_coords, pt.1 = none) ∧
        (∀ hole ∈ o.new_holes, ∀ pt ∈ hole, pt.1 = none)) := by
  obtain ⟨out, h1, h2, h3, _⟩ :=
    generate_new_coordinates_degenerate [column_building] [] _ Coordinate.new ⟨1, 1, 1, 3⟩
      column_building_analysis
  exact ⟨out, h1, h2, h3 rfl⟩

/-- C13, counterexample: for the single building `column_building` the function returns
without an error, and the x coordinate of each of the three new points is the result of a
division by zero. -/
theorem generate_new_coordinates_emits_non_finite :
    ∃ o, generate_new_coordinates [column_building] [] Coordinate.new = Except.ok [o] ∧
      o.new_coords = [(none, some (-25)), (none, some 0), (none, some 25)] := by
  refine ⟨_, by rw [generate_new_coordinates, column_building_analysis]; rfl, ?_⟩
  with_unfolding_all rfl

/-- C14: the maxima of a fresh `Coordinate` start at `__DBL_MIN__`, the smallest positive
normalised number, and not at the lowest number: after the point (-3, -4) is folded in, the
minima are -3 and -4 but both maxima are still `DBL_MIN`, which is positive, and not the
maxima -3 and -4 of the coordinates folded in. -/
theorem bounding_box_negative :
    bounding_box [(-3, -4)] = ⟨-3, -4, DBL_MIN, DBL_MIN⟩ ∧ 0 < DBL_MIN := by
  refine ⟨?_, dbl_min_pos⟩
  have h3 : ((-3 : ℚ)) ≤ DBL_MIN := by linarith [dbl_min_pos]
  have h4 : ((-4 : ℚ)) ≤ DBL_MIN := by linarith [dbl_min_pos]
  simp only [bounding_box, List.foldl, Coordinate.update_eq, Coordinate.new,
    min_eq_right (dbl_max_ge (-3) (by norm_num)).le,
    min_eq_right (dbl_max_ge (-4) (by norm_num)).le, max_eq_left h3, max_eq_left h4]

/-- C15: for a `Polygon` feature with at least one ring whose identifier is a string, whose
tags are classified as the object `b` of valid type, with the level `l`, `data_analysis`
appends exactly one object: its outer ring `coords` is the first ring, point for point, its
`holes` are the other rings in order, its type is the classified type and its level `l`. -/
theorem data_analysis_polygon (f : Feature) (outer : List Point) (holes : List (List Point))
    (id : String) (b : CityObject) (l : Int) (bs : List CityObject) (c : Coordinate)
    (hg : f.geometry = Geometry.Polygon (outer :: holes))
    (hid : f.properties.get "@id" = Json.str id)
    (hb : assign_type CityObject.new f.properties = Except.ok b)
    (hv : check_valid_type b = true)
    (hl : generate_building_level b.type f.properties = Except.ok l) :
    ∃ o box, data_analysis [f] bs c = Except.ok (bs ++ [o], box) ∧
      o.coords = outer ∧ o.holes = holes ∧ o.type = b.type ∧ o.level = l := by
  refine ⟨{ b with level := l, coords := outer, name := "building_" ++ replace_slash id,
                   holes := holes },
    outer.foldl (fun c coord => c.update coord.1 coord.2) c, ?_, rfl, rfl, rfl, rfl⟩
  rw [data_analysis_singleton,
    analyse_polygon f outer holes id b l bs c hg hid hb (check_valid_type_ne_null b hv) hl,
    hv]
  rfl

/-- C15, witness: the building `courtyard_building` has three rings; the first is the outer
ring of the object appended and the other two are its holes. -/
theorem data_analysis_polygon_witness :
    ∃ o box, data_analysis [courtyard_building] [] Coordinate.new = Except.ok ([] ++ [o], box) ∧
      o.coords = [(0, 0), (9, 0), (9, 9), (0, 9)] ∧
      o.holes = [[(1, 1), (2, 1), (2, 2)], [(5, 5), (6, 5), (6, 6)]] ∧
      o.type = "building" ∧ o.level = 1 :=
  data_analysis_polygon courtyard_building [(0, 0), (9, 0), (9, 9), (0, 9)]
    [[(1, 1), (2, 1), (2, 2)], [(5, 5), (6, 5), (6, 6)]] "way/8"
    { CityObject.new with type := "building" } 1 [] Coordinate.new rfl rfl
    (by with_unfolding_all rfl) (by decide) (by with_unfolding_all rfl)

/-! ## MultiPolygons -/

/-- C16: the lists `list_coordinates` and `list_holes` are declared before the loop over the
polygon elements and are not cleared after an element.  For `twin_building`, two polygons of
one ring each, two objects are appended; the outer ring of the second is the ring of the
first element followed by the ring of the second, six points instead of three. -/
theorem data_analysis_multi_polygon_accumulates :
    ∃ o1 o2 box, data_analysis [twin_building] [] Coordinate.new =
        Except.ok ([o1, o2], box) ∧
      o1.coords = [(0, 0), (1, 0), (1, 1)] ∧
      o2.coords = [(0, 0), (1, 0), (1, 1), (5, 5), (6, 5), (6, 6)] ∧
      o2.coords ≠ [(5, 5), (6, 5), (6, 6)] := by
  have h : (data_analysis [twin_building] [] Coordinate.new).map Prod.fst =
      Except.ok
        [{ CityObject.new with
            name := "building_relation_7", type := "building", level := 1,
            coords := [(0, 0), (1, 0), (1, 1)] },
         { CityObject.new with
            name := "building_relation_7", type := "building", level := 1,
            coords := [(0, 0), (1, 0), (1, 1), (5, 5), (6, 5), (6, 6)] }] := by
    with_unfolding_all exact rfl
  cases hd : data_analysis [twin_building] [] Coordinate.new with
  | error e => rw [hd] at h; cases h
  | ok out =>
    rw [hd] at h
    obtain ⟨objs, box⟩ := out
    have hobjs : objs = _ := Except.ok.inj h
    subst hobjs
    exact ⟨_, _, box, rfl, rfl, rfl, by with_unfolding_all decide⟩

/-! ## The filter on the type of polygons -/

theorem check_valid_type_iff (o : CityObject) :
    check_valid_type o = true ↔ renderable o.type := by
  simp only [check_valid_type, renderable, Bool.or_eq_true, beq_iff_eq, List.mem_cons,
    List.mem_singleton, List.not_mem_nil, or_false]
  tauto

theorem ring_end_appends (num_lists : Nat) (st : RingState) :
    (ring_end num_lists st).building.type = st.building.type ∧
    (ring_end num_lists st).list_holes = st.list_holes ∧
    ∃ new, (ring_end num_lists st).all_buildings = st.all_buildings ++ new ∧
      ∀ o ∈ new, o.type = st.building.type ∧ check_valid_type o = true := by
  unfold ring_end
  by_cases h1 : (st.count_list == num_lists) = true
  · by_cases h2 : check_valid_type { st.building with holes := st.list_holes } = true
    · simp only [h1, h2, ↓reduceIte]
      refine ⟨trivial, trivial, [{ st.building with holes := st.list_holes }], rfl, ?_⟩
      intro o ho
      rw [List.mem_singleton] at ho
      subst ho
      exact ⟨rfl, h2⟩
    · simp only [h1, h2, ↓reduceIte, Bool.false_eq_true]
      exact ⟨trivial, trivial, [], by simp, by simp⟩
  · simp only [h1, ↓reduceIte, Bool.false_eq_true]
    exact ⟨trivial, trivial, [], by simp, by simp⟩

theorem polygon_ring_appends (id : String) (level : Int) (num_lists : Nat) (st : RingState)
    (list_coords : List Point) :
    (polygon_ring id level num_lists st list_coords).building.type = st.building.type ∧
    ∃ new, (polygon_ring id level num_lists st list_coords).all_buildings =
        st.all_buildings ++ new ∧
      ∀ o ∈ new, o.type = st.building.type ∧ check_valid_type o = true := by
  unfold polygon_ring
  by_cases h : (st.count_list == 0) = true
  · simp only [h, ↓reduceIte]
    obtain ⟨h1, _, h3⟩ := ring_end_appends num_lists _
    exact ⟨h1, h3⟩
  · simp only [h, ↓reduceIte, Bool.false_eq_true]
    obtain ⟨h1, _, h3⟩ := ring_end_appends num_lists _
    exact ⟨h1, h3⟩

theorem multi_polygon_ring_appends (id : String) (level : Int) (num_lists : Nat)
    (st : RingState) (list_coords : List Point) :
    (multi_polygon_ring id level num_lists st list_coords).building.type = st.building.type ∧
    ∃ new, (multi_polygon_ring id level num_lists st list_coords).all_buildings =
        st.all_buildings ++ new ∧
      ∀ o ∈ new, o.type = st.building.type ∧ check_valid_type o = true := by
  unfold multi_polygon_ring
  by_cases h : (st.count_list == 0) = true
  · simp only [h, ↓reduceIte]
    obtain ⟨h1, _, h3⟩ := ring_end_appends num_lists _
    exact ⟨h1, h3⟩
  · simp only [h, ↓reduceIte, Bool.false_eq_true]
    obtain ⟨h1, _, h3⟩ := ring_end_appends num_lists _
    exact ⟨h1, h3⟩

/-- A loop whose body keeps the type of the building and appends only objects of that type
that pass `check_valid_type` does so as a whole. -/
theorem foldl_appends {α : Type} (step : RingState → α → RingState)
    (hstep : ∀ st x, (step st x).building.type = st.building.type ∧
      ∃ new, (step st x).all_buildings = st.all_buildings ++ new ∧
        ∀ o ∈ new, o.type = st.building.type ∧ check_valid_type o = true)
    (xs : List α) (st : RingState) :
    (xs.foldl step st).building.type = st.building.type ∧
    ∃ new, (xs.foldl step st).all_buildings = st.all_buildings ++ new ∧
      ∀ o ∈ new, o.type = st.building.type ∧ check_valid_type o = true := by
  induction xs generalizing st with
  | nil => exact ⟨rfl, [], by simp, by simp⟩
  | cons x xs ih =>
    rw [List.foldl_cons]
    obtain ⟨h1, new1, h2, h3⟩ := hstep st x
    obtain ⟨k1, new2, k2, k3⟩ := ih (step st x)
    refine ⟨k1.trans h1, new1 ++ new2, by rw [k2, h2, List.append_assoc], ?_⟩
    intro o ho
    rcases List.mem_append.1 ho with ho | ho
    · exact h3 o ho
    · rw [← h1]; exact k3 o ho

theorem multi_polygon_element_appends (id : String) (level : Int) (st : RingState)
    (multi_pol : List (List Point)) :
    (multi_polygon_element id level st multi_pol).building.type = st.building.type ∧
    ∃ new, (multi_polygon_element id level st multi_pol).all_buildings =
        st.all_buildings ++ new ∧
      ∀ o ∈ new, o.type = st.building.type ∧ check_valid_type o = true :=
  foldl_appends (multi_polygon_ring id level multi_pol.length)
    (multi_polygon_ring_appends id level multi_pol.length) multi_pol st

/-- The `Polygon` and `MultiPolygon` branches of `analyse_feature`, once the identifier, the
type and the level have been computed: the objects appended have the classified type and
pass `check_valid_type`. -/
theorem analyse_polygonal (f : Feature) (id : String) (b : CityObject) (l : Int)
    (bs : List CityObject) (c : Coordinate)
    (hg : f.geometry.polygonal = true)
    (hid : f.properties.get "@id" = Json.str id)
    (hb : assign_type CityObject.new f.properties = Except.ok b)
    (hnull : b.type ≠ "null")
    (hl : generate_building_level b.type f.properties = Except.ok l) :
    ∃ new box, analyse_feature f bs c = Except.ok (bs ++ new, box) ∧
      ∀ o ∈ new, o.type = b.type ∧ check_valid_type o = true := by
  have hg' : (Json.str id).get_string = Except.ok id := rfl
  have hn : (b.type == "null") = false := by simpa using hnull
  unfold analyse_feature
  cases hgeo : f.geometry with
  | Polygon rings =>
    simp only [hid, hg', ok_bind, hb, hn, Bool.false_eq_true, ↓reduceIte, hl]
    obtain ⟨_, new, h2, h3⟩ := foldl_appends (polygon_ring (replace_slash id) l rings.length)
      (polygon_ring_appends (replace_slash id) l rings.length) rings
      { count_list := 0, building := b, list_coordinates := [], list_holes := [],
        all_buildings := bs, class_coord := c }
    exact ⟨new, _, by rw [h2]; rfl, h3⟩
  | MultiPolygon polys =>
    simp only [hid, hg', ok_bind, hb, hn, Bool.false_eq_true, ↓reduceIte, hl]
    obtain ⟨_, new, h2, h3⟩ := foldl_appends (multi_polygon_element (replace_slash id) l)
      (multi_polygon_element_appends (replace_slash id) l) polys
      { count_list := 0, building := b, list_coordinates := [], list_holes := [],
        all_buildings := bs, class_coord := c }
    exact ⟨new, _, by rw [h2]; rfl, h3⟩
  | LineString _ => rw [hgeo] at hg; cases hg
  | MultiLineString _ => rw [hgeo] at hg; cases hg
  | Point _ => rw [hgeo] at hg; cases hg
  | other => rw [hgeo] at hg; cases hg

theorem analyse_polygonal_null (f : Feature) (id : String) (b : CityObject)
    (bs : List CityObject) (c : Coordinate)
    (hg : f.geometry.polygonal = true)
    (hid : f.properties.get "@id" = Json.str id)
    (hb : assign_type CityObject.new f.properties = Except.ok b)
    (hnull : b.type = "null") :
    analyse_feature f bs c = Except.ok (bs, c) := by
  have hg' : (Json.str id).get_string = Except.ok id := rfl
  have hn : (b.type == "null") = true := by simpa using hnull
  unfold analyse_feature
  cases hgeo : f.geometry with
  | Polygon rings => simp only [hid, hg', ok_bind, hb, hn, ↓reduceIte]; rfl
  | MultiPolygon polys => simp only [hid, hg', ok_bind, hb, hn, ↓reduceIte]; rfl
  | LineString _ => rw [hgeo] at hg; cases hg
  | MultiLineString _ => rw [hgeo] at hg; cases hg
  | Point _ => rw [hgeo] at hg; cases hg
  | other => rw [hgeo] at hg; cases hg

theorem analyse_polygonal_error (f : Feature) (id : String) (b : CityObject) (e : Err)
    (bs : List CityObject) (c : Coordinate)
    (hg : f.geometry.polygonal = true)
    (hid : f.properties.get "@id" = Json.str id)
    (hb : assign_type CityObject.new f.properties = Except.ok b)
    (hnull : b.type ≠ "null")
    (hl : generate_building_level b.type f.properties = Except.error e) :
    analyse_feature f bs c = Except.error e := by
  have hg' : (Json.str id).get_string = Except.ok id := rfl
  have hn : (b.type == "null") = false := by simpa using hnull
  unfold analyse_feature
  cases hgeo : f.geometry with
  | Polygon rings =>
    simp only [hid, hg', ok_bind, hb, hn, Bool.false_eq_true, ↓reduceIte, hl, error_bind]
  | MultiPolygon polys =>
    simp only [hid, hg', ok_bind, hb, hn, Bool.false_eq_true, ↓reduceIte, hl, error_bind]
  | LineString _ => rw [hgeo] at hg; cases hg
  | MultiLineString _ => rw [hgeo] at hg; cases hg
  | Point _ => rw [hgeo] at hg; cases hg
  | other => rw [hgeo] at hg; cases hg

theorem not_renderable_null : ¬ renderable "null" := by
  unfold renderable
  decide

theorem appended_nil_of_not_renderable (b : CityObject) (new : List CityObject)
    (h : ∀ o ∈ new, o.type = b.type ∧ check_valid_type o = true)
    (hb : ¬ renderable b.type) : new = [] := by
  cases new with
  | nil => rfl
  | cons o t =>
    obtain ⟨h1, h2⟩ := h o (List.mem_cons_self o t)
    rw [check_valid_type_iff, h1] at h2
    exact absurd h2 hb

/-- C17: for a `Polygon` or `MultiPolygon` feature whose identifier is a string and whose
tags are classified as the object `b`: when the type of `b` is `null`, `data_analysis`
returns and appends nothing; when the level is computed, `data_analysis` returns, every
object it appends has the type of `b`, which is in the renderable set, and it appends
nothing when that type is not renderable; and whatever `data_analysis` returns has these
two properties. -/
theorem data_analysis_polygon_renderable (f : Feature) (id : String) (b : CityObject)
    (bs : List CityObject) (c : Coordinate)
    (hg : f.geometry.polygonal = true)
    (hid : f.properties.get "@id" = Json.str id)
    (hb : assign_type CityObject.new f.properties = Except.ok b) :
    (b.type = "null" → data_analysis [f] bs c = Except.ok (bs, c)) ∧
    (∀ l, generate_building_level b.type f.properties = Except.ok l →
      ∃ new box, data_analysis [f] bs c = Except.ok (bs ++ new, box) ∧
        (∀ o ∈ new, o.type = b.type ∧ renderable o.type) ∧
        (¬ renderable b.type → new = [])) ∧
    (∀ out box, data_analysis [f] bs c = Except.ok (out, box) →
      ∃ new, out = bs ++ new ∧ (∀ o ∈ new, o.type = b.type ∧ renderable o.type) ∧
        (¬ renderable b.type → new = [])) := by
  have key : ∀ l, generate_building_level b.type f.properties = Except.ok l →
      ∃ new box, data_analysis [f] bs c = Except.ok (bs ++ new, box) ∧
        (∀ o ∈ new, o.type = b.type ∧ renderable o.type) ∧
        (¬ renderable b.type → new = []) := by
    intro l hl
    by_cases hnull : b.type = "null"
    · refine ⟨[], c, ?_, by simp, fun _ => rfl⟩
      rw [data_analysis_singleton, analyse_polygonal_null f id b bs c hg hid hb hnull,
        List.append_nil]
    · obtain ⟨new, box, h1, h2⟩ := analyse_polygonal f id b l bs c hg hid hb hnull hl
      refine ⟨new, box, by rw [data_analysis_singleton, h1], ?_,
        appended_nil_of_not_renderable b new h2⟩
      intro o ho
      exact ⟨(h2 o ho).1, (check_valid_type_iff o).1 (h2 o ho).2⟩
  refine ⟨?_, key, ?_⟩
  · intro hnull
    rw [data_analysis_singleton, analyse_polygonal_null f id b bs c hg hid hb hnull]
  · intro out box hout
    by_cases hnull : b.type = "null"
    · rw [data_analysis_singleton, analyse_polygonal_null f id b bs c hg hid hb hnull] at hout
      have h1 : bs = out := congrArg Prod.fst (Except.ok.inj hout)
      exact ⟨[], by rw [← h1, List.append_nil], by simp, fun _ => rfl⟩
    · cases hl : generate_building_level b.type f.properties with
      | error e =>
        rw [data_analysis_singleton,
          analyse_polygonal_error f id b e bs c hg hid hb hnull hl] at hout
        cases hout
      | ok l =>
        obtain ⟨new, box1, h1, h2, h3⟩ := key l hl
        rw [h1] at hout
        have h4 : bs ++ new = out := congrArg Prod.fst (Except.ok.inj hout)
        exact ⟨new, h4.symm, h2, h3⟩

/-- C17, witness: the polygon `industrial_area` is classified as `industrial`, which is not
renderable, and `data_analysis` appends nothing. -/
theorem data_analysis_polygon_renderable_witness :
    ¬ renderable "industrial" ∧
    ∃ new box, data_analysis [industrial_area] [] Coordinate.new =
        Except.ok ([] ++ new, box) ∧ new = [] := by
  have hr : ¬ renderable "industrial" := by unfold renderable; decide
  obtain ⟨new, box, h1, _, h3⟩ :=
    (data_analysis_polygon_renderable industrial_area "way/9"
      { CityObject.new with type := "industrial" } [] Coordinate.new rfl rfl
      (by with_unfolding_all rfl)).2.1 1 (by with_unfolding_all rfl)
  exact ⟨hr, new, box, h1, h3 hr⟩

/-! ## Lines -/

theorem increment_ok (cont : Nat) (h : (cont : Int) < INT_MAX) :
    increment cont = Except.ok (cont + 1) := by
  simp only [increment, h, ↓reduceIte]
  rfl

/-- A loop over segments whose body, below `INT_MAX`, counts the segment and appends one
object made from the counter and the segment. -/
theorem segment_fold_push (body : LineState → Point × Point → Except Err LineState)
    (mk : Nat → Point × Point → CityObject) (upd : Coordinate → Point × Point → Coordinate)
    (hbody : ∀ st seg, (st.cont : Int) < INT_MAX →
      body st seg = Except.ok
        { cont := st.cont + 1, all_buildings := st.all_buildings ++ [mk st.cont seg],
          class_coord := upd st.class_coord seg })
    (segs : List (Point × Point)) (st : LineState)
    (h : (st.cont : Int) + segs.length ≤ INT_MAX) :
    segs.foldlM body st = Except.ok
      { cont := st.cont + segs.length
        all_buildings := st.all_buildings ++ (segs.enumFrom st.cont).map (fun p => mk p.1 p.2)
        class_coord := segs.foldl upd st.class_coord } := by
  induction segs generalizing st with
  | nil => simp [List.foldlM]; rfl
  | cons seg segs ih =>
    have h1 : (st.cont : Int) < INT_MAX := by
      simp only [List.length_cons, Nat.cast_add, Nat.cast_one] at h; omega
    rw [List.foldlM_cons, hbody st seg h1, ok_bind, ih]
    · simp only [List.length_cons, List.enumFrom_cons, List.map_cons, List.foldl_cons,
        List.append_assoc, List.singleton_append]
      congr 2
      omega
    · simp only [List.length_cons, Nat.cast_add, Nat.cast_one] at h ⊢; omega

theorem line_string_segment_highway (id : String) (properties : Props) (st : LineState)
    (seg : Point × Point) (hh : (properties.get "highway").empty = false)
    (hc : (st.cont : Int) < INT_MAX) :
    line_string_segment id properties st seg = Except.ok
      { cont := st.cont + 1
        all_buildings := st.all_buildings ++
          [line_object id (if check_pedestrian properties then "pedestrian" else "highway")
            st.cont seg]
        class_coord := ribbon_box (5 / 100000) st.class_coord seg } := by
  simp only [line_string_segment, increment_ok st.cont hc, ok_bind, hh, Bool.not_false,
    ↓reduceIte]
  rfl

theorem line_string_segment_natural (id : String) (properties : Props) (st : LineState)
    (seg : Point × Point) (natural : String)
    (hh : (properties.get "highway").empty = true)
    (hn : properties.get "natural" = Json.str natural)
    (hc : (st.cont : Int) < INT_MAX) :
    line_string_segment id properties st seg = Except.ok
      { cont := st.cont + 1
        all_buildings := st.all_buildings ++ [line_object id natural st.cont seg]
        class_coord := ribbon_box (5 / 100000) st.class_coord seg } := by
  have he : (Json.str natural).empty = false := rfl
  have hg : (Json.str natural).get_string = Except.ok natural := rfl
  simp only [line_string_segment, increment_ok st.cont hc, ok_bind, hh, hn, he, hg,
    Bool.not_true, Bool.not_false, Bool.false_eq_true, ↓reduceIte]
  rfl

theorem line_string_segment_skip (id : String) (properties : Props) (st : LineState)
    (seg : Point × Point)
    (hh : (properties.get "highway").empty = true)
    (hn : (properties.get "natural").empty = true)
    (hc : (st.cont : Int) < INT_MAX) :
    line_string_segment id properties st seg = Except.ok { st with cont := st.cont + 1 } := by
  simp only [line_string_segment, increment_ok st.cont hc, ok_bind, hh, hn,
    Bool.not_true, Bool.false_eq_true, ↓reduceIte]
  rfl

theorem analyse_line_string (f : Feature) (line : List Point) (id : String)
    (bs : List CityObject) (c : Coordinate)
    (hg : f.geometry = Geometry.LineString line)
    (hid : f.properties.get "@id" = Json.str id)
    (hne : line ≠ []) :
    analyse_feature f bs c =
      (line.zip line.tail).foldlM (line_string_segment (replace_slash id) f.properties)
          { cont := 0, all_buildings := bs, class_coord := c } >>=
        fun st => Except.ok (st.all_buildings, st.class_coord) := by
  have hg' : (Json.str id).get_string = Except.ok id := rfl
  unfold analyse_feature
  simp only [hid, hg', ok_bind, hg]
  cases line with
  | nil => exact absurd rfl hne
  | cons p ps => rfl

theorem digitChar_digit (k : Nat) (h : k < 10) :
    (Nat.digitChar k).isDigit = true ∧ digit_value (Nat.digitChar k) = k := by
  interval_cases k <;> exact ⟨rfl, rfl⟩

theorem digits_value_foldl (ds : List Char) (a : Nat) :
    ds.foldl (fun acc c => 10 * acc + digit_value c) a = a * 10 ^ ds.length + digits_value ds := by
  induction ds generalizing a with
  | nil => simp [digits_value]
  | cons d ds ih =>
    simp only [List.foldl_cons, digits_value, List.length_cons]
    rw [ih, ih (10 * 0 + digit_value d)]
    ring

theorem digits_value_cons (d : Char) (ds : List Char) :
    digits_value (d :: ds) = digit_value d * 10 ^ ds.length + digits_value ds := by
  rw [digits_value, List.foldl_cons, digits_value_foldl]
  simp

theorem toDigitsCore_value (fuel n : Nat) (ds : List Char) (h : n < fuel) :
    digits_value (Nat.toDigitsCore 10 fuel n ds) = n * 10 ^ ds.length + digits_value ds := by
  induction fuel generalizing n ds with
  | zero => omega
  | succ fuel ih =>
    rw [Nat.toDigitsCore]
    split
    · rename_i h0
      rw [digits_value_cons, (digitChar_digit (n % 10) (Nat.mod_lt _ (by norm_num))).2]
      have : n % 10 = n := by omega
      rw [this]
    · rename_i h0
      rw [ih (n / 10) _ (by omega), digits_value_cons,
        (digitChar_digit (n % 10) (Nat.mod_lt _ (by norm_num))).2, List.length_cons, pow_succ]
      have h10 : n = 10 * (n / 10) + n % 10 := (Nat.div_add_mod n 10).symm
      conv_rhs => rw [h10]
      ring

theorem toDigitsCore_digits (fuel n : Nat) (ds : List Char)
    (h : ∀ c ∈ ds, c.isDigit = true) :
    ∀ c ∈ Nat.toDigitsCore 10 fuel n ds, c.isDigit = true := by
  induction fuel generalizing n ds with
  | zero => simpa [Nat.toDigitsCore] using h
  | succ fuel ih =>
    have hd : ∀ c ∈ Nat.digitChar (n % 10) :: ds, c.isDigit = true := by
      intro c hc
      rcases List.mem_cons.1 hc with rfl | hc
      · exact (digitChar_digit (n % 10) (Nat.mod_lt _ (by norm_num))).1
      · exact h c hc
    rw [Nat.toDigitsCore]
    split
    · exact hd
    · exact ih _ _ hd

theorem to_string_toList (n : Nat) : (to_string n).toList = Nat.toDigits 10 n := rfl

theorem to_string_digits (n : Nat) : ∀ c ∈ (to_string n).toList, c.isDigit = true := by
  rw [to_string_toList]
  exact toDigitsCore_digits _ _ _ (by simp)

theorem to_string_value (n : Nat) : digits_value (to_string n).toList = n := by
  rw [to_string_toList, Nat.toDigits, toDigitsCore_value _ _ _ (Nat.lt_succ_self n)]
  simp [digits_value]

theorem to_string_injective (m n : Nat) (h : to_string m = to_string n) : m = n := by
  rw [← to_string_value m, ← to_string_value n, h]

theorem digit_extension_of_append (a t : List Char) (ht : ∀ c ∈ t, c.isDigit = true) :
    digit_extension a (a ++ t) = true := by
  simp only [digit_extension, Bool.and_eq_true, List.all_eq_true, List.drop_left]
  exact ⟨List.isPrefixOf_iff_prefix.2 (List.prefix_append a t), ht⟩

theorem line_name_eq (a b : String) (i j : Nat)
    (h : "line_" ++ a ++ to_string i = "line_" ++ b ++ to_string j) :
    a.toList ++ (to_string i).toList = b.toList ++ (to_string j).toList := by
  have h1 := congrArg String.data h
  simp only [String.data_append, List.append_assoc] at h1
  exact List.append_cancel_left h1

/-- Two names built from the same identifier are equal only for the same counter. -/
theorem line_name_injective (id : String) (i j : Nat)
    (h : "line_" ++ id ++ to_string i = "line_" ++ id ++ to_string j) : i = j := by
  have h1 := List.append_cancel_left (line_name_eq id id i j h)
  exact to_string_injective i j (String.ext h1)

/-- Two names built from independent identifiers are different. -/
theorem line_name_ne (a b : String) (i j : Nat) (h : independent_ids a b = true) :
    "line_" ++ a ++ to_string i ≠ "line_" ++ b ++ to_string j := by
  intro heq
  have h1 := line_name_eq a b i j heq
  simp only [independent_ids, Bool.and_eq_true, Bool.not_eq_true'] at h
  rcases List.append_eq_append_iff.1 h1 with ⟨t, hb, hi⟩ | ⟨t, ha, hj⟩
  · have ht : ∀ c ∈ t, c.isDigit = true := fun c hc =>
      to_string_digits i c (by rw [hi]; exact List.mem_append_left _ hc)
    have := digit_extension_of_append a.toList t ht
    rw [← hb, h.1] at this
    exact Bool.false_ne_true this
  · have ht : ∀ c ∈ t, c.isDigit = true := fun c hc =>
      to_string_digits j c (by rw [hj]; exact List.mem_append_left _ hc)
    have := digit_extension_of_append b.toList t ht
    rw [← ha, h.2] at this
    exact Bool.false_ne_true this

theorem line_string_segment_name (id : String) (properties : Props) (st st1 : LineState)
    (seg : Point × Point) (h : line_string_segment id properties st seg = Except.ok st1) :
    st1.cont = st.cont + 1 ∧
    (st1.all_buildings = st.all_buildings ∨
      ∃ o, st1.all_buildings = st.all_buildings ++ [o] ∧
        o.name = "line_" ++ id ++ to_string st.cont) := by
  by_cases hc : (st.cont : Int) < INT_MAX
  · by_cases hh : (properties.get "highway").empty = false
    · rw [line_string_segment_highway id properties st seg hh hc] at h
      have h1 := Except.ok.inj h
      subst h1
      exact ⟨rfl, Or.inr ⟨_, rfl, rfl⟩⟩
    · have hh' : (properties.get "highway").empty = true := by simpa using hh
      by_cases hn : (properties.get "natural").empty = true
      · rw [line_string_segment_skip id properties st seg hh' hn hc] at h
        have h1 := Except.ok.inj h
        subst h1
        exact ⟨rfl, Or.inl rfl⟩
      · cases hv : properties.get "natural" with
        | str s =>
          rw [line_string_segment_natural id properties st seg s hh' hv hc] at h
          have h1 := Except.ok.inj h
          subst h1
          exact ⟨rfl, Or.inr ⟨_, rfl, rfl⟩⟩
        | null => rw [hv] at hn; exact absurd rfl hn
        | bool b =>
          simp only [line_string_segment, increment_ok st.cont hc, ok_bind, hh', hv,
            Bool.not_true, Bool.false_eq_true, ↓reduceIte] at h
          cases h
        | num q =>
          simp only [line_string_segment, increment_ok st.cont hc, ok_bind, hh', hv,
            Bool.not_true, Bool.false_eq_true, ↓reduceIte] at h
          cases h
        | arr l =>
          simp only [line_string_segment, increment_ok st.cont hc, ok_bind, hh', hv,
            Bool.not_true, Bool.false_eq_true, ↓reduceIte] at h
          split at h
          · cases h
          · cases h; exact ⟨rfl, Or.inl rfl⟩
        | obj l =>
          simp only [line_string_segment, increment_ok st.cont hc, ok_bind, hh', hv,
            Bool.not_true, Bool.false_eq_true, ↓reduceIte] at h
          split at h
          · cases h
          · cases h; exact ⟨rfl, Or.inl rfl⟩
  · have hi : increment st.cont = Except.error Err.undefined_behaviour := by
      simp only [increment, hc, ↓reduceIte]
    simp only [line_string_segment, hi, error_bind] at h
    cases h

theorem line_string_fold_names (id : String) (properties : Props)
    (segs : List (Point × Point)) (st st1 : LineState)
    (h : segs.foldlM (line_string_segment id properties) st = Except.ok st1) :
    ∃ new, st1.all_buildings = st.all_buildings ++ new ∧
      List.Sublist (new.map CityObject.name)
        ((List.range' st.cont segs.length).map (fun i => "line_" ++ id ++ to_string i)) := by
  induction segs generalizing st with
  | nil =>
    have h1 : st = st1 := Except.ok.inj h
    subst h1
    exact ⟨[], by simp, by simp⟩
  | cons seg segs ih =>
    rw [List.foldlM_cons] at h
    cases hb : line_string_segment id properties st seg with
    | error e => rw [hb] at h; cases h
    | ok st2 =>
      rw [hb, ok_bind] at h
      obtain ⟨hcont, hall⟩ := line_string_segment_name id properties st st2 seg hb
      obtain ⟨new, hnew, hsub⟩ := ih st2 h
      rw [hcont] at hsub
      simp only [List.length_cons, List.range'_succ, List.map_cons]
      rcases hall with hall | ⟨o, hall, hname⟩
      · exact ⟨new, by rw [hnew, hall], List.Sublist.cons _ hsub⟩
      · refine ⟨o :: new, by rw [hnew, hall]; simp, ?_⟩
        rw [List.map_cons, hname]
        exact List.Sublist.cons₂ _ hsub

theorem line_names_nodup (id : String) (s n : Nat) :
    ((List.range' s n).map (fun i => "line_" ++ id ++ to_string i)).Nodup :=
  (List.nodup_range' s n).map (fun i j h => line_name_injective id i j h)

/-- What `analyse_feature` returns for a `LineString` is the result of the loop over its
segments. -/
theorem analyse_line_string_ok (f : Feature) (line : List Point) (id : String)
    (bs out : List CityObject) (c box : Coordinate)
    (hg : f.geometry = Geometry.LineString line)
    (hid : f.properties.get "@id" = Json.str id)
    (h : analyse_feature f bs c = Except.ok (out, box)) :
    ∃ st1, (line.zip line.tail).foldlM (line_string_segment (replace_slash id) f.properties)
        { cont := 0, all_buildings := bs, class_coord := c } = Except.ok st1 ∧
      st1.all_buildings = out := by
  cases line with
  | nil =>
    have hg' : (Json.str id).get_string = Except.ok id := rfl
    unfold analyse_feature at h
    simp only [hid, hg', ok_bind, hg, segment_loop, error_bind] at h
    cases h
  | cons p ps =>
    rw [analyse_line_string f (p :: ps) id bs c hg hid (by simp)] at h
    cases hf : ((p :: ps).zip (p :: ps).tail).foldlM
        (line_string_segment (replace_slash id) f.properties)
        { cont := 0, all_buildings := bs, class_coord := c } with
    | error e => rw [hf] at h; cases h
    | ok st1 =>
      rw [hf, ok_bind] at h
      exact ⟨st1, rfl, congrArg Prod.fst (Except.ok.inj h)⟩

/-- The names of the objects that `analyse_feature` appends for a `LineString`. -/
theorem analyse_line_string_names (f : Feature) (line : List Point) (id : String)
    (bs new : List CityObject) (c box : Coordinate)
    (hg : f.geometry = Geometry.LineString line)
    (hid : f.properties.get "@id" = Json.str id)
    (h : analyse_feature f bs c = Except.ok (bs ++ new, box)) :
    List.Sublist (new.map CityObject.name)
      ((List.range' 0 (line.zip line.tail).length).map
        (fun i => "line_" ++ replace_slash id ++ to_string i)) := by
  obtain ⟨st1, hfold, hout⟩ := analyse_line_string_ok f line id bs _ c box hg hid h
  obtain ⟨new1, hnew, hsub⟩ := line_string_fold_names _ _ _ _ _ hfold
  rw [hout] at hnew
  have : new = new1 := List.append_cancel_left hnew
  rw [this]
  exact hsub

/-- C19, as amended: the objects that `data_analysis` appends for one `LineString` feature
have pairwise distinct names; and two objects appended for two `LineString` features have
different names when the identifiers of the features, after the replacement of `/` by `_`,
are independent: neither is the other followed by decimal digits, possibly none. -/
theorem line_string_names_distinct (f1 f2 : Feature) (line1 line2 : List Point)
    (id1 id2 : String) (bs1 bs2 new1 new2 : List CityObject) (c1 c2 box1 box2 : Coordinate)
    (hg1 : f1.geometry = Geometry.LineString line1)
    (hg2 : f2.geometry = Geometry.LineString line2)
    (hid1 : f1.properties.get "@id" = Json.str id1)
    (hid2 : f2.properties.get "@id" = Json.str id2)
    (h1 : data_analysis [f1] bs1 c1 = Except.ok (bs1 ++ new1, box1))
    (h2 : data_analysis [f2] bs2 c2 = Except.ok (bs2 ++ new2, box2)) :
    (new1.map CityObject.name).Nodup ∧
    (independent_ids (replace_slash id1) (replace_slash id2) = true →
      ∀ o1 ∈ new1, ∀ o2 ∈ new2, o1.name ≠ o2.name) := by
  rw [data_analysis_singleton] at h1 h2
  have s1 := analyse_line_string_names f1 line1 id1 bs1 new1 c1 box1 hg1 hid1 h1
  have s2 := analyse_line_string_names f2 line2 id2 bs2 new2 c2 box2 hg2 hid2 h2
  refine ⟨s1.nodup (line_names_nodup _ _ _), ?_⟩
  intro hind o1 ho1 o2 ho2
  have m1 := s1.subset (List.mem_map_of_mem CityObject.name ho1)
  have m2 := s2.subset (List.mem_map_of_mem CityObject.name ho2)
  rw [List.mem_map] at m1 m2
  obtain ⟨i, _, hi⟩ := m1
  obtain ⟨j, _, hj⟩ := m2
  rw [← hi, ← hj]
  exact line_name_ne _ _ i j hind

theorem analyse_line_string_highway (f : Feature) (line : List Point) (id : String)
    (bs : List CityObject) (c : Coordinate)
    (hg : f.geometry = Geometry.LineString line)
    (hid : f.properties.get "@id" = Json.str id)
    (hne : line ≠ []) (hmax : ((line.zip line.tail).length : Int) ≤ INT_MAX)
    (hh : (f.properties.get "highway").empty = false) :
    analyse_feature f bs c = Except.ok
      (bs ++ ((line.zip line.tail).enumFrom 0).map (fun p =>
          line_object (replace_slash id)
            (if check_pedestrian f.properties then "pedestrian" else "highway") p.1 p.2),
       (line.zip line.tail).foldl (ribbon_box (5 / 100000)) c) := by
  rw [analyse_line_string f line id bs c hg hid hne,
    segment_fold_push (line_string_segment (replace_slash id) f.properties)
      (line_object (replace_slash id)
        (if check_pedestrian f.properties then "pedestrian" else "highway"))
      (ribbon_box (5 / 100000))
      (fun st seg hc => line_string_segment_highway (replace_slash id) f.properties st seg
        hh hc) _ _ (by simpa using hmax), ok_bind]

theorem analyse_line_string_natural (f : Feature) (line : List Point) (id s : String)
    (bs : List CityObject) (c : Coordinate)
    (hg : f.geometry = Geometry.LineString line)
    (hid : f.properties.get "@id" = Json.str id)
    (hne : line ≠ []) (hmax : ((line.zip line.tail).length : Int) ≤ INT_MAX)
    (hh : (f.properties.get "highway").empty = true)
    (hs : f.properties.get "natural" = Json.str s) :
    analyse_feature f bs c = Except.ok
      (bs ++ ((line.zip line.tail).enumFrom 0).map (fun p =>
          line_object (replace_slash id) s p.1 p.2),
       (line.zip line.tail).foldl (ribbon_box (5 / 100000)) c) := by
  rw [analyse_line_string f line id bs c hg hid hne,
    segment_fold_push (line_string_segment (replace_slash id) f.properties)
      (line_object (replace_slash id) s) (ribbon_box (5 / 100000))
      (fun st seg hc => line_string_segment_natural (replace_slash id) f.properties st seg
        s hh hs hc) _ _ (by simpa using hmax), ok_bind]

/-- C19, witness: the footway `long_path` (`way/1`) and the line `tree_row` (`way/2`) have
independent identifiers; the eleven objects of the first have distinct names, and none of
them has the name of one of the two objects of the second. -/
theorem line_string_names_distinct_witness :
    ∃ new1 new2 box1 box2,
      data_analysis [long_path] [] Coordinate.new = Except.ok ([] ++ new1, box1) ∧
      data_analysis [tree_row] [] Coordinate.new = Except.ok ([] ++ new2, box2) ∧
      new1.length = 11 ∧ new2.length = 2 ∧
      (new1.map CityObject.name).Nodup ∧ ∀ o1 ∈ new1, ∀ o2 ∈ new2, o1.name ≠ o2.name := by
  have h1 := (data_analysis_singleton long_path [] Coordinate.new).trans
    (analyse_line_string_highway long_path _ "way/1" [] Coordinate.new rfl rfl
      (by simp) (by with_unfolding_all decide) rfl)
  have h2 := (data_analysis_singleton tree_row [] Coordinate.new).trans
    (analyse_line_string_natural tree_row _ "way/2" "tree_row" [] Coordinate.new rfl rfl
      (by simp) (by with_unfolding_all decide) rfl rfl)
  have h := line_string_names_distinct long_path tree_row _ _ "way/1" "way/2" [] [] _ _
    Coordinate.new Coordinate.new _ _ rfl rfl rfl rfl h1 h2
  exact ⟨_, _, _, _, h1, h2, rfl, rfl, h.1, h.2 (by with_unfolding_all decide)⟩

/-- C19, counterexample: the features `long_path` and `short_road` have the distinct
identifiers `way/1` and `way/11`; the eleventh segment of the first (counter 10) and the
only segment of the second (counter 0) are both named `line_way_110`. -/
theorem line_string_names_collide :
    "way/1" ≠ "way/11" ∧
    ∃ out box, data_analysis [long_path, short_road] [] Coordinate.new = Except.ok (out, box) ∧
      out.map CityObject.name =
        ["line_way_10", "line_way_11", "line_way_12", "line_way_13", "line_way_14",
         "line_way_15", "line_way_16", "line_way_17", "line_way_18", "line_way_19",
         "line_way_110", "line_way_110"] ∧
      ¬ (out.map CityObject.name).Nodup := by
  refine ⟨by decide, ?_⟩
  have h : (data_analysis [long_path, short_road] [] Coordinate.new).map
      (fun out => out.1.map CityObject.name) =
      Except.ok
        ["line_way_10", "line_way_11", "line_way_12", "line_way_13", "line_way_14",
         "line_way_15", "line_way_16", "line_way_17", "line_way_18", "line_way_19",
         "line_way_110", "line_way_110"] := by
    with_unfolding_all exact rfl
  cases hd : data_analysis [long_path, short_road] [] Coordinate.new with
  | error e => rw [hd] at h; cases h
  | ok out =>
    rw [hd] at h
    have hnames : out.1.map CityObject.name = _ := Except.ok.inj h
    refine ⟨out.1, out.2, rfl, hnames, ?_⟩
    rw [hnames]
    decide

/-! ## Trees -/

theorem eq_str_of_empty (j : Json) (s : String) (h : j.empty = true) : j.eq_str s = false := by
  cases j <;> first | rfl | (simp [Json.empty] at h)

theorem tree_species_block (point : CityObject) (properties : Props)
    (all_buildings : List CityObject)
    (htype : string_or_no_tag properties "type")
    (hgenus : string_or_no_tag properties "genus") :
    (if !(properties.get "type").empty then do
        let type_tree ← (properties.get "type").get_string
        (if type_tree == "palm" then
          pure (all_buildings ++ [{ point with type := "palm" }])
        else if type_tree == "pine" then
          pure (all_buildings ++ [{ point with type := "pine" }])
        else if type_tree == "cypress" then
          pure (all_buildings ++ [{ point with type := "cypress" }])
        else
          pure (all_buildings ++ [{ point with type := "standard" }]))
      else if !(properties.get "tree").empty then
        pure (all_buildings ++ [{ point with type := "standard" }])
      else if !(properties.get "genus").empty then do
        let genus_tree ← (properties.get "genus").get_string
        (if genus_tree == "Quercus" then
          pure (all_buildings ++ [{ point with type := "oak" }])
        else if genus_tree == "Cupressus" then
          pure (all_buildings ++ [{ point with type := "cypress" }])
        else if genus_tree == "Pinus" then
          pure (all_buildings ++ [{ point with type := "pine" }])
        else
          pure (all_buildings ++ [{ point with type := "standard" }]))
      else
        pure (all_buildings ++ [{ point with type := "standard" }]) :
        Except Err (List CityObject)) =
      Except.ok (all_buildings ++ [{ point with type := tree_species properties }]) := by
  unfold tree_species
  rcases htype with ht | ⟨t, ht⟩
  · have ht' : (properties.get "type").empty = true := ht
    simp only [ht', Bool.not_true, Bool.false_eq_true, ↓reduceIte]
    by_cases htr : (properties.get "tree").empty = true
    · simp only [htr, Bool.not_true, Bool.false_eq_true, ↓reduceIte]
      rcases hgenus with hg | ⟨g, hg⟩
      · have hg' : (properties.get "genus").empty = true := hg
        simp only [hg', Bool.not_true, Bool.false_eq_true, ↓reduceIte]
        rfl
      · have he : (Json.str g).empty = false := rfl
        have hs : (Json.str g).get_string = Except.ok g := rfl
        simp only [hg, he, hs, ok_bind, Bool.not_false, ↓reduceIte, Json.eq_str]
        split
        · rfl
        · split
          · rfl
          · split <;> rfl
    · have htr' : (properties.get "tree").empty = false := by simpa using htr
      simp only [htr', Bool.not_false, ↓reduceIte]
      rfl
  · have he : (Json.str t).empty = false := rfl
    have hs : (Json.str t).get_string = Except.ok t := rfl
    simp only [ht, he, hs, ok_bind, Bool.not_false, ↓reduceIte, Json.eq_str]
    split
    · rfl
    · split
      · rfl
      · split <;> rfl

/-- C20: for a tag map whose `natural`, `type` and `genus` tags are each missing or a
string, `assign_tree_type` returns; it appends exactly one object, the point with the
species of `tree_species` as type, when `natural` is `tree`, and nothing otherwise. -/
theorem assign_tree_type_species (point : CityObject) (properties : Props)
    (all_buildings : List CityObject)
    (hnat : string_or_no_tag properties "natural")
    (htype : string_or_no_tag properties "type")
    (hgenus : string_or_no_tag properties "genus") :
    assign_tree_type point properties all_buildings =
      Except.ok
        (if (properties.get "natural").eq_str "tree" then
          all_buildings ++ [{ point with type := tree_species properties }]
        else all_buildings) := by
  unfold assign_tree_type
  rcases hnat with hn | ⟨n, hn⟩
  · have hn' : (properties.get "natural").empty = true := hn
    simp only [hn', Bool.not_true, Bool.false_eq_true, ↓reduceIte,
      eq_str_of_empty _ "tree" hn']
    rfl
  · have he : (Json.str n).empty = false := rfl
    have hs : (Json.str n).get_string = Except.ok n := rfl
    simp only [hn, he, hs, ok_bind, Bool.not_false, ↓reduceIte, Json.eq_str]
    by_cases htree : (n == "tree") = true
    · simp only [htree, ↓reduceIte]
      exact tree_species_block point properties all_buildings htype hgenus
    · simp only [htree, Bool.false_eq_true, ↓reduceIte]
      rfl

/-- C20, witness: the tags of `pine_tree` have `natural` = `tree`, no `type` and no `tree`
tag, and the genus `Pinus`: one object of type `pine` is appended. -/
theorem assign_tree_type_species_witness :
    assign_tree_type CityObject.new pine_tree.properties [] =
      Except.ok ([] ++ [{ CityObject.new with type := "pine" }]) :=
  assign_tree_type_species CityObject.new pine_tree.properties []
    (Or.inr ⟨"tree", rfl⟩) (Or.inl rfl) (Or.inr ⟨"Pinus", rfl⟩)

/-! ## Mesh building: the loop over the indices of a triangulation -/

theorem triangle_loop_from_returns (indices : List Int) (h : 2 ≤ indices.length)
    (fuel k : Nat) (triangles : List (Int × Int × Int))
    (hfuel : 1 ≤ fuel) (hk : indices.length ≤ k + 3 * (fuel - 1) + 2) :
    ∃ ts, triangle_loop_from indices fuel k triangles = Except.ok ts := by
  induction fuel generalizing k triangles with
  | zero => omega
  | succ fuel ih =>
    rw [triangle_loop_from]
    have hb : ¬ indices.length < 2 := by omega
    simp only [hb, ↓reduceIte]
    by_cases hlt : k < indices.length - 2
    · simp only [hlt, ↓reduceIte]
      have h0 : k < indices.length := by omega
      have h1 : k + 1 < indices.length := by omega
      have h2 : k + 2 < indices.length := by omega
      rw [List.getElem?_eq_getElem h0, List.getElem?_eq_getElem h1,
        List.getElem?_eq_getElem h2]
      simp only
      exact ih (k + 3) _ (by omega) (by omega)
    · simp only [hlt, ↓reduceIte]
      exact ⟨triangles, rfl⟩

theorem triangle_loop_returns (indices : List Int) (h : 2 ≤ indices.length) :
    ∃ ts, triangle_loop indices = Except.ok ts :=
  triangle_loop_from_returns indices h _ 0 [] (by omega) (by simp; omega)

/-! ## Mesh building: the objects of an element -/

/-- The objects of an element, once the loop over the indices of the floor and the block of
the roof have returned. -/
theorem polygonal_element_eq (earcut : List (List NewPoint) → List Int) (element : CityObject)
    (ts : List (Int × Int × Int)) (roofs : Option SceneObject × Option SceneObject)
    (ht : triangle_loop (earcut (element_polygon element)) = Except.ok ts)
    (hr : roof_objects earcut element (effective_type_roof element) = Except.ok roofs) :
    ∃ m, polygonal_element earcut element = Except.ok m ∧
      m.build2 =
        (if element.type == "building" then
          some (wall_object element (element_historic element) (element_level element)
            (get_color element.type (check_grass_type element.type))
            (element_positions element))
        else none) ∧
      m.roof = roofs.1 ∧ m.roof2 = roofs.2 ∧
      m.build.material.color =
        (floor_colour element (element_type_roof element) (element_historic element)
          (element_level element) (add_complete_object element.name)).2.material.color ∧
      m.build.shape.positions = element_positions element ∧
      m.build.shape.triangles = ts := by
  unfold effective_type_roof at hr
  unfold polygonal_element
  simp only [ht, hr, ok_bind]
  refine ⟨_, rfl, rfl, rfl, rfl, ?_, rfl, rfl⟩
  simp only
  split <;> split <;> rfl

/-! ## Classification: the fields other than the type -/

theorem pure_eq_ok {α : Type} (a : α) : (pure a : Except Err α) = Except.ok a := rfl

/-- What the statements that store the `building:colour` tag return. -/
theorem colour_block_fields (b b1 : CityObject) (p : Props)
    (h : (if (!(p.get "building:colour").empty) = true then
        (p.get "building:colour").get_string >>= fun build_colour =>
          (pure { b with colour := build_colour } : Except Err CityObject)
      else pure b) = Except.ok b1) :
    b1.type = b.type ∧ b1.roof_shape = b.roof_shape ∧ b1.roof_height = b.roof_height ∧
    b1.historic = b.historic ∧ (∀ c, p.get "building:colour" = Json.str c → b1.colour = c) := by
  cases hj : p.get "building:colour" with
  | str s =>
    have he : (Json.str s).empty = false := rfl
    have hg : (Json.str s).get_string = Except.ok s := rfl
    simp only [hj, he, hg, ok_bind, Bool.not_false, ↓reduceIte, pure_eq_ok] at h
    have h1 := Except.ok.inj h
    subst h1
    refine ⟨rfl, rfl, rfl, rfl, ?_⟩
    intro c hc
    exact Json.str.inj hc
  | null =>
    have he : Json.null.empty = true := rfl
    simp only [hj, he, Bool.not_true, Bool.false_eq_true, ↓reduceIte, pure_eq_ok] at h
    have h1 := Except.ok.inj h
    subst h1
    exact ⟨rfl, rfl, rfl, rfl, fun c hc => by cases hc⟩
  | bool v =>
    have he : (Json.bool v).empty = false := rfl
    have hg : (Json.bool v).get_string = Except.error Err.type_error := rfl
    simp only [hj, he, hg, error_bind, Bool.not_false, ↓reduceIte] at h
    cases h
  | num q =>
    have he : (Json.num q).empty = false := rfl
    have hg : (Json.num q).get_string = Except.error Err.type_error := rfl
    simp only [hj, he, hg, error_bind, Bool.not_false, ↓reduceIte] at h
    cases h
  | arr l =>
    have hg : (Json.arr l).get_string = Except.error Err.type_error := rfl
    rw [hj, hg] at h
    split at h
    · cases h
    · have h1 := Except.ok.inj h
      subst h1
      exact ⟨rfl, rfl, rfl, rfl, fun c hc => by cases hc⟩
  | obj l =>
    have hg : (Json.obj l).get_string = Except.error Err.type_error := rfl
    rw [hj, hg] at h
    split at h
    · cases h
    · have h1 := Except.ok.inj h
      subst h1
      exact ⟨rfl, rfl, rfl, rfl, fun c hc => by cases hc⟩

theorem historic_block_fields (b b1 : CityObject) (p : Props)
    (h : historic_block b p = Except.ok b1) :
    b1.type = b.type ∧ b1.roof_shape = b.roof_shape ∧ b1.roof_height = b.roof_height ∧
    b1.historic = (if (p.get "historic").empty then b.historic else "yes") ∧
    ((p.get "historic").empty = true → b1.colour = b.colour) ∧
    ((p.get "historic").empty = false →
      ∀ c, p.get "building:colour" = Json.str c → b1.colour = c) := by
  unfold historic_block at h
  by_cases hh : (p.get "historic").empty = true
  · simp only [hh, Bool.not_true, Bool.false_eq_true, ↓reduceIte, pure_eq_ok] at h
    have h1 := Except.ok.inj h
    subst h1
    simp [hh]
  · have hh' : (p.get "historic").empty = false := by simpa using hh
    simp only [hh', Bool.not_false, ↓reduceIte] at h
    obtain ⟨k1, k2, k3, k4, k5⟩ := colour_block_fields { b with historic := "yes" } b1 p h
    simp only [hh', Bool.false_eq_true, ↓reduceIte]
    exact ⟨k1, k2, k3, k4, fun hc => (by cases hc), fun _ => k5⟩

theorem tourism_block_fields (b b1 : CityObject) (p : Props)
    (h : tourism_block b p = Except.ok b1) :
    b1.type = b.type ∧ b1.roof_shape = b.roof_shape ∧ b1.roof_height = b.roof_height ∧
    b1.historic = (if (p.get "tourism").eq_str "attraction" then "yes" else b.historic) ∧
    ((p.get "tourism").eq_str "attraction" = false → b1.colour = b.colour) ∧
    ((p.get "tourism").eq_str "attraction" = true →
      ∀ c, p.get "building:colour" = Json.str c → b1.colour = c) := by
  unfold tourism_block at h
  cases hj : p.get "tourism" with
  | str s =>
    have he : (Json.str s).empty = false := rfl
    have hg : (Json.str s).get_string = Except.ok s := rfl
    simp only [hj, he, hg, ok_bind, Bool.not_false, ↓reduceIte] at h
    simp only [Json.eq_str]
    by_cases hs : (s == "attraction") = true
    · simp only [hs, ↓reduceIte] at h ⊢
      obtain ⟨k1, k2, k3, k4, k5⟩ := colour_block_fields { b with historic := "yes" } b1 p h
      exact ⟨k1, k2, k3, k4, fun hc => (by cases hc), fun _ => k5⟩
    · simp only [hs, Bool.false_eq_true, ↓reduceIte, pure_eq_ok] at h ⊢
      have h1 := Except.ok.inj h
      subst h1
      exact ⟨rfl, rfl, rfl, rfl, fun _ => rfl, fun hc => absurd hc (by simp)⟩
  | null =>
    have he : Json.null.empty = true := rfl
    simp only [hj, he, Bool.not_true, Bool.false_eq_true, ↓reduceIte, pure_eq_ok] at h
    have h1 := Except.ok.inj h
    subst h1
    exact ⟨rfl, rfl, rfl, rfl, fun _ => rfl, fun hc => by cases hc⟩
  | bool v =>
    have he : (Json.bool v).empty = false := rfl
    have hg : (Json.bool v).get_string = Except.error Err.type_error := rfl
    simp only [hj, he, hg, error_bind, Bool.not_false, ↓reduceIte] at h
    cases h
  | num q =>
    have he : (Json.num q).empty = false := rfl
    have hg : (Json.num q).get_string = Except.error Err.type_error := rfl
    simp only [hj, he, hg, error_bind, Bool.not_false, ↓reduceIte] at h
    cases h
  | arr l =>
    have hg : (Json.arr l).get_string = Except.error Err.type_error := rfl
    rw [hj, hg] at h
    split at h
    · cases h
    · have h1 := Except.ok.inj h
      subst h1
      exact ⟨rfl, rfl, rfl, rfl, fun _ => rfl, fun hc => by cases hc⟩
  | obj l =>
    have hg : (Json.obj l).get_string = Except.error Err.type_error := rfl
    rw [hj, hg] at h
    split at h
    · cases h
    · have h1 := Except.ok.inj h
      subst h1
      exact ⟨rfl, rfl, rfl, rfl, fun _ => rfl, fun hc => by cases hc⟩

theorem roof_height_block_fields (b b1 : CityObject) (p : Props)
    (h : roof_height_block b p = Except.ok b1) :
    b1.type = b.type ∧ b1.roof_shape = b.roof_shape ∧ b1.historic = b.historic ∧
    b1.colour = b.colour ∧ ((p.get "roof:height").empty = true → b1.roof_height = b.roof_height) := by
  unfold roof_height_block at h
  by_cases hh : (p.get "roof:height").empty = true
  · simp only [hh, Bool.not_true, Bool.false_eq_true, ↓reduceIte, pure_eq_ok] at h
    have h1 := Except.ok.inj h
    subst h1
    exact ⟨rfl, rfl, rfl, rfl, fun _ => rfl⟩
  · have hh' : (p.get "roof:height").empty = false := by simpa using hh
    simp only [hh', Bool.not_false, ↓reduceIte] at h
    cases hg : (p.get "roof:height").get_string with
    | error e => rw [hg] at h; cases h
    | ok s =>
      rw [hg, ok_bind] at h
      cases hr : generate_roof_height s scale with
      | error e => rw [hr] at h; cases h
      | ok r =>
        rw [hr, ok_bind] at h
        have h1 := Except.ok.inj h
        subst h1
        exact ⟨rfl, rfl, rfl, rfl, fun hc => by rw [hh'] at hc; cases hc⟩

theorem roof_shape_block_fields (b b1 : CityObject) (p : Props)
    (h : roof_shape_block b p = Except.ok b1) :
    b1.type = b.type ∧ b1.roof_height = b.roof_height ∧ b1.historic = b.historic ∧
    b1.colour = b.colour ∧
    ((p.get "roof:shape").empty = true → b1.roof_shape = b.roof_shape) ∧
    (∀ s, p.get "roof:shape" = Json.str s →
      b1.roof_shape =
        (if s == "gabled" || s == "onion" || s == "pyramid" then "gabled"
         else if s == "flat" then "flat" else b.roof_shape)) := by
  unfold roof_shape_block at h
  by_cases hh : (p.get "roof:shape").empty = true
  · simp only [hh, Bool.not_true, Bool.false_eq_true, ↓reduceIte, pure_eq_ok] at h
    have h1 := Except.ok.inj h
    subst h1
    refine ⟨rfl, rfl, rfl, rfl, fun _ => rfl, ?_⟩
    intro s hs
    rw [hs] at hh
    cases hh
  · have hh' : (p.get "roof:shape").empty = false := by simpa using hh
    simp only [hh', Bool.not_false, ↓reduceIte] at h
    cases hg : (p.get "roof:shape").get_string with
    | error e => rw [hg] at h; cases h
    | ok s =>
      rw [hg, ok_bind] at h
      have h1 := Except.ok.inj h
      subst h1
      refine ⟨?_, ?_, ?_, ?_, fun hc => (by rw [hh'] at hc; cases hc), ?_⟩
      · split
        · rfl
        · split <;> rfl
      · split
        · rfl
        · split <;> rfl
      · split
        · rfl
        · split <;> rfl
      · split
        · rfl
        · split <;> rfl
      · intro s1 hs1
        rw [hs1] at hg
        have : s1 = s := Except.ok.inj hg
        subst this
        split
        · rfl
        · split <;> rfl

/-- The blocks of `assign_type` for a feature with a `building` tag, when it returns. -/
theorem assign_type_building_ok (b0 b : CityObject) (p : Props)
    (hb : (p.get "building").empty = false) (h : assign_type b0 p = Except.ok b) :
    ∃ b1 b2 b3, roof_shape_block { b0 with type := "building" } p = Except.ok b1 ∧
      roof_height_block b1 p = Except.ok b2 ∧ historic_block b2 p = Except.ok b3 ∧
      tourism_block b3 p = Except.ok b := by
  rw [assign_type_building b0 p hb] at h
  cases h1 : roof_shape_block { b0 with type := "building" } p with
  | error e => rw [h1] at h; cases h
  | ok b1 =>
    rw [h1, ok_bind] at h
    cases h2 : roof_height_block b1 p with
    | error e => rw [h2] at h; cases h
    | ok b2 =>
      rw [h2, ok_bind] at h
      cases h3 : historic_block b2 p with
      | error e => rw [h3] at h; cases h
      | ok b3 =>
        rw [h3, ok_bind] at h
        cases h4 : tourism_block b3 p with
        | error e => rw [h4] at h; cases h
        | ok b4 =>
          rw [h4, ok_bind] at h
          have : b4 = b := Except.ok.inj h
          subst this
          exact ⟨b1, b2, b3, rfl, h2, h3, h4⟩

/-! ## From a polygon feature to the element of the scene -/

theorem generate_new_coordinates_polygon (f : Feature) (outer : List Point)
    (holes : List (List Point)) (id : String) (b : CityObject) (l : Int) (box : Coordinate)
    (hg : f.geometry = Geometry.Polygon (outer :: holes))
    (hid : f.properties.get "@id" = Json.str id)
    (hb : assign_type CityObject.new f.properties = Except.ok b)
    (hv : check_valid_type b = true)
    (hl : generate_building_level b.type f.properties = Except.ok l)
    (hbox : outer.foldl (fun c coord => c.update coord.1 coord.2) Coordinate.new = box) :
    generate_new_coordinates [f] [] Coordinate.new = Except.ok
      [{ b with
          level := l, coords := outer, name := "building_" ++ replace_slash id, holes := holes,
          height := generate_height { b with level := l } scale,
          new_coords := outer.map (new_point box),
          new_holes := holes.map (fun list_hole => list_hole.map (new_point box)) }] := by
  rw [generate_new_coordinates, data_analysis_singleton,
    analyse_polygon f outer holes id b l [] Coordinate.new hg hid hb
      (check_valid_type_ne_null b hv) hl, hv, hbox]
  rfl

theorem square_box :
    [((0 : ℚ), (0 : ℚ)), (10, 0), (10, 10), (0, 10)].foldl
      (fun c coord => c.update coord.1 coord.2) Coordinate.new = ⟨0, 0, 10, 10⟩ := by
  have h1 : min DBL_MAX 0 = 0 := min_eq_right (dbl_max_ge 0 (by norm_num)).le
  have h2 : max DBL_MIN 0 = DBL_MIN := max_eq_left dbl_min_pos.le
  have h3 : max DBL_MIN 10 = 10 :=
    max_eq_right (dbl_min_lt_one.le.trans (by norm_num))
  simp only [List.foldl, Coordinate.update_eq, Coordinate.new, h1, h2, h3]
  norm_num

/-- The element that the extraction and the normalization make of a feature whose geometry
is the square with the corners (0, 0) and (10, 10). -/
theorem square_pipeline (f : Feature) (id : String) (b : CityObject) (l : Int)
    (hg : f.geometry = Geometry.Polygon [[(0, 0), (10, 0), (10, 10), (0, 10)]])
    (hid : f.properties.get "@id" = Json.str id)
    (hb : assign_type CityObject.new f.properties = Except.ok b)
    (hv : check_valid_type b = true)
    (hl : generate_building_level b.type f.properties = Except.ok l) :
    generate_new_coordinates [f] [] Coordinate.new =
      Except.ok [square_element b l ("building_" ++ replace_slash id)] := by
  rw [generate_new_coordinates_polygon f _ [] id b l ⟨0, 0, 10, 10⟩ hg hid hb hv hl square_box]
  have e : ([((0 : ℚ), (0 : ℚ)), (10, 0), (10, 10), (0, 10)].map (new_point ⟨0, 0, 10, 10⟩)) =
      [(some (-25), some (-25)), (some 25, some (-25)), (some 25, some 25),
        (some (-25), some 25)] := by
    with_unfolding_all rfl
  rw [e]
  rfl

/-! ## The effective roof shape -/

theorem element_type_roof_eq (element : CityObject) :
    element_type_roof element = element.roof_shape := by
  unfold element_type_roof
  by_cases h : element.roof_shape = "null"
  · simp [h]
  · simp [h]

theorem floor_colour_fst (element : CityObject) (type_roof historic : String) (level : Int)
    (build : SceneObject) :
    (floor_colour element type_roof historic level build).1 =
      (if type_roof == "flat" && element.new_holes.length == 0 then "gabled"
       else type_roof) := by
  unfold floor_colour
  simp only
  split
  · rfl
  · split
    · rfl
    · split
      · rfl
      · split <;> rfl

theorem effective_type_roof_eq (element : CityObject) :
    effective_type_roof element =
      (if element.roof_shape == "flat" && element.new_holes.length == 0 then "gabled"
       else element.roof_shape) := by
  rw [effective_type_roof, floor_colour_fst, element_type_roof_eq]

theorem element_polygon_no_holes (element : CityObject) (h : element.new_holes = []) :
    element_polygon element = [element.new_coords.map (fun elem => (elem.1, elem.2))] := by
  simp [element_polygon, h]

theorem roof_objects_of_ne (earcut : List (List NewPoint) → List Int) (element : CityObject)
    (type_roof : String) (h : type_roof ≠ "gabled") :
    roof_objects earcut element type_roof = Except.ok (none, none) := by
  have h1 : (type_roof == "gabled") = false := by simpa using h
  simp only [roof_objects, h1, Bool.false_eq_true, ↓reduceIte]
  rfl

theorem roof_objects_gabled (earcut : List (List NewPoint) → List Int) (element : CityObject)
    (ts : List (Int × Int × Int)) (hh : element.new_holes = [])
    (ht : triangle_loop (earcut (element_polygon element)) = Except.ok ts) :
    ∃ roof roof2, roof_objects earcut element "gabled" = Except.ok (some roof, some roof2) := by
  rw [element_polygon_no_holes element hh] at ht
  simp only [roof_objects, beq_self_eq_true, ↓reduceIte, hh, List.length_nil, ht, ok_bind]
  exact ⟨_, _, rfl⟩

/-- An element whose effective roof shape is `gabled` and that has no holes gets the two
objects of the roof. -/
theorem polygonal_element_roof (earcut : List (List NewPoint) → List Int)
    (element : CityObject) (hroof : effective_type_roof element = "gabled")
    (hh : element.new_holes = [])
    (hidx : 2 ≤ (earcut (element_polygon element)).length) :
    ∃ m roof roof2, polygonal_element earcut element = Except.ok m ∧
      m.roof = some roof ∧ m.roof2 = some roof2 := by
  obtain ⟨ts, ht⟩ := triangle_loop_returns _ hidx
  obtain ⟨roof, roof2, hr⟩ := roof_objects_gabled earcut element ts hh ht
  rw [← hroof] at hr
  obtain ⟨m, hm, _, h2, h3, _⟩ := polygonal_element_eq earcut element ts _ ht hr
  exact ⟨m, roof, roof2, hm, h2, h3⟩

/-- An element whose effective roof shape is not `gabled` gets no object for the roof. -/
theorem polygonal_element_no_roof (earcut : List (List NewPoint) → List Int)
    (element : CityObject) (hroof : effective_type_roof element ≠ "gabled")
    (hidx : 2 ≤ (earcut (element_polygon element)).length) :
    ∃ m, polygonal_element earcut element = Except.ok m ∧ m.roof = none ∧ m.roof2 = none ∧
      m.build2 =
        (if element.type == "building" then
          some (wall_object element (element_historic element) (element_level element)
            (get_color element.type (check_grass_type element.type))
            (element_positions element))
        else none) := by
  obtain ⟨ts, ht⟩ := triangle_loop_returns _ hidx
  obtain ⟨m, hm, h1, h2, h3, _⟩ := polygonal_element_eq earcut element ts _ ht
    (roof_objects_of_ne earcut element _ hroof)
  exact ⟨m, hm, h2, h3, h1⟩

/-- The roof shape that `assign_type` stores for a building. -/
theorem assign_type_roof_shape (b0 b : CityObject) (p : Props)
    (hb : (p.get "building").empty = false) (h : assign_type b0 p = Except.ok b) :
    ((p.get "roof:shape").empty = true → b.roof_shape = b0.roof_shape) ∧
    (∀ s, p.get "roof:shape" = Json.str s →
      b.roof_shape =
        (if s == "gabled" || s == "onion" || s == "pyramid" then "gabled"
         else if s == "flat" then "flat" else b0.roof_shape)) := by
  obtain ⟨b1, b2, b3, h1, h2, h3, h4⟩ := assign_type_building_ok b0 b p hb h
  have k1 := roof_shape_block_fields _ b1 p h1
  have k2 := roof_height_block_fields b1 b2 p h2
  have k3 := historic_block_fields b2 b3 p h3
  have k4 := tourism_block_fields b3 b p h4
  have e : b.roof_shape = b1.roof_shape := by
    rw [k4.2.1, k3.2.1, k2.2.1]
  constructor
  · intro hs
    rw [e, k1.2.2.2.2.1 hs]
  · intro s hs
    rw [e, k1.2.2.2.2.2 s hs]

/-- C21: for a feature with a `building` tag whose `roof:shape` tag is `flat`, `onion`,
`pyramid` or `gabled`, classified by `assign_type` as `b`: for every element without holes
that has the roof shape of `b`, the effective roof shape in `create_city_from_json` is
`gabled`, and, the triangulation of the floor giving at least two indices, the objects of
the roof cap and of the roof pitches are built. -/
theorem roof_shape_tag_gabled (earcut : List (List NewPoint) → List Int)
    (element b : CityObject) (p : Props) (s : String)
    (hb : (p.get "building").empty = false)
    (hs : p.get "roof:shape" = Json.str s)
    (hmem : s ∈ ["flat", "onion", "pyramid", "gabled"])
    (hassign : assign_type CityObject.new p = Except.ok b)
    (hroof : element.roof_shape = b.roof_shape)
    (hholes : element.new_holes = [])
    (hidx : 2 ≤ (earcut (element_polygon element)).length) :
    effective_type_roof element = "gabled" ∧
    ∃ m roof roof2, polygonal_element earcut element = Except.ok m ∧
      m.roof = some roof ∧ m.roof2 = some roof2 := by
  have hshape := (assign_type_roof_shape CityObject.new b p hb hassign).2 s hs
  have heff : effective_type_roof element = "gabled" := by
    rw [effective_type_roof_eq, hroof, hshape, hholes]
    simp only [List.mem_cons, List.mem_singleton, List.not_mem_nil, or_false] at hmem
    rcases hmem with rfl | rfl | rfl | rfl <;> rfl
  exact ⟨heff, polygonal_element_roof earcut element heff hholes hidx⟩

/-- C21, witness: the square building with a flat roof. -/
theorem roof_shape_tag_gabled_witness :
    generate_new_coordinates [flat_roof_building] [] Coordinate.new =
      Except.ok [square_element { CityObject.new with type := "building", roof_shape := "flat" }
        1 "building_way_6"] ∧
    effective_type_roof (square_element
      { CityObject.new with type := "building", roof_shape := "flat" } 1 "building_way_6") =
        "gabled" ∧
    ∃ m roof roof2, polygonal_element fan_triangulation (square_element
        { CityObject.new with type := "building", roof_shape := "flat" } 1 "building_way_6") =
          Except.ok m ∧
      m.roof = some roof ∧ m.roof2 = some roof2 :=
  ⟨square_pipeline flat_roof_building "way/6" _ 1 rfl rfl (by with_unfolding_all rfl)
      (by decide) (by with_unfolding_all rfl),
   roof_shape_tag_gabled fan_triangulation
      (square_element { CityObject.new with type := "building", roof_shape := "flat" }
        1 "building_way_6")
      { CityObject.new with type := "building", roof_shape := "flat" }
      flat_roof_building.properties "flat" rfl rfl
      (by decide) (by with_unfolding_all rfl) rfl rfl (by with_unfolding_all decide)⟩

/-- C22, as amended: for a feature with a `building` tag and without a `roof:shape` tag,
classified by `assign_type` as `b`: for every element that has the roof shape and the type
of `b`, the effective roof shape in `create_city_from_json` is the empty string and not
`gabled`; the triangulation of the floor giving at least two indices, the floor and the
walls are built, and neither the roof cap nor the roof pitches. -/
theorem no_roof_tag_no_roof (earcut : List (List NewPoint) → List Int)
    (element b : CityObject) (p : Props)
    (hb : (p.get "building").empty = false)
    (hs : (p.get "roof:shape").empty = true)
    (hassign : assign_type CityObject.new p = Except.ok b)
    (hroof : element.roof_shape = b.roof_shape) (htype : element.type = b.type)
    (hidx : 2 ≤ (earcut (element_polygon element)).length) :
    effective_type_roof element = "" ∧
    ∃ m walls, polygonal_element earcut element = Except.ok m ∧ m.build2 = some walls ∧
      m.roof = none ∧ m.roof2 = none := by
  have hshape : b.roof_shape = "" :=
    (assign_type_roof_shape CityObject.new b p hb hassign).1 hs
  have heff : effective_type_roof element = "" := by
    rw [effective_type_roof_eq, hroof, hshape]
    rfl
  have hbt : b.type = "building" := by
    obtain ⟨b1, b2, b3, h1, h2, h3, h4⟩ := assign_type_building_ok _ b p hb hassign
    rw [(tourism_block_fields b3 b p h4).1, (historic_block_fields b2 b3 p h3).1,
      (roof_height_block_fields b1 b2 p h2).1, (roof_shape_block_fields _ b1 p h1).1]
  obtain ⟨m, hm, h2, h3, h1⟩ := polygonal_element_no_roof earcut element
    (by rw [heff]; decide) hidx
  rw [htype, hbt] at h1
  exact ⟨heff, m, _, hm, h1, h2, h3⟩

/-- C22, witness: the square building of one level without a roof tag. -/
theorem no_roof_tag_no_roof_witness :
    effective_type_roof
      (square_element { CityObject.new with type := "building" } 1 "building_way_5") = "" ∧
    ∃ m walls, polygonal_element fan_triangulation
        (square_element { CityObject.new with type := "building" } 1 "building_way_5") =
          Except.ok m ∧
      m.build2 = some walls ∧ m.roof = none ∧ m.roof2 = none :=
  no_roof_tag_no_roof fan_triangulation
    (square_element { CityObject.new with type := "building" } 1 "building_way_5")
    { CityObject.new with type := "building" } square_building.properties rfl rfl
    (by with_unfolding_all rfl) rfl rfl (by with_unfolding_all decide)

/-- C22, counterexample: the square building `square_building` has one level, no holes and
no `roof:shape` tag; the element made of it has the empty string as effective roof shape,
and neither a roof cap nor roof pitches are built for it. -/
theorem square_building_no_roof :
    (square_building.properties.get "roof:shape").empty = true ∧
    generate_new_coordinates [square_building] [] Coordinate.new =
      Except.ok [square_element { CityObject.new with type := "building" } 1
        "building_way_5"] ∧
    (square_element { CityObject.new with type := "building" } 1 "building_way_5").new_holes
      = [] ∧
    effective_type_roof
      (square_element { CityObject.new with type := "building" } 1 "building_way_5") ≠
        "gabled" ∧
    ∃ m, polygonal_element fan_triangulation
        (square_element { CityObject.new with type := "building" } 1 "building_way_5") =
          Except.ok m ∧
      m.roof = none ∧ m.roof2 = none := by
  have heff : effective_type_roof
      (square_element { CityObject.new with type := "building" } 1 "building_way_5") ≠
        "gabled" := by
    rw [effective_type_roof_eq]
    decide
  refine ⟨rfl, ?_, rfl, heff, ?_⟩
  · exact square_pipeline square_building "way/5" _ 1 rfl rfl (by with_unfolding_all rfl)
      (by decide) (by with_unfolding_all rfl)
  · obtain ⟨m, hm, h2, h3, _⟩ := polygonal_element_no_roof fan_triangulation _ heff
      (by with_unfolding_all decide)
    exact ⟨m, hm, h2, h3⟩

/-! ## Roof height, historic objects, colours, heights -/

/-- C23: the default 0.109 of `generate_roof_height` is returned only for the string `null`.
For a building without a `roof:height` tag, `assign_type` does not call it and the roof
height of the object stays 0, not 0.109; for the tag `roof:height` = `abc`, which is not
numeric, `std::stof` throws `invalid_argument`. -/
theorem assign_type_roof_height_default :
    (∃ b, assign_type CityObject.new [("building", Json.str "yes")] = Except.ok b ∧
      b.roof_height = 0 ∧ b.roof_height ≠ 109 / 1000) ∧
    assign_type CityObject.new [("building", Json.str "yes"), ("roof:height", Json.str "abc")] =
      Except.error Err.invalid_argument ∧
    generate_roof_height "null" scale = Except.ok (109 / 1000) := by
  refine ⟨⟨{ CityObject.new with type := "building" }, ?_, rfl, ?_⟩, ?_, ?_⟩
  · with_unfolding_all rfl
  · show (0 : ℚ) ≠ 109 / 1000
    norm_num
  · with_unfolding_all rfl
  · with_unfolding_all rfl

/-- The mark and the colour that `assign_type` stores for a building. -/
theorem assign_type_historic_fields (b : CityObject) (p : Props)
    (hb : (p.get "building").empty = false)
    (h : assign_type CityObject.new p = Except.ok b) :
    (b.historic = "yes" ↔
      ((p.get "historic").empty = false ∨ (p.get "tourism").eq_str "attraction" = true)) ∧
    (((p.get "historic").empty = false ∨ (p.get "tourism").eq_str "attraction" = true) →
      ∀ c, p.get "building:colour" = Json.str c → b.colour = c) ∧
    (¬ ((p.get "historic").empty = false ∨ (p.get "tourism").eq_str "attraction" = true) →
      b.historic = "" ∧ b.colour = "") := by
  obtain ⟨b1, b2, b3, h1, h2, h3, h4⟩ := assign_type_building_ok _ b p hb h
  have k1 := roof_shape_block_fields _ b1 p h1
  have k2 := roof_height_block_fields b1 b2 p h2
  have k3 := historic_block_fields b2 b3 p h3
  have k4 := tourism_block_fields b3 b p h4
  have e2 : b2.historic = "" := by rw [k2.2.2.1, k1.2.2.1]; rfl
  have c2 : b2.colour = "" := by rw [k2.2.2.2.1, k1.2.2.2.1]; rfl
  by_cases ht : (p.get "tourism").eq_str "attraction" = true
  · have hh : b.historic = "yes" := by rw [k4.2.2.2.1, ht]; rfl
    refine ⟨⟨fun _ => Or.inr ht, fun _ => hh⟩, fun _ c hc => k4.2.2.2.2.2 ht c hc, ?_⟩
    intro hn
    exact absurd (Or.inr ht) hn
  · have ht' : (p.get "tourism").eq_str "attraction" = false := by simpa using ht
    have hh : b.historic = b3.historic := by rw [k4.2.2.2.1, ht']; rfl
    have hc : b.colour = b3.colour := k4.2.2.2.2.1 ht'
    by_cases hist : (p.get "historic").empty = false
    · have h3h : b3.historic = "yes" := by rw [k3.2.2.2.1, hist]; rfl
      refine ⟨⟨fun _ => Or.inl hist, fun _ => by rw [hh, h3h]⟩, ?_, ?_⟩
      · intro _ c hcol
        rw [hc]
        exact k3.2.2.2.2.2 hist c hcol
      · intro hn
        exact absurd (Or.inl hist) hn
    · have hist' : (p.get "historic").empty = true := by simpa using hist
      have h3h : b3.historic = "" := by rw [k3.2.2.2.1, hist']; exact e2
      have h3c : b3.colour = "" := by rw [k3.2.2.2.2.1 hist']; exact c2
      refine ⟨⟨?_, ?_⟩, ?_, ?_⟩
      · intro hyes
        rw [hh, h3h] at hyes
        exact absurd hyes (by decide)
      · intro hor
        rcases hor with hor | hor
        · exact absurd hor hist
        · exact absurd hor ht
      · intro hor
        rcases hor with hor | hor
        · exact absurd hor hist
        · exact absurd hor ht
      · intro _
        exact ⟨by rw [hh, h3h], by rw [hc, h3c]⟩

theorem assign_type_building_returns (b0 : CityObject) (p : Props)
    (hb : (p.get "building").empty = false)
    (hshape : string_or_no_tag p "roof:shape") (hheight : numeric_roof_height p)
    (hcolour : string_or_no_tag p "building:colour") (htourism : string_or_no_tag p "tourism") :
    ∃ b, assign_type b0 p = Except.ok b := by
  rw [assign_type_building b0 p hb]
  obtain ⟨b1, h1, _⟩ := roof_shape_block_type { b0 with type := "building" } p hshape
  obtain ⟨b2, h2, _⟩ := roof_height_block_type b1 p hheight
  obtain ⟨b3, h3, _⟩ := historic_block_type b2 p hcolour
  obtain ⟨b4, h4, _⟩ := tourism_block_type b3 p htourism hcolour
  exact ⟨b4, by rw [h1, ok_bind, h2, ok_bind, h3, ok_bind, h4, ok_bind]; rfl⟩

/-- C24, as amended: for a feature with a `building` tag whose `roof:shape`,
`building:colour` and `tourism` tags are each missing or a string and whose `roof:height`
tag is missing or numeric, `assign_type` returns an object that is marked historic exactly
when there is a `historic` tag or the `tourism` tag is `attraction`; in that case the colour
of the object is the value of the `building:colour` tag when that tag is a string; otherwise
the mark and the colour keep the empty string. -/
theorem assign_type_historic (p : Props)
    (hb : (p.get "building").empty = false)
    (hshape : string_or_no_tag p "roof:shape") (hheight : numeric_roof_height p)
    (hcolour : string_or_no_tag p "building:colour") (htourism : string_or_no_tag p "tourism") :
    ∃ b, assign_type CityObject.new p = Except.ok b ∧
      (b.historic = "yes" ↔
        ((p.get "historic").empty = false ∨ (p.get "tourism").eq_str "attraction" = true)) ∧
      (((p.get "historic").empty = false ∨ (p.get "tourism").eq_str "attraction" = true) →
        ∀ c, p.get "building:colour" = Json.str c → b.colour = c) ∧
      (¬ ((p.get "historic").empty = false ∨ (p.get "tourism").eq_str "attraction" = true) →
        b.historic = "" ∧ b.colour = "") := by
  obtain ⟨b, h⟩ := assign_type_building_returns CityObject.new p hb hshape hheight hcolour
    htourism
  exact ⟨b, h, assign_type_historic_fields b p hb h⟩

/-- C24, witness: a building with the tags `tourism` = `attraction` and `building:colour` =
`brown` is marked historic and has the colour `brown`. -/
theorem assign_type_historic_witness :
    ∃ b, assign_type CityObject.new
        [("building", Json.str "yes"), ("tourism", Json.str "attraction"),
          ("building:colour", Json.str "brown")] = Except.ok b ∧
      b.historic = "yes" ∧ b.colour = "brown" := by
  obtain ⟨b, h1, h2, h3, _⟩ := assign_type_historic
    [("building", Json.str "yes"), ("tourism", Json.str "attraction"),
      ("building:colour", Json.str "brown")]
    rfl (Or.inl rfl) (Or.inl rfl) (Or.inr ⟨"brown", rfl⟩) (Or.inr ⟨"attraction", rfl⟩)
  exact ⟨b, h1, h2.2 (Or.inr rfl), h3 (Or.inr rfl) "brown" rfl⟩

/-- C24, counterexample: the feature `historic_park` is classified, as `park`, and has a
`historic` tag, but the object is not marked historic. -/
theorem assign_type_park_not_historic :
    (historic_park.properties.get "historic").empty = false ∧
    ∃ b, assign_type CityObject.new historic_park.properties = Except.ok b ∧
      b.type = "park" ∧ b.historic ≠ "yes" :=
  ⟨rfl, { CityObject.new with type := "park" }, by with_unfolding_all rfl, rfl, by decide⟩

/-- C25: the second test of `get_building_color` compares with ` light yellow`, with a
space in front: the palette name `light yellow` is mapped to white, as any unknown string,
and not to the colour (0.922, 0.925, 0.498) of the palette. -/
theorem get_building_color_light_yellow :
    get_building_color "light yellow" = (1, 1, 1) ∧
    get_building_color " light yellow" = (922 / 1000, 925 / 1000, 498 / 1000) ∧
    get_building_color "yellow" = (882 / 1000, 741 / 1000, 294 / 1000) ∧
    get_building_color "brown" = (808 / 1000, 431 / 1000, 271 / 1000) ∧
    get_building_color "light brown" = (8 / 10, 749 / 1000, 596 / 1000) ∧
    get_building_color "light orange" = (933 / 1000, 753 / 1000, 416 / 1000) :=
  ⟨rfl, rfl, rfl, rfl, rfl, rfl⟩

/-- C26: `generate_height`, with the global `scale` = 50, returns (level + 2.5) / 20 for a
building with at least one level, 0.0001 for water, 0.0005 for a highway, 0.0004 for a
pedestrian way, and 0.0001 for every other type. -/
theorem generate_height_table (building : CityObject) :
    (building.type = "building" → 1 ≤ building.level →
      generate_height building scale = ((building.level : ℚ) + 5 / 2) / 20 ∧
      generate_height building scale = ((building.level : ℚ) + (scale : ℚ) / 20) / 20) ∧
    (building.type = "water" → generate_height building scale = 1 / 10000) ∧
    (building.type = "highway" → generate_height building scale = 5 / 10000) ∧
    (building.type = "pedestrian" → generate_height building scale = 4 / 10000) ∧
    (building.type ∉ ["building", "water", "highway", "pedestrian"] →
      generate_height building scale = 1 / 10000) := by
  refine ⟨?_, ?_, ?_, ?_, ?_⟩
  · intro ht hl
    have hl' : building.level > 0 := by omega
    simp only [generate_height, ht, beq_self_eq_true, hl', decide_True, Bool.and_self,
      ↓reduceIte, scale]
    norm_num
  · intro ht
    simp [generate_height, ht]
  · intro ht
    simp [generate_height, ht]
  · intro ht
    simp [generate_height, ht]
  · intro ht
    simp only [List.mem_cons, List.mem_singleton, List.not_mem_nil, or_false, not_or] at ht
    simp [generate_height, ht.1, ht.2.1, ht.2.2.1, ht.2.2.2]

/-- C26, witness: a building of three levels has the height 5.5 / 20, a water surface the
height 0.0001, a park the height 0.0001. -/
theorem generate_height_table_witness :
    generate_height { CityObject.new with type := "building", level := 3 } scale =
      ((3 : ℚ) + 5 / 2) / 20 ∧
    generate_height { CityObject.new with type := "water" } scale = 1 / 10000 ∧
    generate_height { CityObject.new with type := "park" } scale = 1 / 10000 :=
  ⟨((generate_height_table { CityObject.new with type := "building", level := 3 }).1 rfl
      (by decide)).1,
   (generate_height_table { CityObject.new with type := "water" }).2.1 rfl,
   (generate_height_table { CityObject.new with type := "park" }).2.2.2.2 (by decide)⟩

/-! ## Mesh building: the walls -/

theorem pairs_length {α : Type} (f g : Nat → α) (n : Nat) :
    ((List.range n).flatMap (fun i => [f i, g i])).length = 2 * n := by
  induction n with
  | zero => rfl
  | succ n ih =>
    rw [List.range_succ, List.flatMap_append, List.length_append, ih]
    simp
    omega

theorem pairs_get {α : Type} (f g : Nat → α) (n i : Nat) (h : i < n) :
    ((List.range n).flatMap (fun i => [f i, g i]))[2 * i]? = some (f i) ∧
    ((List.range n).flatMap (fun i => [f i, g i]))[2 * i + 1]? = some (g i) := by
  induction n with
  | zero => omega
  | succ n ih =>
    rw [List.range_succ, List.flatMap_append]
    by_cases hi : i < n
    · have hl := pairs_length f g n
      rw [List.getElem?_append_left (by rw [hl]; omega),
        List.getElem?_append_left (by rw [hl]; omega)]
      exact ih hi
    · have hi' : i = n := by omega
      subst hi'
      have hl := pairs_length f g i
      rw [List.getElem?_append_right (by rw [hl]), List.getElem?_append_right (by rw [hl]; omega),
        hl]
      simp

theorem prev_index_eq (n i : Nat) (h : i < n) : prev_index n i = (ring_prev n i : Int) := by
  unfold prev_index ring_prev
  by_cases h0 : i = 0
  · subst h0
    simp
    omega
  · have : ¬ ((i : Int) - 1 = -1) := by omega
    simp [h0, this]
    omega

/-- The loop over the vertices that builds the quads of the walls, after `k` vertices. -/
theorem wall_loop (positions : List Position) (k : Nat) :
    (List.range k).foldl (wall_step positions) (positions, []) =
      (positions ++ (List.range k).flatMap (fun i =>
          [ground (position_at positions i),
           ground (position_at positions (prev_index positions.length i))]),
       (List.range k).map (fun i =>
          (prev_index positions.length i, (i : Int),
            ((positions.length + 2 * i : Nat) : Int),
            ((positions.length + 2 * i + 1 : Nat) : Int)))) := by
  induction k with
  | zero => simp
  | succ k ih =>
    rw [List.range_succ, List.foldl_append, ih, List.flatMap_append, List.map_append]
    simp only [List.foldl_cons, List.foldl_nil, wall_step, List.length_append,
      pairs_length, List.flatMap_cons, List.flatMap_nil, List.append_nil, List.map_cons,
      List.map_nil, List.length_singleton, List.append_assoc, List.singleton_append]
    rfl

theorem set_color_tex_shape (object : SceneObject) (texture : Texture) :
    (object.set_color_tex texture).shape = object.shape := rfl

theorem set_color_shape (object : SceneObject) (color : Color) :
    (object.set_color color).shape = object.shape := rfl

theorem wall_texture_shape (level : Int) (build2 : SceneObject) :
    (wall_texture level build2).shape = build2.shape := by
  simp only [wall_texture, apply_ite SceneObject.shape, set_color_tex_shape, ite_self]

theorem wall_object_shape (element : CityObject) (historic : String) (level : Int)
    (color : Color) (positions : List Position) :
    (wall_object element historic level color positions).shape =
      { positions := ((List.range positions.length).foldl (wall_step positions)
          (positions, [])).1,
        triangles := [],
        quads := ((List.range positions.length).foldl (wall_step positions)
          (positions, [])).2 } := by
  unfold wall_object
  simp only
  split
  · split
    · rfl
    · split <;> rfl
  · rw [wall_texture_shape]
    rfl

theorem element_positions_no_holes (element : CityObject) (h : element.new_holes = []) :
    element_positions element =
      element.new_coords.map
        (fun elem => { x := elem.1, y := some element.height, z := elem.2 }) := by
  simp [element_positions, h]

/-- The positions and the quads of the walls over the positions `positions`. -/
theorem wall_object_facts (element : CityObject) (historic : String) (level : Int)
    (color : Color) (positions : List Position) :
    (wall_object element historic level color positions).shape.quads.length =
      positions.length ∧
    (wall_object element historic level color positions).shape.positions.length =
      3 * positions.length ∧
    ∀ i, i < positions.length →
      (wall_object element historic level color positions).shape.quads[i]? =
        some ((ring_prev positions.length i : Int), (i : Int),
          ((positions.length + 2 * i : Nat) : Int),
          ((positions.length + 2 * i + 1 : Nat) : Int)) ∧
      (wall_object element historic level color positions).shape.positions[i]? =
        positions[i]? ∧
      (wall_object element historic level color positions).shape.positions[
          positions.length + 2 * i]? = some (ground (position_at positions i)) ∧
      (wall_object element historic level color positions).shape.positions[
          positions.length + 2 * i + 1]? =
        some (ground (position_at positions (ring_prev positions.length i))) := by
  rw [wall_object_shape, wall_loop]
  have hlen := pairs_length (fun i : Nat => ground (position_at positions i))
    (fun i => ground (position_at positions (prev_index positions.length i)))
    positions.length
  refine ⟨by simp, by rw [List.length_append, hlen]; omega, ?_⟩
  intro i hi
  have hp := pairs_get (fun i => ground (position_at positions i))
    (fun i => ground (position_at positions (prev_index positions.length i)))
    positions.length i hi
  refine ⟨?_, ?_, ?_, ?_⟩
  · simp only [List.getElem?_map, List.getElem?_range hi, Option.map_some',
      prev_index_eq _ _ hi]
  · exact List.getElem?_append_left hi
  · simp only
    rw [List.getElem?_append_right (by omega)]
    have : positions.length + 2 * i - positions.length = 2 * i := by omega
    rw [this]
    exact hp.1
  · simp only
    rw [List.getElem?_append_right (by omega)]
    have : positions.length + 2 * i + 1 - positions.length = 2 * i + 1 := by omega
    rw [this, hp.2]
    simp only [prev_index_eq _ _ hi]

theorem position_at_map (coords : List NewPoint) (height : ℚ) (i : Nat) (pt : NewPoint)
    (h : coords[i]? = some pt) :
    position_at (coords.map (fun elem => { x := elem.1, y := some height, z := elem.2 }))
      (i : Int) = { x := pt.1, y := some height, z := pt.2 } := by
  simp [position_at, List.getD, List.getElem?_map, h]

theorem roof_objects_returns (earcut : List (List NewPoint) → List Int) (element : CityObject)
    (type_roof : String) (hidx : 2 ≤ (earcut (element_polygon element)).length) :
    ∃ roofs, roof_objects earcut element type_roof = Except.ok roofs := by
  by_cases hr : type_roof = "gabled"
  · subst hr
    by_cases hh : element.new_holes = []
    · obtain ⟨ts, ht⟩ := triangle_loop_returns _ hidx
      obtain ⟨roof, roof2, h⟩ := roof_objects_gabled earcut element ts hh ht
      exact ⟨_, h⟩
    · have hl : (element.new_holes.length == 0) = false := by
        simp only [beq_eq_false_iff_ne, ne_eq, List.length_eq_zero]
        exact hh
      simp only [roof_objects, beq_self_eq_true, ↓reduceIte, hl, Bool.false_eq_true]
      exact ⟨_, rfl⟩
  · exact ⟨_, roof_objects_of_ne earcut element type_roof hr⟩

/-- The floor and the walls of an element, the triangulation of the floor giving at least
two indices. -/
theorem polygonal_element_returns (earcut : List (List NewPoint) → List Int)
    (element : CityObject) (hidx : 2 ≤ (earcut (element_polygon element)).length) :
    ∃ m, polygonal_element earcut element = Except.ok m ∧
      m.build2 =
        (if element.type == "building" then
          some (wall_object element (element_historic element) (element_level element)
            (get_color element.type (check_grass_type element.type))
            (element_positions element))
        else none) ∧
      m.build.material.color =
        (floor_colour element (element_type_roof element) (element_historic element)
          (element_level element) (add_complete_object element.name)).2.material.color := by
  obtain ⟨ts, ht⟩ := triangle_loop_returns _ hidx
  obtain ⟨roofs, hr⟩ := roof_objects_returns earcut element (effective_type_roof element) hidx
  obtain ⟨m, hm, h1, _, _, h4, _⟩ := polygonal_element_eq earcut element ts roofs ht hr
  exact ⟨m, hm, h1, h4⟩

/-- For a building without holes whose outer ring has `n` vertices, the triangulation of
the floor giving at least two indices, the wall object has `n` quads
and `3 n` positions; the first `n` positions are the vertices at the height of the building,
and for the vertex `i` the two positions appended, `n + 2 i` and `n + 2 i + 1`, are the
vertex `i` and the vertex before it, at height 0, the vertex before the first being the
last; the quad `i` is made of the vertex before `i`, the vertex `i` and the two positions
appended, in this order. -/
theorem wall_quads (earcut : List (List NewPoint) → List Int) (element : CityObject)
    (htype : element.type = "building") (hholes : element.new_holes = [])
    (hidx : 2 ≤ (earcut (element_polygon element)).length) :
    ∃ m walls, polygonal_element earcut element = Except.ok m ∧ m.build2 = some walls ∧
      walls.shape.quads.length = element.new_coords.length ∧
      walls.shape.positions.length = 3 * element.new_coords.length ∧
      ∀ i pt before, element.new_coords[i]? = some pt →
        element.new_coords[ring_prev element.new_coords.length i]? = some before →
        walls.shape.quads[i]? =
          some ((ring_prev element.new_coords.length i : Int), (i : Int),
            ((element.new_coords.length + 2 * i : Nat) : Int),
            ((element.new_coords.length + 2 * i + 1 : Nat) : Int)) ∧
        walls.shape.positions[ring_prev element.new_coords.length i]? =
          some { x := before.1, y := some element.height, z := before.2 } ∧
        walls.shape.positions[i]? =
          some { x := pt.1, y := some element.height, z := pt.2 } ∧
        walls.shape.positions[element.new_coords.length + 2 * i]? =
          some { x := pt.1, y := some 0, z := pt.2 } ∧
        walls.shape.positions[element.new_coords.length + 2 * i + 1]? =
          some { x := before.1, y := some 0, z := before.2 } := by
  obtain ⟨m, hm, h1, _⟩ := polygonal_element_returns earcut element hidx
  have hb : (element.type == "building") = true := by rw [htype]; rfl
  rw [hb, if_pos rfl, element_positions_no_holes element hholes] at h1
  have hn : (element.new_coords.map (fun elem : NewPoint =>
      ({ x := elem.1, y := some element.height, z := elem.2 } : Position))).length =
      element.new_coords.length := List.length_map _ _
  obtain ⟨f1, f2, f3⟩ := wall_object_facts element (element_historic element)
    (element_level element) (get_color element.type (check_grass_type element.type))
    (element.new_coords.map (fun elem => { x := elem.1, y := some element.height, z := elem.2 }))
  rw [hn] at f1 f2 f3
  refine ⟨m, _, hm, h1, f1, f2, ?_⟩
  intro i pt before hpt hbefore
  have hi : i < element.new_coords.length := by
    by_contra hge
    rw [List.getElem?_eq_none (not_lt.1 hge)] at hpt
    cases hpt
  have hj : ring_prev element.new_coords.length i < element.new_coords.length := by
    by_contra hge
    rw [List.getElem?_eq_none (not_lt.1 hge)] at hbefore
    cases hbefore
  obtain ⟨g1, g2, g3, g4⟩ := f3 i hi
  obtain ⟨_, k2, _, _⟩ := f3 _ hj
  refine ⟨g1, ?_, ?_, ?_, ?_⟩
  · rw [k2, List.getElem?_map, hbefore]; rfl
  · rw [g2, List.getElem?_map, hpt]; rfl
  · rw [g3, position_at_map _ _ i pt hpt]; rfl
  · rw [g4, position_at_map _ _ _ before hbefore]; rfl

/-- The square building has four quads; the first is made of the vertices 3 and 0 and of
the positions 4 and 5, which are below the vertex 0 and below the vertex 3. -/
theorem wall_quads_witness :
    ∃ m walls, polygonal_element fan_triangulation
        (square_element { CityObject.new with type := "building" } 1 "building_way_5") =
          Except.ok m ∧
      m.build2 = some walls ∧ walls.shape.quads.length = 4 ∧
      walls.shape.quads[0]? = some (3, 0, 4, 5) ∧
      walls.shape.positions[4]? = some { x := some (-25), y := some 0, z := some (-25) } ∧
      walls.shape.positions[5]? = some { x := some (-25), y := some 0, z := some 25 } := by
  obtain ⟨m, walls, h1, h2, h3, _, h5⟩ := wall_quads fan_triangulation
    (square_element { CityObject.new with type := "building" } 1 "building_way_5")
    rfl rfl (by with_unfolding_all decide)
  obtain ⟨k1, _, _, k4, k5⟩ := h5 0 (some (-25), some (-25)) (some (-25), some 25) rfl rfl
  exact ⟨m, walls, h1, h2, h3, k1, k4, k5⟩

theorem courtyard_box :
    [((0 : ℚ), (0 : ℚ)), (9, 0), (9, 9), (0, 9)].foldl
      (fun c coord => c.update coord.1 coord.2) Coordinate.new = ⟨0, 0, 9, 9⟩ := by
  have h1 : min DBL_MAX 0 = 0 := min_eq_right (dbl_max_ge 0 (by norm_num)).le
  have h2 : max DBL_MIN 0 = DBL_MIN := max_eq_left dbl_min_pos.le
  have h3 : max DBL_MIN 9 = 9 :=
    max_eq_right (dbl_min_lt_one.le.trans (by norm_num))
  simp only [List.foldl, Coordinate.update_eq, Coordinate.new, h1, h2, h3]
  norm_num

/-- C27: the loop that builds the quads runs over all the positions of the floor, the
vertices of the holes after those of the outer ring.  The building `courtyard_building` has
an outer ring of four vertices and two holes of three vertices each: its wall object has
ten quads, not four; the first quad pairs the vertex 0 with the position 9, the last vertex
of the second hole, not with the vertex 3; and the quads 4 and 7 join the last vertex of the
outer ring to the first hole and the first hole to the second. -/
theorem wall_quads_holes :
    generate_new_coordinates [courtyard_building] [] Coordinate.new =
      Except.ok [courtyard_element] ∧
    courtyard_element.type = "building" ∧ courtyard_element.new_coords.length = 4 ∧
    courtyard_element.new_holes.length = 2 ∧
    ∃ m walls, polygonal_element fan_triangulation courtyard_element = Except.ok m ∧
      m.build2 = some walls ∧
      walls.shape.quads.length = 10 ∧ walls.shape.quads[0]? = some (9, 0, 10, 11) ∧
      walls.shape.quads[4]? = some (3, 4, 18, 19) ∧
      walls.shape.quads[7]? = some (6, 7, 24, 25) := by
  have hp := generate_new_coordinates_polygon courtyard_building
    [(0, 0), (9, 0), (9, 9), (0, 9)] [[(1, 1), (2, 1), (2, 2)], [(5, 5), (6, 5), (6, 6)]]
    "way/8" { CityObject.new with type := "building" } 1 ⟨0, 0, 9, 9⟩ rfl rfl
    (by with_unfolding_all rfl) (by decide) (by with_unfolding_all rfl) courtyard_box
  obtain ⟨m, hm, h1, _⟩ := polygonal_element_returns fan_triangulation courtyard_element
    (by with_unfolding_all decide)
  refine ⟨hp, rfl, rfl, rfl, m, _, hm, h1, ?_, ?_, ?_, ?_⟩
  · exact (wall_object_facts _ _ _ _ _).1
  · exact ((wall_object_facts _ _ _ _ _).2.2 0 (by with_unfolding_all decide)).1
  · exact ((wall_object_facts _ _ _ _ _).2.2 4 (by with_unfolding_all decide)).1
  · exact ((wall_object_facts _ _ _ _ _).2.2 7 (by with_unfolding_all decide)).1

/-! ## Mesh building: textures and colours -/

/-- C28: the last test of the chain on the level is `level > 101`, the test before it
`level > 70 && level < 101`: no test holds for the level 101.  The building `tower`, with
the tag `building:levels` = 100, has 101 levels and is not historic; its wall object gets no
texture, while the levels 100 and 102 get the textures `70_101` and `more_101`. -/
theorem wall_texture_level_101 :
    generate_new_coordinates [tower] [] Coordinate.new =
      Except.ok [square_element { CityObject.new with type := "building" } 101
        "building_way_13"] ∧
    (∃ m walls, polygonal_element fan_triangulation
        (square_element { CityObject.new with type := "building" } 101 "building_way_13") =
          Except.ok m ∧
      m.build2 = some walls ∧ walls.material.color_tex = none) ∧
    (wall_texture 100 (add_complete_object "")).material.color_tex =
      some Texture.texture_70_101 ∧
    (wall_texture 101 (add_complete_object "")).material.color_tex = none ∧
    (wall_texture 102 (add_complete_object "")).material.color_tex =
      some Texture.texture_more_101 := by
  refine ⟨?_, ?_, by decide, by decide, by decide⟩
  · exact square_pipeline tower "way/13" _ 101 rfl rfl (by with_unfolding_all rfl)
      (by decide) (by with_unfolding_all rfl)
  · obtain ⟨m, hm, h1, _⟩ := polygonal_element_returns fan_triangulation
      (square_element { CityObject.new with type := "building" } 101 "building_way_13")
      (by with_unfolding_all decide)
    exact ⟨m, _, hm, h1, by with_unfolding_all rfl⟩

/-- C29: the colour of a `CityObject` is the empty string unless `assign_type` stores a
`building:colour` tag, and the test `element.colour != "null"` holds for it.  The building
`castle` is marked historic and has no `building:colour` tag: the colour of its wall object
is `get_building_color` of the empty string, which is white, and not the colour
(0.79, 0.74, 0.62) of a building. -/
theorem historic_walls_white :
    (castle.properties.get "building:colour").empty = true ∧
    generate_new_coordinates [castle] [] Coordinate.new =
      Except.ok [square_element { CityObject.new with type := "building", historic := "yes" } 1
        "building_way_12"] ∧
    (∃ m walls, polygonal_element fan_triangulation
        (square_element { CityObject.new with type := "building", historic := "yes" } 1
          "building_way_12") = Except.ok m ∧
      m.build2 = some walls ∧ walls.material.color = some (1, 1, 1) ∧
      walls.material.color_tex = none) ∧
    get_color "building" (check_grass_type "building") = (79 / 100, 74 / 100, 62 / 100) := by
  refine ⟨rfl, ?_, ?_, rfl⟩
  · exact square_pipeline castle "way/12" _ 1 rfl rfl (by with_unfolding_all rfl)
      (by decide) (by with_unfolding_all rfl)
  · obtain ⟨m, hm, h1, _⟩ := polygonal_element_returns fan_triangulation
      (square_element { CityObject.new with type := "building", historic := "yes" } 1
        "building_way_12")
      (by with_unfolding_all decide)
    exact ⟨m, _, hm, h1, by with_unfolding_all rfl, by with_unfolding_all rfl⟩

/-- C30: the mark of a `CityObject` is the empty string unless `assign_type` sets it to
`yes`, and the test `historic != "no"` holds for it.  The building `square_building` has one
level, is not marked historic, is not the landmark and has no `roof:shape` tag: the colour
of its floor object is the light brown (0.538, 0.426, 0.347) of the override, and not the
colour (0.79, 0.74, 0.62) of a building. -/
theorem floor_light_brown_not_historic :
    generate_new_coordinates [square_building] [] Coordinate.new =
      Except.ok [square_element { CityObject.new with type := "building" } 1
        "building_way_5"] ∧
    (square_element { CityObject.new with type := "building" } 1 "building_way_5").historic
      ≠ "yes" ∧
    (∃ m, polygonal_element fan_triangulation
        (square_element { CityObject.new with type := "building" } 1 "building_way_5") =
          Except.ok m ∧
      m.build.material.color = some (538 / 1000, 426 / 1000, 347 / 1000)) ∧
    get_color "building" (check_grass_type "building") = (79 / 100, 74 / 100, 62 / 100) := by
  refine ⟨?_, by decide, ?_, rfl⟩
  · exact square_pipeline square_building "way/5" _ 1 rfl rfl (by with_unfolding_all rfl)
      (by decide) (by with_unfolding_all rfl)
  · obtain ⟨m, hm, _, h2⟩ := polygonal_element_returns fan_triangulation
      (square_element { CityObject.new with type := "building" } 1 "building_way_5")
      (by with_unfolding_all decide)
    exact ⟨m, hm, h2.trans (by with_unfolding_all rfl)⟩

/-! ## Ribbons: the area formula and the midpoints -/

/-- C31: the promotion of a flat roof is the first branch of the chain of tests whose other
branches assign the colour of the floor.  The building `flat_roof_building`, with the tag
`roof:shape` = `flat` and no holes, takes that branch: the colour of its floor object is
never assigned, while the same building without the tag gets a colour. -/
theorem floor_colour_flat_roof_unassigned :
    generate_new_coordinates [flat_roof_building] [] Coordinate.new =
      Except.ok [square_element { CityObject.new with type := "building", roof_shape := "flat" }
        1 "building_way_6"] ∧
    (∃ m, polygonal_element fan_triangulation
        (square_element { CityObject.new with type := "building", roof_shape := "flat" }
          1 "building_way_6") = Except.ok m ∧
      m.build.material.color = none) ∧
    (∃ m, polygonal_element fan_triangulation
        (square_element { CityObject.new with type := "building" } 1 "building_way_5") =
          Except.ok m ∧
      m.build.material.color ≠ none) := by
  refine ⟨?_, ?_, ?_⟩
  · exact square_pipeline flat_roof_building "way/6" _ 1 rfl rfl (by with_unfolding_all rfl)
      (by decide) (by with_unfolding_all rfl)
  · obtain ⟨m, hm, _, h2⟩ := polygonal_element_returns fan_triangulation
      (square_element { CityObject.new with type := "building", roof_shape := "flat" }
        1 "building_way_6")
      (by with_unfolding_all decide)
    exact ⟨m, hm, h2.trans (by with_unfolding_all rfl)⟩
  · obtain ⟨m, hm, _, h2⟩ := polygonal_element_returns fan_triangulation
      (square_element { CityObject.new with type := "building" } 1 "building_way_5")
      (by with_unfolding_all decide)
    refine ⟨m, hm, ?_⟩
    rw [h2]
    intro h
    have h3 : (floor_colour
        (square_element { CityObject.new with type := "building" } 1 "building_way_5")
        (element_type_roof
          (square_element { CityObject.new with type := "building" } 1 "building_way_5"))
        (element_historic
          (square_element { CityObject.new with type := "building" } 1 "building_way_5"))
        (element_level
          (square_element { CityObject.new with type := "building" } 1 "building_way_5"))
        (add_complete_object
          (square_element { CityObject.new with type := "building" } 1
            "building_way_5").name)).2.material.color =
        some (538 / 1000, 426 / 1000, 347 / 1000) := by
      with_unfolding_all rfl
    rw [h3] at h
    cases h

theorem sliver_box :
    [((0 : ℚ), (0 : ℚ)), (10, 10)].foldl
      (fun c coord => c.update coord.1 coord.2) Coordinate.new = ⟨0, 0, 10, 10⟩ := by
  have h1 : min DBL_MAX 0 = 0 := min_eq_right (dbl_max_ge 0 (by norm_num)).le
  have h2 : max DBL_MIN 0 = DBL_MIN := max_eq_left dbl_min_pos.le
  have h3 : max DBL_MIN 10 = 10 :=
    max_eq_right (dbl_min_lt_one.le.trans (by norm_num))
  simp only [List.foldl, Coordinate.update_eq, Coordinate.new, h1, h2, h3]
  norm_num

theorem sliver_pipeline :
    generate_new_coordinates [sliver_building] [] Coordinate.new =
      Except.ok [sliver_element] := by
  rw [generate_new_coordinates_polygon sliver_building [(0, 0), (10, 10)] [] "way/16"
    { CityObject.new with type := "building" } 1 ⟨0, 0, 10, 10⟩ rfl rfl
    (by with_unfolding_all rfl) (by decide) (by with_unfolding_all rfl) sliver_box]
  with_unfolding_all rfl

/-- C34: the bound `indices.size() - 2` of the loop is computed without sign and wraps
around for the empty list: the first iteration reads `indices[0]`, which does not exist.
The building `sliver_building`, whose ring has two positions, has no triangle, and with the
empty list of indices the body of the loop of `create_city_from_json` has undefined
behaviour.  For a list of six indices the loop returns the two triples. -/
theorem triangle_loop_empty :
    triangle_loop [] = Except.error Err.undefined_behaviour ∧
    generate_new_coordinates [sliver_building] [] Coordinate.new = Except.ok [sliver_element] ∧
    fan_triangulation (element_polygon sliver_element) = [] ∧
    polygonal_element fan_triangulation sliver_element =
      Except.error Err.undefined_behaviour ∧
    triangle_loop [0, 1, 2, 0, 2, 3] = Except.ok [(0, 1, 2), (0, 2, 3)] := by
  refine ⟨rfl, sliver_pipeline, rfl, ?_, rfl⟩
  with_unfolding_all rfl

/-! ## Mesh building: the pitches of the roof -/

/-- The loop over the vertices that builds the triangles of the pitches, after `k`
vertices. -/
theorem roof_loop (size : Nat) (centroid_x centroid_y total_height : Option ℚ)
    (init : List Position) (k : Nat) :
    (List.range k).foldl (roof_step size centroid_x centroid_y total_height) (init, []) =
      (init ++ (List.range k).flatMap (fun _ =>
          [({ x := centroid_x, y := total_height, z := centroid_y } : Position),
           { x := centroid_x, y := total_height, z := centroid_y }]),
       (List.range k).flatMap (fun i =>
          [(prev_index size i, (i : Int), ((init.length + 2 * i : Nat) : Int)),
           (((init.length + 2 * i : Nat) : Int), ((init.length + 2 * i + 1 : Nat) : Int),
             prev_index size i)])) := by
  induction k with
  | zero => simp
  | succ k ih =>
    rw [List.range_succ, List.foldl_append, ih, List.flatMap_append, List.flatMap_append]
    simp only [List.foldl_cons, List.foldl_nil, roof_step, List.length_append,
      pairs_length, List.flatMap_cons, List.flatMap_nil, List.append_nil,
      List.length_singleton, List.append_assoc, List.singleton_append, List.cons_append,
      List.nil_append]
    rfl

theorem fadd_some (a b : ℚ) : fadd (some a) (some b) = some (a + b) := rfl

theorem fold_fadd_fst (pts : List Point) (start : ℚ) :
    (pts.map (fun p : Point => ((some p.1, some p.2) : NewPoint))).foldl
        (fun c elem => fadd c elem.1) (some start) =
      some (start + (pts.map Prod.fst).sum) := by
  induction pts generalizing start with
  | nil => simp
  | cons p pts ih =>
    simp only [List.map_cons, List.foldl_cons, fadd_some, List.sum_cons]
    rw [ih]
    congr 1
    ring

theorem fold_fadd_snd (pts : List Point) (start : ℚ) :
    (pts.map (fun p : Point => ((some p.1, some p.2) : NewPoint))).foldl
        (fun c elem => fadd c elem.2) (some start) =
      some (start + (pts.map Prod.snd).sum) := by
  induction pts generalizing start with
  | nil => simp
  | cons p pts ih =>
    simp only [List.map_cons, List.foldl_cons, fadd_some, List.sum_cons]
    rw [ih]
    congr 1
    ring

theorem centroid_finite (coords : List NewPoint) (pts : List Point)
    (h : coords = pts.map (fun p => (some p.1, some p.2))) (hn : pts ≠ []) :
    centroid_div (coords.foldl (fun c elem => fadd c elem.1) (some 0)) coords.length =
      some (mean (pts.map Prod.fst)) ∧
    centroid_div (coords.foldl (fun c elem => fadd c elem.2) (some 0)) coords.length =
      some (mean (pts.map Prod.snd)) := by
  subst h
  have hlen : ((pts.length : ℕ) : ℚ) ≠ 0 := by
    have : pts.length ≠ 0 := by simpa [List.length_eq_zero] using hn
    exact_mod_cast this
  rw [fold_fadd_fst, fold_fadd_snd]
  simp only [centroid_div, fdiv, List.length_map, hlen, ↓reduceIte, zero_add, mean]
  trivial

/-- The two objects of a gabled roof on an element without holes. -/
theorem roof_objects_gabled_eq (earcut : List (List NewPoint) → List Int)
    (element : CityObject) (ts : List (Int × Int × Int)) (hh : element.new_holes = [])
    (ht : triangle_loop (earcut (element_polygon element)) = Except.ok ts) :
    ∃ roof roof2, roof_objects earcut element "gabled" = Except.ok (some roof, some roof2) ∧
      roof.shape.triangles = ts ∧
      roof.shape.positions = element.new_coords.map
        (fun elem => { x := elem.1, y := some element.height, z := elem.2 }) ∧
      roof2.shape.positions =
        ((List.range element.new_coords.length).foldl
          (roof_step element.new_coords.length
            (centroid_div (element.new_coords.foldl (fun c elem => fadd c elem.1) (some 0))
              element.new_coords.length)
            (centroid_div (element.new_coords.foldl (fun c elem => fadd c elem.2) (some 0))
              element.new_coords.length)
            (some (element.height + element.roof_height)))
          (element.new_coords.map
            (fun elem => { x := elem.1, y := some element.height, z := elem.2 }), [])).1 ∧
      roof2.shape.triangles =
        ((List.range element.new_coords.length).foldl
          (roof_step element.new_coords.length
            (centroid_div (element.new_coords.foldl (fun c elem => fadd c elem.1) (some 0))
              element.new_coords.length)
            (centroid_div (element.new_coords.foldl (fun c elem => fadd c elem.2) (some 0))
              element.new_coords.length)
            (some (element.height + element.roof_height)))
          (element.new_coords.map
            (fun elem => { x := elem.1, y := some element.height, z := elem.2 }), [])).2 := by
  rw [element_polygon_no_holes element hh] at ht
  simp only [roof_objects, beq_self_eq_true, ↓reduceIte, hh, List.length_nil, ht, ok_bind,
    List.length_map]
  exact ⟨_, _, rfl, rfl, rfl, rfl, rfl⟩

/-- The positions and the triangles of the pitches of a gabled roof on an element without
holes whose outer ring has `n` vertices, with the apex of the roof. -/
theorem roof_pitch_facts (earcut : List (List NewPoint) → List Int) (element : CityObject)
    (hroof : effective_type_roof element = "gabled") (hholes : element.new_holes = [])
    (hidx : 2 ≤ (earcut (element_polygon element)).length) :
    ∃ m roof2, polygonal_element earcut element = Except.ok m ∧ m.roof2 = some roof2 ∧
      roof2.shape.triangles.length = 2 * element.new_coords.length ∧
      roof2.shape.positions.length = 3 * element.new_coords.length ∧
      ∀ i, i < element.new_coords.length →
        roof2.shape.triangles[2 * i]? =
          some ((ring_prev element.new_coords.length i : Int), (i : Int),
            ((element.new_coords.length + 2 * i : Nat) : Int)) ∧
        roof2.shape.triangles[2 * i + 1]? =
          some (((element.new_coords.length + 2 * i : Nat) : Int),
            ((element.new_coords.length + 2 * i + 1 : Nat) : Int),
            (ring_prev element.new_coords.length i : Int)) ∧
        roof2.shape.positions[i]? =
          (element.new_coords.map
            (fun elem => ({ x := elem.1, y := some element.height, z := elem.2 } : Position)))[i]? ∧
        roof2.shape.positions[element.new_coords.length + 2 * i]? = some (roof_apex element) ∧
        roof2.shape.positions[element.new_coords.length + 2 * i + 1]? =
          some (roof_apex element) := by
  obtain ⟨ts, ht⟩ := triangle_loop_returns _ hidx
  obtain ⟨roof, roof2, hr, _, _, hpos, htri⟩ :=
    roof_objects_gabled_eq earcut element ts hholes ht
  rw [← hroof] at hr
  obtain ⟨m, hm, _, _, h3, _⟩ := polygonal_element_eq earcut element ts _ ht hr
  rw [roof_loop] at hpos htri
  simp only [List.length_map] at hpos htri
  refine ⟨m, roof2, hm, h3, ?_, ?_, ?_⟩
  · rw [htri, pairs_length]
  · rw [hpos, List.length_append, pairs_length, List.length_map]; omega
  · intro i hi
    have ht2 := pairs_get
      (fun i : Nat => (prev_index element.new_coords.length i, (i : Int),
        ((element.new_coords.length + 2 * i : Nat) : Int)))
      (fun i : Nat => (((element.new_coords.length + 2 * i : Nat) : Int),
        ((element.new_coords.length + 2 * i + 1 : Nat) : Int),
        prev_index element.new_coords.length i))
      element.new_coords.length i hi
    have hp2 := pairs_get (fun _ : Nat => roof_apex element) (fun _ : Nat => roof_apex element)
      element.new_coords.length i hi
    simp only [prev_index_eq _ _ hi] at ht2
    refine ⟨?_, ?_, ?_, ?_, ?_⟩
    · rw [htri]; exact ht2.1
    · rw [htri]; exact ht2.2
    · rw [hpos]
      exact List.getElem?_append_left (by rw [List.length_map]; exact hi)
    · rw [hpos, List.getElem?_append_right (by rw [List.length_map]; omega), List.length_map]
      have : element.new_coords.length + 2 * i - element.new_coords.length = 2 * i := by omega
      rw [this]
      exact hp2.1
    · rw [hpos, List.getElem?_append_right (by rw [List.length_map]; omega), List.length_map]
      have : element.new_coords.length + 2 * i + 1 - element.new_coords.length = 2 * i + 1 := by
        omega
      rw [this]
      exact hp2.2

/-- C32: for every element without holes whose effective roof shape is `gabled`, with an
outer ring of `n` vertices and a triangulation of at least two indices, the object of the
pitches has `2 n` triangles: for the vertex `i` the triangle of the vertex before `i`, the
vertex `i` and the position `n + 2 i`, and the triangle of the positions `n + 2 i` and
`n + 2 i + 1` and the vertex before `i`, the vertex before the first being the last.  The two
positions appended for each vertex are the apex, at the height of the element plus the height
of the roof; for a ring of finite coordinates its other two coordinates are the arithmetic
means of those of the ring. -/
theorem roof_pitch_triangles (earcut : List (List NewPoint) → List Int)
    (element : CityObject)
    (hroof : effective_type_roof element = "gabled") (hholes : element.new_holes = [])
    (hidx : 2 ≤ (earcut (element_polygon element)).length) :
    ∃ m roof2, polygonal_element earcut element = Except.ok m ∧ m.roof2 = some roof2 ∧
      roof2.shape.triangles.length = 2 * element.new_coords.length ∧
      roof2.shape.positions.length = 3 * element.new_coords.length ∧
      (∀ i, i < element.new_coords.length →
        roof2.shape.triangles[2 * i]? =
          some ((ring_prev element.new_coords.length i : Int), (i : Int),
            ((element.new_coords.length + 2 * i : Nat) : Int)) ∧
        roof2.shape.triangles[2 * i + 1]? =
          some (((element.new_coords.length + 2 * i : Nat) : Int),
            ((element.new_coords.length + 2 * i + 1 : Nat) : Int),
            (ring_prev element.new_coords.length i : Int)) ∧
        roof2.shape.positions[element.new_coords.length + 2 * i]? = some (roof_apex element) ∧
        roof2.shape.positions[element.new_coords.length + 2 * i + 1]? =
          some (roof_apex element)) ∧
      (roof_apex element).y = some (element.height + element.roof_height) ∧
      (∀ pts : List Point, element.new_coords = pts.map (fun p => (some p.1, some p.2)) →
        pts ≠ [] →
        (roof_apex element).x = some (mean (pts.map Prod.fst)) ∧
        (roof_apex element).z = some (mean (pts.map Prod.snd))) := by
  obtain ⟨m, roof2, hm, h2, h3, h4, h5⟩ := roof_pitch_facts earcut element hroof hholes hidx
  refine ⟨m, roof2, hm, h2, h3, h4, ?_, rfl, ?_⟩
  · intro i hi
    obtain ⟨k1, k2, _, k4, k5⟩ := h5 i hi
    exact ⟨k1, k2, k4, k5⟩
  · intro pts hpts hne
    exact centroid_finite element.new_coords pts hpts hne

/-- C32, witness: the square building with a flat roof has eight triangles in the object of
the pitches; the first two are those of the vertex 0, whose vertex before is 3, and the
position 4 is the apex above the centre of the square. -/
theorem roof_pitch_triangles_witness :
    ∃ m roof2, polygonal_element fan_triangulation
        (square_element { CityObject.new with type := "building", roof_shape := "flat" }
          1 "building_way_6") = Except.ok m ∧
      m.roof2 = some roof2 ∧ roof2.shape.triangles.length = 8 ∧
      roof2.shape.triangles[0]? = some (3, 0, 4) ∧
      roof2.shape.triangles[1]? = some (4, 5, 3) ∧
      roof2.shape.positions[4]? = some { x := some 0, y := some (7 / 40), z := some 0 } := by
  obtain ⟨m, roof2, h1, h2, h3, _, h5, _, _⟩ := roof_pitch_triangles fan_triangulation
    (square_element { CityObject.new with type := "building", roof_shape := "flat" }
      1 "building_way_6")
    (by rw [effective_type_roof_eq]; rfl) rfl (by with_unfolding_all decide)
  obtain ⟨k1, k2, k3, _⟩ := h5 0 (by decide)
  have hapex : roof_apex
      (square_element { CityObject.new with type := "building", roof_shape := "flat" }
        1 "building_way_6") = { x := some 0, y := some (7 / 40), z := some 0 } := by
    with_unfolding_all rfl
  rw [hapex] at k3
  exact ⟨m, roof2, h1, h2, h3, k1, k2, k3⟩

/-! ## Mesh building: the triangles of the pitches without area -/

theorem position_at_of_get (positions : List Position) (k : Nat) (p : Position)
    (h : positions[k]? = some p) : position_at positions (k : Int) = p := by
  simp [position_at, List.getD, h]

theorem doubled_area_sq_same (a c : ℚ × ℚ × ℚ) : doubled_area_sq a a c = 0 := by
  simp [doubled_area_sq]

/-- A triangle with two vertices at one height and the third at another height has an area
unless its first two vertices coincide. -/
theorem doubled_area_sq_pitch (xp zp xi zi cx cz h rh : ℚ) (hrh : rh ≠ 0)
    (hne : (xi, zi) ≠ (xp, zp)) :
    doubled_area_sq (xp, h, zp) (xi, h, zi) (cx, h + rh, cz) ≠ 0 := by
  intro h0
  simp only [doubled_area_sq] at h0
  have e1 : (h - h) * (cz - zp) - (zi - zp) * (h + rh - h) = -((zi - zp) * rh) := by ring
  have e3 : (xi - xp) * (h + rh - h) - (h - h) * (cx - xp) = (xi - xp) * rh := by ring
  rw [e1, e3] at h0
  have s1 := sq_nonneg (-((zi - zp) * rh))
  have s2 := sq_nonneg ((zi - zp) * (cx - xp) - (xi - xp) * (cz - zp))
  have s3 := sq_nonneg ((xi - xp) * rh)
  have z1 : (-((zi - zp) * rh)) ^ 2 = 0 := by linarith
  have z3 : ((xi - xp) * rh) ^ 2 = 0 := by linarith
  have d1 : zi - zp = 0 := by
    have := pow_eq_zero_iff (two_ne_zero) |>.1 z1
    have := neg_eq_zero.1 this
    exact (mul_eq_zero.1 this).resolve_right hrh
  have d3 : xi - xp = 0 := by
    have := pow_eq_zero_iff (two_ne_zero) |>.1 z3
    exact (mul_eq_zero.1 this).resolve_right hrh
  apply hne
  rw [sub_eq_zero.1 d1, sub_eq_zero.1 d3]

theorem roof_apex_finite (element : CityObject) (pts : List Point)
    (hfin : element.new_coords = pts.map (fun p => (some p.1, some p.2))) (hne : pts ≠ []) :
    roof_apex element =
      { x := some (mean (pts.map Prod.fst)), y := some (element.height + element.roof_height),
        z := some (mean (pts.map Prod.snd)) } := by
  obtain ⟨h1, h2⟩ := centroid_finite element.new_coords pts hfin hne
  unfold roof_apex
  rw [h1, h2]

theorem ring_prev_lt (n i : Nat) (h : i < n) : ring_prev n i < n := by
  unfold ring_prev
  split <;> omega

/-- The positions of the vertices of the ring in the object of the pitches, for a ring of
finite coordinates. -/
theorem roof_vertex_position (element : CityObject) (pts : List Point) (i : Nat) (p : Point)
    (hfin : element.new_coords = pts.map (fun p => (some p.1, some p.2)))
    (hp : pts[i]? = some p) :
    (element.new_coords.map
      (fun elem => ({ x := elem.1, y := some element.height, z := elem.2 } : Position)))[i]? =
      some { x := some p.1, y := some element.height, z := some p.2 } := by
  rw [hfin, List.getElem?_map, List.getElem?_map, hp]
  rfl

/-- C36, as amended: for every element without holes whose effective roof shape is `gabled`,
with an outer ring of `n` vertices of finite coordinates and a triangulation of at least two
indices: the second triangle of every vertex has its first two vertices at the apex and has
no area, so that at least `n` of the `2 n` triangles of the pitches have no area; when the
height of the roof is not zero and every vertex differs from the vertex before it, the last
and the first included, the first triangle of every vertex has an area, so that exactly `n`
have none. -/
theorem roof_pitch_zero_area (earcut : List (List NewPoint) → List Int) (element : CityObject)
    (pts : List Point)
    (hroof : effective_type_roof element = "gabled") (hholes : element.new_holes = [])
    (hidx : 2 ≤ (earcut (element_polygon element)).length)
    (hfin : element.new_coords = pts.map (fun p => (some p.1, some p.2))) :
    ∃ m roof2, polygonal_element earcut element = Except.ok m ∧ m.roof2 = some roof2 ∧
      roof2.shape.triangles.length = 2 * pts.length ∧
      (∀ i, i < pts.length → ∃ t, roof2.shape.triangles[2 * i + 1]? = some t ∧
        position_at roof2.shape.positions t.1 = roof_apex element ∧
        position_at roof2.shape.positions t.2.1 = roof_apex element ∧
        zero_area roof2.shape.positions t = true) ∧
      (element.roof_height ≠ 0 →
        (∀ i, i < pts.length → pts[i]? ≠ pts[ring_prev pts.length i]?) →
        ∀ i, i < pts.length → ∃ t, roof2.shape.triangles[2 * i]? = some t ∧
          position_at roof2.shape.positions t.2.2 = roof_apex element ∧
          zero_area roof2.shape.positions t = false) := by
  have hn : element.new_coords.length = pts.length := by rw [hfin, List.length_map]
  obtain ⟨m, roof2, hm, h2, h3, _, h5⟩ := roof_pitch_facts earcut element hroof hholes hidx
  rw [hn] at h3 h5
  refine ⟨m, roof2, hm, h2, h3, ?_, ?_⟩
  · intro i hi
    have hne : pts ≠ [] := by
      intro h; rw [h] at hi; simp at hi
    obtain ⟨_, k2, _, k4, k5⟩ := h5 i hi
    have hj := ring_prev_lt pts.length i hi
    obtain ⟨q, hq⟩ : ∃ q, pts[ring_prev pts.length i]? = some q :=
      ⟨_, List.getElem?_eq_getElem hj⟩
    obtain ⟨_, _, k3, _, _⟩ := h5 _ hj
    rw [roof_vertex_position element pts _ q hfin hq] at k3
    have a1 := position_at_of_get _ _ _ k4
    have a2 := position_at_of_get _ _ _ k5
    have a3 := position_at_of_get _ _ _ k3
    refine ⟨_, k2, a1, a2, ?_⟩
    simp only [zero_area, a1, a2, a3, roof_apex_finite element pts hfin hne]
    simp only [Position.finite, doubled_area_sq_same, beq_self_eq_true]
  · intro hrh hdist i hi
    have hne : pts ≠ [] := by
      intro h; rw [h] at hi; simp at hi
    obtain ⟨k1, _, k3, k4, _⟩ := h5 i hi
    have hj := ring_prev_lt pts.length i hi
    obtain ⟨q, hq⟩ : ∃ q, pts[ring_prev pts.length i]? = some q :=
      ⟨_, List.getElem?_eq_getElem hj⟩
    obtain ⟨p, hp⟩ : ∃ p, pts[i]? = some p := ⟨_, List.getElem?_eq_getElem hi⟩
    obtain ⟨_, _, j3, _, _⟩ := h5 _ hj
    rw [roof_vertex_position element pts _ q hfin hq] at j3
    rw [roof_vertex_position element pts _ p hfin hp] at k3
    have a1 := position_at_of_get _ _ _ j3
    have a2 := position_at_of_get _ _ _ k3
    have a3 := position_at_of_get _ _ _ k4
    have hpq : (p.1, p.2) ≠ (q.1, q.2) := by
      intro h
      apply hdist i hi
      rw [hp, hq]
      exact congrArg some (Prod.ext (congrArg Prod.fst h) (congrArg Prod.snd h))
    refine ⟨_, k1, a3, ?_⟩
    simp only [zero_area, a1, a2, a3, roof_apex_finite element pts hfin hne]
    simp only [Position.finite]
    exact beq_eq_false_iff_ne.2 (doubled_area_sq_pitch _ _ _ _ _ _ _ _ hrh hpq)

/-- C36, witness: a square building with a gabled roof of height 1/10 whose four vertices
are distinct: the four second triangles have no area and the four first triangles have
one. -/
theorem roof_pitch_zero_area_witness :
    ∃ m roof2, polygonal_element fan_triangulation
        (square_element
          { CityObject.new with type := "building", roof_shape := "gabled",
                                roof_height := 1 / 10 } 1 "building_way_17") = Except.ok m ∧
      m.roof2 = some roof2 ∧ roof2.shape.triangles.length = 2 * 4 ∧
      (∀ i, i < 4 → ∃ t, roof2.shape.triangles[2 * i + 1]? = some t ∧
        zero_area roof2.shape.positions t = true) ∧
      (∀ i, i < 4 → ∃ t, roof2.shape.triangles[2 * i]? = some t ∧
        zero_area roof2.shape.positions t = false) := by
  obtain ⟨m, roof2, h1, h2, h3, h4, h5⟩ := roof_pitch_zero_area fan_triangulation
    (square_element
      { CityObject.new with type := "building", roof_shape := "gabled",
                            roof_height := 1 / 10 } 1 "building_way_17")
    [(-25, -25), (25, -25), (25, 25), (-25, 25)]
    (by rw [effective_type_roof_eq]; rfl) rfl (by with_unfolding_all decide) rfl
  have hrh : (square_element
      { CityObject.new with type := "building", roof_shape := "gabled",
                            roof_height := 1 / 10 } 1 "building_way_17").roof_height ≠ 0 := by
    show (1 / 10 : ℚ) ≠ 0
    norm_num
  have hdist : ∀ i, i < [((-25 : ℚ), (-25 : ℚ)), (25, -25), (25, 25), (-25, 25)].length →
      [((-25 : ℚ), (-25 : ℚ)), (25, -25), (25, 25), (-25, 25)][i]? ≠
        [((-25 : ℚ), (-25 : ℚ)), (25, -25), (25, 25), (-25, 25)][ring_prev
          [((-25 : ℚ), (-25 : ℚ)), (25, -25), (25, 25), (-25, 25)].length i]? := by
    intro i hi
    simp only [List.length_cons, List.length_nil] at hi
    interval_cases i <;> simp [ring_prev] <;> norm_num
  refine ⟨m, roof2, h1, h2, h3, ?_, ?_⟩
  · intro i hi
    obtain ⟨t, k1, _, _, k4⟩ := h4 i hi
    exact ⟨t, k1, k4⟩
  · intro i hi
    obtain ⟨t, k1, _, k3⟩ := h5 hrh hdist i hi
    exact ⟨t, k1, k3⟩

theorem closed_square_box :
    [((0 : ℚ), (0 : ℚ)), (10, 0), (10, 10), (0, 10), (0, 0)].foldl
      (fun c coord => c.update coord.1 coord.2) Coordinate.new = ⟨0, 0, 10, 10⟩ := by
  have h1 : min DBL_MAX 0 = 0 := min_eq_right (dbl_max_ge 0 (by norm_num)).le
  have h2 : max DBL_MIN 0 = DBL_MIN := max_eq_left dbl_min_pos.le
  have h3 : max DBL_MIN 10 = 10 :=
    max_eq_right (dbl_min_lt_one.le.trans (by norm_num))
  simp only [List.foldl, Coordinate.update_eq, Coordinate.new, h1, h2, h3]
  norm_num

theorem closed_square_pipeline :
    generate_new_coordinates [closed_square_building] [] Coordinate.new =
      Except.ok [closed_square_element] := by
  rw [generate_new_coordinates_polygon closed_square_building
    [(0, 0), (10, 0), (10, 10), (0, 10), (0, 0)] [] "way/15"
    { CityObject.new with type := "building", roof_shape := "gabled", roof_height := 1 / 10 }
    1 ⟨0, 0, 10, 10⟩ rfl rfl
    (by decide!) (by decide) (by with_unfolding_all rfl) closed_square_box]
  with_unfolding_all rfl

/-- C36, counterexample: the ring of `closed_square_building` is closed, its fifth position
repeats the first.  The object of the pitches has ten triangles, and six of them, not five,
have no area: the five second triangles and the first triangle of the vertex 0, whose two
vertices 4 and 0 are at the same position. -/
theorem roof_pitch_closed_ring :
    generate_new_coordinates [closed_square_building] [] Coordinate.new =
      Except.ok [closed_square_element] ∧
    closed_square_element.new_coords.length = 5 ∧
    closed_square_element.new_holes = [] ∧
    effective_type_roof closed_square_element = "gabled" ∧
    ∃ m roof2, polygonal_element fan_triangulation closed_square_element = Except.ok m ∧
      m.roof2 = some roof2 ∧ roof2.shape.triangles.length = 10 ∧
      (roof2.shape.triangles.filter (zero_area roof2.shape.positions)).length = 6 ∧
      roof2.shape.triangles[0]? = some (4, 0, 5) ∧
      zero_area roof2.shape.positions (4, 0, 5) = true := by
  refine ⟨closed_square_pipeline, rfl, rfl, rfl, ?_⟩
  have h : (polygonal_element fan_triangulation closed_square_element).map
      (fun m => m.roof2.map (fun (r : SceneObject) =>
        (r.shape.triangles.length,
          (r.shape.triangles.filter (zero_area r.shape.positions)).length,
          r.shape.triangles[0]?, zero_area r.shape.positions (4, 0, 5)))) =
      Except.ok (some (10, 6, some (4, 0, 5), true)) := by
    with_unfolding_all exact rfl
  cases hd : polygonal_element fan_triangulation closed_square_element with
  | error e => rw [hd] at h; cases h
  | ok m =>
    rw [hd] at h
    have h1 := Except.ok.inj h
    dsimp only at h1
    cases hr : m.roof2 with
    | none => rw [hr] at h1; cases h1
    | some roof2 =>
      rw [hr] at h1
      have h2 := Option.some.inj h1
      exact ⟨m, roof2, rfl, hr, congrArg Prod.fst h2,
        congrArg (fun x => x.2.1) h2, congrArg (fun x => x.2.2.1) h2,
        congrArg (fun x => x.2.2.2) h2⟩

/-! ## Mesh building: the triangles of a list of indices that is not empty -/

theorem triangle_loop_from_triples (indices : List Int) (m : Nat) (hm : 1 ≤ m)
    (hlen : indices.length = 3 * m) (fuel j : Nat) (triangles : List (Int × Int × Int))
    (hj : j ≤ m) (hfuel : m - j < fuel) :
    triangle_loop_from indices fuel (3 * j) triangles =
      Except.ok (triangles ++ (List.range' j (m - j)).map (fun k =>
        (indices.getD (3 * k) 0, indices.getD (3 * k + 1) 0, indices.getD (3 * k + 2) 0))) := by
  induction fuel generalizing j triangles with
  | zero => omega
  | succ fuel ih =>
    rw [triangle_loop_from]
    have hb : ¬ indices.length < 2 := by omega
    simp only [hb, ↓reduceIte]
    by_cases hlt : j < m
    · have hk : 3 * j < indices.length - 2 := by omega
      have h0 : 3 * j < indices.length := by omega
      have h1 : 3 * j + 1 < indices.length := by omega
      have h2 : 3 * j + 2 < indices.length := by omega
      simp only [hk, ↓reduceIte]
      rw [List.getElem?_eq_getElem h0, List.getElem?_eq_getElem h1,
        List.getElem?_eq_getElem h2]
      simp only
      have e : 3 * j + 3 = 3 * (j + 1) := by ring
      rw [e, ih (j + 1) _ (by omega) (by omega)]
      have hr : m - j = (m - (j + 1)) + 1 := by omega
      rw [hr, List.range'_succ, List.map_cons, List.getD_eq_getElem _ _ h0,
        List.getD_eq_getElem _ _ h1, List.getD_eq_getElem _ _ h2]
      simp
    · have hjm : j = m := by omega
      have hk : ¬ 3 * j < indices.length - 2 := by omega
      simp only [hk, ↓reduceIte]
      subst hjm
      simp
      rfl

/-- For a list of `3 m` indices with `m` at least 1 the loop returns the `m` consecutive
triples and reads no position outside the list. -/
theorem triangle_loop_triples (indices : List Int) (m : Nat) (hm : 1 ≤ m)
    (hlen : indices.length = 3 * m) :
    triangle_loop indices =
      Except.ok ((List.range m).map (fun k =>
        (indices.getD (3 * k) 0, indices.getD (3 * k + 1) 0, indices.getD (3 * k + 2) 0))) := by
  have h := triangle_loop_from_triples indices m hm hlen (indices.length + 1) 0 []
    (by omega) (by omega)
  rw [triangle_loop]
  simpa [List.range_eq_range'] using h

end YoctoCity
